import Mathlib

/-!
THELI debayering core (`src/tools/debayer.cc`).

Shallow embedding of `hue_transit`, `direction`, `debayer` and
`equalizeBayerFlat`, followed by the properties established about them.

Conventions of the embedding:

* `float`/`double` arithmetic is taken as exact arithmetic over `ℚ`.  Division is the
  total division of `ℚ`; every statement that goes through a data dependent division
  carries the hypothesis that the divisor is not zero.
* `QVector<float>` is a `List ℚ`.  `operator[]` is `rd` for reads and `wr` for
  writes.  An index outside the vector is undefined behaviour in the source; the
  embedding makes such a read yield `0` and such a write a no-op.
* `int`/`long` index arithmetic is done in `Int` (no subtraction is truncated); image
  sizes are natural numbers and `n*m` is assumed to fit the machine type, as it has to
  for a vector of `n*m` elements to exist.
* The four `MyImage*` arguments of `debayer` are taken to point to four distinct
  objects, so that the function is a map from four images to four images.
-/

namespace THELI

/-! ## Pixel buffers -/

/-- Read `a[idx]`, with `idx` computed in signed arithmetic. -/
def rd (a : List ℚ) (idx : Int) : ℚ :=
  if idx < 0 then 0 else a.getD idx.toNat 0

/-- Write `a[k] = v`. -/
def wr (a : List ℚ) (k : Nat) (v : ℚ) : List ℚ :=
  a.set k v

/-- The call `QVector<float>::resize(sz)`: keeps the leading elements, pads with zeros. -/
def resize (a : List ℚ) (sz : Nat) : List ℚ :=
  a.take sz ++ List.replicate (sz - a.length) 0

/-! ## `hue_transit` and `direction` (debayer.cc 26-46) -/

/-- The function `hue_transit` of debayer.cc, lines 26-33. -/
def hue_transit (l1 l2 l3 v1 v3 : ℚ) : ℚ :=
  if (l1 < l2 ∧ l2 < l3) ∨ (l1 > l2 ∧ l2 > l3) then
    v1 + (v3 - v1) * (l2 - l1) / (l3 - l1)
  else
    (v1 + v3) / 2 + (l2 * 2 - l1 - l3) / 4

/-- The function `direction` of debayer.cc, lines 36-46. -/
def direction (N E W S : ℚ) : Int :=
  if N < E ∧ W < S then
    if N < W then 1 else 3
  else
    if E < S then 2 else 4

/-! ## The image object -/

/-- Modelled from the spec: the class `MyImage` is declared in `myimage/myimage.h`, which
is not among the sources.  The structure holds the members that debayer.cc reads or
writes.  `bayer` is the value of `getKeyword("BAYER")`; `corners` is what
`cornersToRaDec()` recomputes; `wcs` is kept as an uninterpreted payload. -/
structure MyImage where
  successProcessing : Bool
  bayer : String
  naxis1 : Nat
  naxis2 : Nat
  dataCurrent : List ℚ
  path : String
  weightPath : String
  baseName : String
  rootName : String
  chipName : String
  chipNumber : Int
  exptime : ℚ
  header : List String
  pathBackupL1 : String
  baseNameBackupL1 : String
  imageInMemory : Bool
  wcs : List ℚ
  plateScale : ℚ
  wcsInit : Bool
  gain : ℚ
  airmass : ℚ
  fwhm : ℚ
  fwhm_est : ℚ
  ellipticity : ℚ
  ellipticity_est : ℚ
  RZP : ℚ
  gainNormalization : ℚ
  hasMJDread : Bool
  headerInfoProvided : Bool
  skyValue : ℚ
  modeDetermined : Bool
  fullheader : String
  dateobs : String
  mjdobs : ℚ
  filter : String
  corners : List ℚ
  deriving DecidableEq

/-- Modelled from the spec: the member functions `MyImage::cornersToRaDec` and
`MyImage::updateMode` are defined outside the sources.  They are taken as parameters:
`cornersToRaDec` yields the new value of `corners`, `updateMode` the recomputed
summary statistic (the mode), stored in `skyValue`.  Neither touches the pixels. -/
structure Collab where
  cornersToRaDec : MyImage → List ℚ
  updateMode : MyImage → ℚ

/-! ## Raster loops -/

/-- The loop nest `for (j=0; j<m; ++j) for (i=0; i<n; ++i) body(j,i)`. -/
def raster {σ : Type} (n m : Nat) (body : Nat → Nat → σ → σ) (s : σ) : σ :=
  (List.range m).foldl (fun s j => (List.range n).foldl (fun s i => body j i s) s) s

/-- The three output vectors `R`, `G`, `B` and the running counter `k`. -/
structure Channels where
  R : List ℚ
  G : List ℚ
  B : List ℚ
  k : Nat
  deriving DecidableEq

/-- The statement `++k`. -/
def Channels.next (s : Channels) : Channels :=
  { s with k := s.k + 1 }

/-- The three assignments `R[k] = r; G[k] = g; B[k] = b;`. -/
def Channels.setRGB (s : Channels) (r g b : ℚ) : Channels :=
  { s with R := wr s.R s.k r, G := wr s.G s.k g, B := wr s.B s.k b }

/-! ## Pass 1 (debayer.cc 190-236) -/

/-- The `switch (direction(DN,DE,DW,DS))` of lines 208-213, repeated on lines 217-222:
the value assigned to `G[k]`, if any. -/
def greenSwitch (n : Int) (I : List ℚ) (i j : Int) (d : Int) : Option ℚ :=
  if d = 1 then
    some ((rd I (i - n + n * j) * 3 + rd I (i + n * j) + rd I (i + n + n * j)
      - rd I (i - 2 * n + n * j)) / 4)
  else if d = 2 then
    some ((rd I (i + 1 + n * j) * 3 + rd I (i + n * j) + rd I (i - 1 + n * j)
      - rd I (i + 2 + n * j)) / 4)
  else if d = 3 then
    some ((rd I (i - 1 + n * j) * 3 + rd I (i + n * j) + rd I (i + 1 + n * j)
      - rd I (i - 2 + n * j)) / 4)
  else if d = 4 then
    some ((rd I (i + n + n * j) * 3 + rd I (i + n * j) + rd I (i - n + n * j)
      - rd I (i + 2 * n + n * j)) / 4)
  else none

/-- Gradient `DN` of line 201. -/
def gradN (n : Int) (I : List ℚ) (i j : Int) : ℚ :=
  abs (rd I (i - 2 * n + n * j) - rd I (i + n * j)) * 2
    + abs (rd I (i - n + n * j) - rd I (i + n + n * j))

/-- Gradient `DE` of line 202. -/
def gradE (n : Int) (I : List ℚ) (i j : Int) : ℚ :=
  abs (rd I (i + n * j) - rd I (i + 2 + n * j)) * 2
    + abs (rd I (i - 1 + n * j) - rd I (i + 1 + n * j))

/-- Gradient `DW` of line 203. -/
def gradW (n : Int) (I : List ℚ) (i j : Int) : ℚ :=
  abs (rd I (i - 2 + n * j) - rd I (i + n * j)) * 2
    + abs (rd I (i - 1 + n * j) - rd I (i + 1 + n * j))

/-- Gradient `DS` of line 204. -/
def gradS (n : Int) (I : List ℚ) (i j : Int) : ℚ :=
  abs (rd I (i + n * j) - rd I (i + 2 * n + n * j)) * 2
    + abs (rd I (i - n + n * j) - rd I (i + n + n * j))

/-- Body of the first loop nest (lines 193-234) at row `j`, column `i`. -/
def pass1Pixel (n m xoffset yoffset : Int) (I : List ℚ) (j i : Int) (s : Channels) :
    Channels :=
  if j ≤ 2 ∨ j ≥ m - 3 ∨ i ≤ 2 ∨ i ≥ n - 3 then
    (s.setRGB (rd I (i + n * j)) (rd I (i + n * j)) (rd I (i + n * j))).next
  else
    let DN := gradN n I i j
    let DE := gradE n I i j
    let DW := gradW n I i j
    let DS := gradS n I i j
    if (j + yoffset) % 2 = 0 ∧ (i + xoffset) % 2 = 0 then
      let s1 : Channels := { s with R := wr s.R s.k (rd I (i + n * j)) }
      let s2 : Channels :=
        match greenSwitch n I i j (direction DN DE DW DS) with
        | some g => { s1 with G := wr s1.G s1.k g }
        | none => s1
      s2.next
    else if (j + yoffset) % 2 = 1 ∧ (i + xoffset) % 2 = 1 then
      let s1 : Channels :=
        match greenSwitch n I i j (direction DN DE DW DS) with
        | some g => { s with G := wr s.G s.k g }
        | none => s
      let s2 : Channels := { s1 with B := wr s1.B s1.k (rd I (i + n * j)) }
      s2.next
    else if (j + yoffset) % 2 = 1 ∧ (i + xoffset) % 2 = 0 then
      ({ s with G := wr s.G s.k (rd I (i + n * j)) } : Channels).next
    else if (j + yoffset) % 2 = 0 ∧ (i + xoffset) % 2 = 1 then
      ({ s with G := wr s.G s.k (rd I (i + n * j)) } : Channels).next
    else s

/-! ## Pass 2 (debayer.cc 238-374) -/

/-- Lines 245-266: the four assignments of the branch `!xoffset && !yoffset`. -/
def borderRGGB (n xoffset yoffset : Int) (I : List ℚ) (j i : Int) (s : Channels) :
    Channels :=
  if (j + yoffset) % 2 = 0 ∧ (i + xoffset) % 2 = 0 then
    s.setRGB (rd I (i + n * j)) (rd I (i + 1 + n * j)) (rd I (i + 1 + n + n * j))
  else if (j + yoffset) % 2 = 1 ∧ (i + xoffset) % 2 = 0 then
    s.setRGB (rd I (i - n + n * j)) (rd I (i + n * j)) (rd I (i + 1 + n * j))
  else if (j + yoffset) % 2 = 0 ∧ (i + xoffset) % 2 = 1 then
    s.setRGB (rd I (i - 1 + n * j)) (rd I (i + n * j)) (rd I (i + n + n * j))
  else if (j + yoffset) % 2 = 1 ∧ (i + xoffset) % 2 = 1 then
    s.setRGB (rd I (i - 1 - n + n * j)) (rd I (i - 1 + n * j)) (rd I (i + n * j))
  else s

/-- Lines 267-288: the four assignments of the branch `xoffset && !yoffset`. -/
def borderGRBG (n xoffset yoffset : Int) (I : List ℚ) (j i : Int) (s : Channels) :
    Channels :=
  if (j + yoffset) % 2 = 0 ∧ (i + xoffset) % 2 = 0 then
    s.setRGB (rd I (i + n * j)) (rd I (i - 1 + n * j)) (rd I (i - 1 + n + n * j))
  else if (j + yoffset) % 2 = 1 ∧ (i + xoffset) % 2 = 0 then
    s.setRGB (rd I (i - n + n * j)) (rd I (i + n * j)) (rd I (i - 1 + n * j))
  else if (j + yoffset) % 2 = 0 ∧ (i + xoffset) % 2 = 1 then
    s.setRGB (rd I (i + 1 + n * j)) (rd I (i + n * j)) (rd I (i + n + n * j))
  else if (j + yoffset) % 2 = 1 ∧ (i + xoffset) % 2 = 1 then
    s.setRGB (rd I (i + 1 - n + n * j)) (rd I (i + 1 + n * j)) (rd I (i + n * j))
  else s

/-- Lines 289-310: the four assignments of the branch `!xoffset && yoffset`. -/
def borderGBRG (n xoffset yoffset : Int) (I : List ℚ) (j i : Int) (s : Channels) :
    Channels :=
  if (j + yoffset) % 2 = 0 ∧ (i + xoffset) % 2 = 0 then
    s.setRGB (rd I (i + n * j)) (rd I (i - n + n * j)) (rd I (i + 1 - n + n * j))
  else if (j + yoffset) % 2 = 1 ∧ (i + xoffset) % 2 = 0 then
    s.setRGB (rd I (i + n + n * j)) (rd I (i + n * j)) (rd I (i + 1 + n * j))
  else if (j + yoffset) % 2 = 0 ∧ (i + xoffset) % 2 = 1 then
    s.setRGB (rd I (i - 1 + n * j)) (rd I (i + n * j)) (rd I (i - n + n * j))
  else if (j + yoffset) % 2 = 1 ∧ (i + xoffset) % 2 = 1 then
    s.setRGB (rd I (i - 1 + n + n * j)) (rd I (i - 1 + n * j)) (rd I (i + n * j))
  else s

/-- Lines 311-332: the four assignments of the branch `xoffset && yoffset`. -/
def borderBGGR (n xoffset yoffset : Int) (I : List ℚ) (j i : Int) (s : Channels) :
    Channels :=
  if (j + yoffset) % 2 = 0 ∧ (i + xoffset) % 2 = 0 then
    s.setRGB (rd I (i + n * j)) (rd I (i - 1 + n * j)) (rd I (i - 1 - n + n * j))
  else if (j + yoffset) % 2 = 1 ∧ (i + xoffset) % 2 = 0 then
    s.setRGB (rd I (i + n + n * j)) (rd I (i + n * j)) (rd I (i - 1 + n * j))
  else if (j + yoffset) % 2 = 0 ∧ (i + xoffset) % 2 = 1 then
    s.setRGB (rd I (i + 1 + n * j)) (rd I (i + n * j)) (rd I (i - n + n * j))
  else if (j + yoffset) % 2 = 1 ∧ (i + xoffset) % 2 = 1 then
    s.setRGB (rd I (i + 1 + n + n * j)) (rd I (i + 1 + n * j)) (rd I (i + n * j))
  else s

/-- Border branch of the second loop nest (lines 245-332), without the final `++k`. -/
def pass2Border (n xoffset yoffset : Int) (I : List ℚ) (j i : Int) (s : Channels) :
    Channels :=
  if xoffset = 0 ∧ yoffset = 0 then borderRGGB n xoffset yoffset I j i s
  else if xoffset ≠ 0 ∧ yoffset = 0 then borderGRBG n xoffset yoffset I j i s
  else if xoffset = 0 ∧ yoffset ≠ 0 then borderGBRG n xoffset yoffset I j i s
  else if xoffset ≠ 0 ∧ yoffset ≠ 0 then borderBGGR n xoffset yoffset I j i s
  else s

/-- Diagonal gradient `dne` of lines 337-341. -/
def gradNE (n : Int) (I G : List ℚ) (i j : Int) : ℚ :=
  abs (rd I (i - n + 1 + n * j) - rd I (i + n - 1 + n * j))
    + abs (rd I (i - 2 * n + 2 + n * j) - rd I (i + n * j))
    + abs (rd I (i + n * j) - rd I (i + 2 * n - 2 + n * j))
    + abs (rd G (i - n + 1 + n * j) - rd G (i + n * j))
    + abs (rd G (i + n * j) - rd G (i + n - 1 + n * j))

/-- Diagonal gradient `dnw` of lines 342-346. -/
def gradNW (n : Int) (I G : List ℚ) (i j : Int) : ℚ :=
  abs (rd I (i - n - 1 + n * j) - rd I (i + n + 1 + n * j))
    + abs (rd I (i - 2 - 2 * n + n * j) - rd I (i + n * j))
    + abs (rd I (i + n * j) - rd I (i + 2 + 2 * n + n * j))
    + abs (rd G (i - n - 1 + n * j) - rd G (i + n * j))
    + abs (rd G (i + n * j) - rd G (i + n + 1 + n * j))

/-- Interior branch of the second loop nest (lines 336-371). -/
def pass2Interior (n xoffset yoffset : Int) (I : List ℚ) (j i : Int) (s : Channels) :
    Channels :=
  let G := s.G
  let dne := gradNE n I G i j
  let dnw := gradNW n I G i j
  if (j + yoffset) % 2 = 0 ∧ (i + xoffset) % 2 = 0 then
    let s1 : Channels :=
      if dne ≤ dnw then
        { s with B := wr s.B s.k (hue_transit (rd G (i - n + 1 + n * j)) (rd G (i + n * j))
            (rd G (i + n - 1 + n * j)) (rd I (i - n + 1 + n * j)) (rd I (i + n - 1 + n * j))) }
      else
        { s with B := wr s.B s.k (hue_transit (rd G (i - n - 1 + n * j)) (rd G (i + n * j))
            (rd G (i + n + 1 + n * j)) (rd I (i - n - 1 + n * j)) (rd I (i + n + 1 + n * j))) }
    s1.next
  else if (j + yoffset) % 2 = 1 ∧ (i + xoffset) % 2 = 0 then
    let s1 : Channels :=
      { s with R := wr s.R s.k (hue_transit (rd G (i - n + n * j)) (rd I (i + n * j))
          (rd G (i + n + n * j)) (rd I (i - n + n * j)) (rd I (i + n + n * j))) }
    let s2 : Channels :=
      { s1 with B := wr s1.B s1.k (hue_transit (rd G (i - 1 + n * j)) (rd I (i + n * j))
          (rd G (i + 1 + n * j)) (rd I (i - 1 + n * j)) (rd I (i + 1 + n * j))) }
    s2.next
  else if (j + yoffset) % 2 = 0 ∧ (i + xoffset) % 2 = 1 then
    let s1 : Channels :=
      { s with R := wr s.R s.k (hue_transit (rd G (i - 1 + n * j)) (rd I (i + n * j))
          (rd G (i + 1 + n * j)) (rd I (i - 1 + n * j)) (rd I (i + 1 + n * j))) }
    let s2 : Channels :=
      { s1 with B := wr s1.B s1.k (hue_transit (rd G (i - n + n * j)) (rd I (i + n * j))
          (rd G (i + n + n * j)) (rd I (i - n + n * j)) (rd I (i + n + n * j))) }
    s2.next
  else if (j + yoffset) % 2 = 1 ∧ (i + xoffset) % 2 = 1 then
    let s1 : Channels :=
      if dne ≤ dnw then
        { s with R := wr s.R s.k (hue_transit (rd G (i - n + 1 + n * j)) (rd G (i + n * j))
            (rd G (i + n - 1 + n * j)) (rd I (i - n + 1 + n * j)) (rd I (i + n - 1 + n * j))) }
      else
        { s with R := wr s.R s.k (hue_transit (rd G (i - n - 1 + n * j)) (rd G (i + n * j))
            (rd G (i + n + 1 + n * j)) (rd I (i - n - 1 + n * j)) (rd I (i + n + 1 + n * j))) }
    s1.next
  else s

/-- Body of the second loop nest (lines 244-372) at row `j`, column `i`. -/
def pass2Pixel (n m xoffset yoffset : Int) (I : List ℚ) (j i : Int) (s : Channels) :
    Channels :=
  if j ≤ 2 ∨ j ≥ m - 3 ∨ i ≤ 2 ∨ i ≥ n - 3 then
    (pass2Border n xoffset yoffset I j i s).next
  else
    pass2Interior n xoffset yoffset I j i s

/-- First loop nest, lines 190-236. -/
def pass1 (n m : Nat) (xoffset yoffset : Int) (I : List ℚ) (s : Channels) : Channels :=
  raster n m (fun j i s => pass1Pixel n m xoffset yoffset I j i s) s

/-- Second loop nest, lines 241-374. -/
def pass2 (n m : Nat) (xoffset yoffset : Int) (I : List ℚ) (s : Channels) : Channels :=
  raster n m (fun j i s => pass2Pixel n m xoffset yoffset I j i s) s

/-- The PPG algorithm, lines 182-374: `k = 0`, pass 1, `k = 0`, pass 2.  `n`, `m` are the
(truncated) sizes, `I` the raw vector, `R`, `G`, `B` the output vectors on entry. -/
def ppg (n m : Nat) (xoffset yoffset : Int) (I R G B : List ℚ) : Channels :=
  let s1 := pass1 n m xoffset yoffset I { R := R, G := G, B := B, k := 0 }
  pass2 n m xoffset yoffset I { s1 with k := 0 }

/-! ## `debayer` (debayer.cc 55-377) -/

/-- The call `QString::resize(size, fill)`: truncate, or pad with `fill`. -/
def qresize (s : String) (size : Nat) (fill : Char) : String :=
  String.mk (s.toList.take size ++ List.replicate (size - s.toList.length) fill)

/-- The test `card.contains(pat)`: `pat` occurs as a contiguous piece of `card`. -/
def qcontains (card pat : String) : Bool :=
  card.toList.tails.any (fun t => pat.toList.isPrefixOf t)

/-- Loop body of lines 133-138 (and 139-150): rewrite one header card for filter `f`. -/
def filterCard (f : String) (card : String) : String :=
  if qcontains card "FILTER  = " then qresize ("FILTER  = '" ++ f ++ "'") 80 ' ' else card

/-- Body of the loop over `imageB, imageG, imageR` (lines 80-118) for one channel `it`. -/
def setupChannel (c : Collab) (image : MyImage) (n m : Nat) (mjdOffset : ℚ)
    (it : MyImage) : MyImage :=
  let it1 : MyImage :=
    { it with
      naxis1 := n
      naxis2 := m
      dataCurrent := resize it.dataCurrent (n * m)
      path := image.path
      weightPath := image.weightPath
      baseName := image.rootName
      rootName := image.rootName
      chipName := image.rootName ++ "_" ++ toString image.chipNumber
      exptime := image.exptime
      header := image.header
      pathBackupL1 := image.pathBackupL1
      baseNameBackupL1 := image.baseNameBackupL1
      imageInMemory := true
      wcs := image.wcs
      plateScale := image.plateScale
      wcsInit := image.wcsInit
      gain := image.gain
      airmass := image.airmass
      fwhm := image.fwhm
      fwhm_est := image.fwhm_est
      ellipticity := image.ellipticity
      ellipticity_est := image.ellipticity_est
      RZP := image.RZP
      gainNormalization := image.gainNormalization
      hasMJDread := image.hasMJDread
      headerInfoProvided := image.headerInfoProvided
      skyValue := image.skyValue
      modeDetermined := image.modeDetermined
      fullheader := image.fullheader
      dateobs := image.dateobs }
  let it2 : MyImage := { it1 with corners := c.cornersToRaDec it1 }
  { it2 with mjdobs := image.mjdobs + mjdOffset }

/-- Lines 121-150 for one channel with letter `f`: names, filter tag, header cards. -/
def labelChannel (chip : Int) (f : String) (it : MyImage) : MyImage :=
  let baseName := it.baseName ++ ("_" ++ f ++ "_" ++ toString (chip + 1))
  { it with
    baseName := baseName
    rootName := it.rootName ++ ("_" ++ f)
    chipName := baseName
    filter := f
    header := it.header.map (filterCard f) }

/-- The increment `1.e-6` of line 119. -/
def mjdStep : ℚ := 1 / 1000000

/-- Lines 155-173: the pair `(xoffset, yoffset)` chosen for a pattern. -/
def bayerOffsets (pattern : String) : Int × Int :=
  if pattern = "RGGB" then (0, 0)
  else if pattern = "GRBG" then (1, 0)
  else if pattern = "GBRG" then (0, 1)
  else (1, 1)

/-- Result of `debayer`: the input image and the three channel images after the call. -/
structure DebayerResult where
  image : MyImage
  imageB : MyImage
  imageG : MyImage
  imageR : MyImage

/-- The function `debayer` of debayer.cc, lines 55-377. -/
def debayer (c : Collab) (chip : Int) (image imageB imageG imageR : MyImage) :
    DebayerResult :=
  if image.successProcessing = false then
    { image := image, imageB := imageB, imageG := imageG, imageR := imageR }
  else
    let pattern := image.bayer
    if pattern ≠ "RGGB" ∧ pattern ≠ "GRBG" ∧ pattern ≠ "GBRG" ∧ pattern ≠ "BGGR" then
      { image := { image with successProcessing := false },
        imageB := imageB, imageG := imageG, imageR := imageR }
    else
      let n := image.naxis1
      let m := image.naxis2
      let n := if n % 2 ≠ 0 then n - 1 else n
      let m := if m % 2 ≠ 0 then m - 1 else m
      let mjdOffset : ℚ := 0
      let b1 := setupChannel c image n m mjdOffset imageB
      let mjdOffset := mjdOffset + mjdStep
      let g1 := setupChannel c image n m mjdOffset imageG
      let mjdOffset := mjdOffset + mjdStep
      let r1 := setupChannel c image n m mjdOffset imageR
      let b2 := labelChannel chip "B" b1
      let g2 := labelChannel chip "G" g1
      let r2 := labelChannel chip "R" r1
      let xoffset := (bayerOffsets pattern).1
      let yoffset := (bayerOffsets pattern).2
      let out := ppg n m xoffset yoffset image.dataCurrent
        r2.dataCurrent g2.dataCurrent b2.dataCurrent
      { image := image,
        imageB := { b2 with dataCurrent := out.B },
        imageG := { g2 with dataCurrent := out.G },
        imageR := { r2 with dataCurrent := out.R } }

/-! ## `equalizeBayerFlat` (debayer.cc 390-435) -/

/-- The loop nest `for (j=0; j<m-1; j+=2) for (i=0; i<n-1; i+=2) body(j,i)`: `j` takes
the values `2*tj` for `tj < m/2` and `i` the values `2*ti` for `ti < n/2`. -/
def tiles {σ : Type} (n m : Nat) (body : Nat → Nat → σ → σ) (s : σ) : σ :=
  (List.range (m / 2)).foldl
    (fun s tj => (List.range (n / 2)).foldl (fun s ti => body (2 * tj) (2 * ti) s) s) s

/-- The four accumulators `ll`, `lr`, `ul`, `ur`. -/
structure SuperPixel where
  ll : ℚ
  lr : ℚ
  ul : ℚ
  ur : ℚ
  deriving DecidableEq

/-- Lines 396-408: the four sums over the 2x2 tiles. -/
def superSums (n m : Nat) (d : List ℚ) : SuperPixel :=
  tiles n m
    (fun j i (a : SuperPixel) =>
      let n : Int := n
      let i : Int := i
      let j : Int := j
      { ll := a.ll + rd d (i + n * j)
        lr := a.lr + rd d (i + 1 + n * j)
        ul := a.ul + rd d (i + n * (j + 1))
        ur := a.ur + rd d (i + 1 + n * (j + 1)) })
    { ll := 0, lr := 0, ul := 0, ur := 0 }

/-- Lines 410-413: the sums divided by `n*m/4.`. -/
def superMeans (n m : Nat) (d : List ℚ) : SuperPixel :=
  let a := superSums n m d
  let q : ℚ := ((n * m : Nat) : ℚ) / 4
  { ll := a.ll / q, lr := a.lr / q, ul := a.ul / q, ur := a.ur / q }

/-- Lines 417-421: the means divided by their average `sum`. -/
def superFactors (n m : Nat) (d : List ℚ) : SuperPixel :=
  let a := superMeans n m d
  let sum : ℚ := (a.ll + a.lr + a.ul + a.ur) / 4
  { ll := a.ll / sum, lr := a.lr / sum, ul := a.ul / sum, ur := a.ur / sum }

/-- The compound assignment `d[idx] /= f`. -/
def divAt (d : List ℚ) (idx : Int) (f : ℚ) : List ℚ :=
  if idx < 0 then d else wr d idx.toNat (rd d idx / f)

/-- Lines 424-431: every pixel of every tile divided by the factor of its sub-position. -/
def normalizeFlat (n m : Nat) (f : SuperPixel) (d : List ℚ) : List ℚ :=
  tiles n m
    (fun j i (d : List ℚ) =>
      let n : Int := n
      let i : Int := i
      let j : Int := j
      let d1 := divAt d (i + n * j) f.ll
      let d2 := divAt d1 (i + 1 + n * j) f.lr
      let d3 := divAt d2 (i + n * (j + 1)) f.ul
      divAt d3 (i + 1 + n * (j + 1)) f.ur)
    d

/-- The function `equalizeBayerFlat` of debayer.cc, lines 390-435. -/
def equalizeBayerFlat (c : Collab) (image : MyImage) : MyImage :=
  let n := image.naxis1
  let m := image.naxis2
  let f := superFactors n m image.dataCurrent
  let image1 : MyImage := { image with dataCurrent := normalizeFlat n m f image.dataCurrent }
  { image1 with skyValue := c.updateMode image1 }

/-! ## Values used in examples -/

/-- An image with no pixels and empty metadata. -/
def blankImage : MyImage :=
  { successProcessing := true, bayer := "", naxis1 := 0, naxis2 := 0, dataCurrent := [],
    path := "", weightPath := "", baseName := "", rootName := "", chipName := "",
    chipNumber := 0, exptime := 0, header := [], pathBackupL1 := "", baseNameBackupL1 := "",
    imageInMemory := false, wcs := [], plateScale := 0, wcsInit := false, gain := 0,
    airmass := 0, fwhm := 0, fwhm_est := 0, ellipticity := 0, ellipticity_est := 0, RZP := 0,
    gainNormalization := 0, hasMJDread := false, headerInfoProvided := false, skyValue := 0,
    modeDetermined := false, fullheader := "", dateobs := "", mjdobs := 0, filter := "",
    corners := [] }

/-- A raw image of width `w`, height `h`, pattern tag `pattern` and pixels `d`. -/
def rawImage (pattern : String) (w h : Nat) (d : List ℚ) : MyImage :=
  { blankImage with bayer := pattern, naxis1 := w, naxis2 := h, dataCurrent := d }

/-- Collaborators that compute nothing. -/
def noCollab : Collab :=
  { cornersToRaDec := fun _ => [], updateMode := fun _ => 0 }

/-! ## Auxiliary notions for the proofs -/

/-- The values of the three channels at index `q`. -/
def Channels.px (s : Channels) (q : Int) : ℚ × ℚ × ℚ :=
  (rd s.R q, rd s.G q, rd s.B q)

/-- A loop body that assigns nothing but `R[k]`, `G[k]`, `B[k]` and then does `++k`. -/
def WritesK (f : Channels → Channels) : Prop :=
  ∀ s : Channels, ∃ r g b : ℚ,
    f s = { R := wr s.R s.k r, G := wr s.G s.k g, B := wr s.B s.k b, k := s.k + 1 }

/-! ## Reference definitions taken from the specification -/

/-- hue_transit as the specification words it: linear interpolation of the colour along a
monotonic green triplet, otherwise the average of the two flanking colour samples plus the
correction `(2*mid - left - right)/4`. -/
def hue_transit_spec (l1 l2 l3 v1 v3 : ℚ) : ℚ :=
  if (l1 < l2 ∧ l2 < l3) ∨ (l1 > l2 ∧ l2 > l3) then
    v1 + (v3 - v1) * (l2 - l1) / (l3 - l1)
  else
    (v1 + v3) / 2 + (2 * l2 - l1 - l3) / 4

/-- The factor of the sub-position with column parity `dx` and row parity `dy`:
`(0,0)` lower-left, `(1,0)` lower-right, `(0,1)` upper-left, `(1,1)` upper-right. -/
def SuperPixel.sub (f : SuperPixel) (dx dy : Nat) : ℚ :=
  if dy = 0 then (if dx = 0 then f.ll else f.lr) else (if dx = 0 then f.ul else f.ur)

/-- Sum of the sub-position `(dx,dy)` over the complete 2x2 tiles of a `w` x `h` grid. -/
def tileSum (w h : Nat) (d : List ℚ) (dx dy : Nat) : ℚ :=
  ∑ tj ∈ Finset.range (h / 2), ∑ ti ∈ Finset.range (w / 2),
    rd d (((2 * ti + dx) + w * (2 * tj + dy) : Nat) : Int)

/-- Mean of the sub-position `(dx,dy)`: its sum divided by the number of complete tiles. -/
def tileMean (w h : Nat) (d : List ℚ) (dx dy : Nat) : ℚ :=
  tileSum w h d dx dy / (((w / 2) * (h / 2) : Nat) : ℚ)

/-- The average of the four sub-position means. -/
def tileAverage (w h : Nat) (d : List ℚ) : ℚ :=
  (tileMean w h d 0 0 + tileMean w h d 1 0 + tileMean w h d 0 1 + tileMean w h d 1 1) / 4

/-- The normalised mean of the sub-position `(dx,dy)`: its mean divided by the average of
the four means. -/
def specFactor (w h : Nat) (d : List ℚ) (dx dy : Nat) : ℚ :=
  tileMean w h d dx dy / tileAverage w h d

/-- The mean of all the pixels of a `w` x `h` grid. -/
def gridMean (w h : Nat) (d : List ℚ) : ℚ :=
  (∑ j ∈ Finset.range h, ∑ i ∈ Finset.range w, rd d ((i + w * j : Nat) : Int))
    / ((w * h : Nat) : ℚ)

/-- The 4x4 grid whose sub-positions hold the constants `a` (lower-left), `b` (lower-right),
`c` (upper-left) and `d` (upper-right). -/
def grid4 (a b c d : ℚ) : List ℚ :=
  [a, b, a, b, c, d, c, d, a, b, a, b, c, d, c, d]

/-- A raw 8x8 grid with pairwise distinct samples `0, 1, ..., 63`. -/
def ramp64 : List ℚ :=
  (List.range 64).map (fun p => (p : ℚ))

/-- The grid of width `w - w%2` and height `h - h%2` that keeps `raw(i,j)`, read from the
row-major vector `d` of stride `w`, for `i < w - w%2` and `j < h - h%2`. -/
def cropEven (w h : Nat) (d : List ℚ) : List ℚ :=
  (List.range ((w - w % 2) * (h - h % 2))).map
    (fun p => rd d ((p % (w - w % 2) + w * (p / (w - w % 2)) : Nat) : Int))

/-- The colour of the site at column `i`, row `j`, as classified by the tests of lines
206-230 (repeated on lines 246-371): both sums even is a red pixel, both odd a blue pixel,
mixed parity a green pixel. -/
def siteColour (xoffset yoffset : Int) (i j : Int) : Char :=
  if (j + yoffset) % 2 = 0 ∧ (i + xoffset) % 2 = 0 then 'R'
  else if (j + yoffset) % 2 = 1 ∧ (i + xoffset) % 2 = 1 then 'B'
  else 'G'

/-- The header card of exactly 80 characters made of `FILTER  = 'X'` followed by spaces. -/
def filterCard80 (f : Char) : String :=
  String.mk (['F', 'I', 'L', 'T', 'E', 'R', ' ', ' ', '=', ' ', '\'', f, '\'']
    ++ List.replicate 67 ' ')

/-- The green channel as pass 2 finds it when it reaches the pixel of index `p`: the
elements below `p` have their final values, those from `p` on still hold the values left
by pass 1. -/
def greenSeen (p : Nat) (Gfinal Gpass1 : List ℚ) : List ℚ :=
  Gfinal.take p ++ Gpass1.drop p

/-- The raw sample at column `x`, row `y` of a grid of width `n`. -/
def rawAt (n : Nat) (I : List ℚ) (x y : Int) : ℚ :=
  rd I (x + (n : Int) * y)

/-- Green at a red or blue site as the specification words it: with `d` the direction of
the four gradients `DN`, `DE`, `DW`, `DS`, triple the neighbour `a` one step in direction
`d` (1 = row `j-1`, 2 = column `i+1`, 3 = column `i-1`, 4 = row `j+1`), add the centre `c`
and the opposite neighbour `b`, subtract the neighbour `a2` two steps in direction `d`,
divide by 4. -/
def greenSpec (n : Nat) (I : List ℚ) (i j : Int) : ℚ :=
  let c := rawAt n I i j
  let DN := 2 * abs (rawAt n I i (j - 2) - rawAt n I i j)
    + abs (rawAt n I i (j - 1) - rawAt n I i (j + 1))
  let DE := 2 * abs (rawAt n I i j - rawAt n I (i + 2) j)
    + abs (rawAt n I (i - 1) j - rawAt n I (i + 1) j)
  let DW := 2 * abs (rawAt n I (i - 2) j - rawAt n I i j)
    + abs (rawAt n I (i - 1) j - rawAt n I (i + 1) j)
  let DS := 2 * abs (rawAt n I i j - rawAt n I i (j + 2))
    + abs (rawAt n I i (j - 1) - rawAt n I i (j + 1))
  let d := direction DN DE DW DS
  let a := if d = 1 then rawAt n I i (j - 1) else if d = 2 then rawAt n I (i + 1) j
    else if d = 3 then rawAt n I (i - 1) j else rawAt n I i (j + 1)
  let b := if d = 1 then rawAt n I i (j + 1) else if d = 2 then rawAt n I (i - 1) j
    else if d = 3 then rawAt n I (i + 1) j else rawAt n I i (j - 1)
  let a2 := if d = 1 then rawAt n I i (j - 2) else if d = 2 then rawAt n I (i + 2) j
    else if d = 3 then rawAt n I (i - 2) j else rawAt n I i (j + 2)
  (3 * a + c + b - a2) / 4

/-- The value `v` is the raw sample of a pixel inside the `n` x `m` grid, at most one
column and at most one row away from `(i,j)`, whose site colour is `colour`. -/
def NearSample (n m : Nat) (xoffset yoffset : Int) (I : List ℚ) (colour : Char)
    (i j : Int) (v : ℚ) : Prop :=
  ∃ di dj : Int, (-1 ≤ di ∧ di ≤ 1 ∧ -1 ≤ dj ∧ dj ≤ 1
      ∧ 0 ≤ i + di ∧ i + di < n ∧ 0 ≤ j + dj ∧ j + dj < m)
    ∧ siteColour xoffset yoffset (i + di) (j + dj) = colour
    ∧ v = rawAt n I (i + di) (j + dj)

/-- The row-major grid of width `n` and height `m` with `raw(i,j) = a + b*i + c*j`. -/
def rampGrid (n m : Nat) (a b c : ℚ) : List ℚ :=
  (List.range (n * m)).map (fun p => a + b * ((p % n : Nat) : ℚ) + c * ((p / n : Nat) : ℚ))

/-- Pass 2 as the specification describes it: every pixel is computed by the body of the
second loop nest from the raw grid and from the buffers as they are at the end of pass 1
(a snapshot `s`), none seeing what the pass wrote at another pixel. -/
def pass2Snapshot (n m : Nat) (xoffset yoffset : Int) (I : List ℚ) (s : Channels) :
    Channels :=
  let pixel : Nat → ℚ × ℚ × ℚ := fun p =>
    (pass2Pixel n m xoffset yoffset I ((p / n : Nat) : Int) ((p % n : Nat) : Int)
      { s with k := p }).px (p : Int)
  { R := (List.range (n * m)).map (fun p => (pixel p).1),
    G := (List.range (n * m)).map (fun p => (pixel p).2.1),
    B := (List.range (n * m)).map (fun p => (pixel p).2.2),
    k := n * m }

/-- The 8 x 8 grid that is 0 everywhere except for the value 4 at column 2 of row 4. -/
def spike64 : List ℚ :=
  (List.replicate 64 0).set 34 4

/-! ## Array accesses of the two passes -/

/-- Indices of `I` read by the four gradients `DN`, `DE`, `DW`, `DS` (lines 201-204), in
the order of the source. -/
def gradReads (n : Int) (i j : Int) : List Int :=
  [i - 2 * n + n * j, i + n * j, i - n + n * j, i + n + n * j,
   i + n * j, i + 2 + n * j, i - 1 + n * j, i + 1 + n * j,
   i - 2 + n * j, i + n * j, i - 1 + n * j, i + 1 + n * j,
   i + n * j, i + 2 * n + n * j, i - n + n * j, i + n + n * j]

/-- Indices of `I` read by the case `d` of the `switch` of lines 208-213 and 217-222. -/
def switchReads (n : Int) (i j : Int) (d : Int) : List Int :=
  if d = 1 then [i - n + n * j, i + n * j, i + n + n * j, i - 2 * n + n * j]
  else if d = 2 then [i + 1 + n * j, i + n * j, i - 1 + n * j, i + 2 + n * j]
  else if d = 3 then [i - 1 + n * j, i + n * j, i + 1 + n * j, i - 2 + n * j]
  else if d = 4 then [i + n + n * j, i + n * j, i - n + n * j, i + 2 * n + n * j]
  else []

/-- Indices of `I` read by the body of the first loop nest (lines 193-234) at row `j`,
column `i`, in the branch it takes. -/
def pass1Reads (n m xoffset yoffset : Int) (I : List ℚ) (j i : Int) : List Int :=
  if j ≤ 2 ∨ j ≥ m - 3 ∨ i ≤ 2 ∨ i ≥ n - 3 then
    [i + n * j, i + n * j, i + n * j]
  else
    let DN := gradN n I i j
    let DE := gradE n I i j
    let DW := gradW n I i j
    let DS := gradS n I i j
    gradReads n i j ++
      (if (j + yoffset) % 2 = 0 ∧ (i + xoffset) % 2 = 0 then
        (i + n * j) :: switchReads n i j (direction DN DE DW DS)
      else if (j + yoffset) % 2 = 1 ∧ (i + xoffset) % 2 = 1 then
        switchReads n i j (direction DN DE DW DS) ++ [i + n * j]
      else if (j + yoffset) % 2 = 1 ∧ (i + xoffset) % 2 = 0 then
        [i + n * j]
      else if (j + yoffset) % 2 = 0 ∧ (i + xoffset) % 2 = 1 then
        [i + n * j]
      else [])

/-- Indices of `I` read by the branch `!xoffset && !yoffset` of lines 245-266. -/
def borderRGGBReads (n xoffset yoffset : Int) (j i : Int) : List Int :=
  if (j + yoffset) % 2 = 0 ∧ (i + xoffset) % 2 = 0 then
    [i + n * j, i + 1 + n * j, i + 1 + n + n * j]
  else if (j + yoffset) % 2 = 1 ∧ (i + xoffset) % 2 = 0 then
    [i - n + n * j, i + n * j, i + 1 + n * j]
  else if (j + yoffset) % 2 = 0 ∧ (i + xoffset) % 2 = 1 then
    [i - 1 + n * j, i + n * j, i + n + n * j]
  else if (j + yoffset) % 2 = 1 ∧ (i + xoffset) % 2 = 1 then
    [i - 1 - n + n * j, i - 1 + n * j, i + n * j]
  else []

/-- Indices of `I` read by the branch `xoffset && !yoffset` of lines 267-288. -/
def borderGRBGReads (n xoffset yoffset : Int) (j i : Int) : List Int :=
  if (j + yoffset) % 2 = 0 ∧ (i + xoffset) % 2 = 0 then
    [i + n * j, i - 1 + n * j, i - 1 + n + n * j]
  else if (j + yoffset) % 2 = 1 ∧ (i + xoffset) % 2 = 0 then
    [i - n + n * j, i + n * j, i - 1 + n * j]
  else if (j + yoffset) % 2 = 0 ∧ (i + xoffset) % 2 = 1 then
    [i + 1 + n * j, i + n * j, i + n + n * j]
  else if (j + yoffset) % 2 = 1 ∧ (i + xoffset) % 2 = 1 then
    [i + 1 - n + n * j, i + 1 + n * j, i + n * j]
  else []

/-- Indices of `I` read by the branch `!xoffset && yoffset` of lines 289-310. -/
def borderGBRGReads (n xoffset yoffset : Int) (j i : Int) : List Int :=
  if (j + yoffset) % 2 = 0 ∧ (i + xoffset) % 2 = 0 then
    [i + n * j, i - n + n * j, i + 1 - n + n * j]
  else if (j + yoffset) % 2 = 1 ∧ (i + xoffset) % 2 = 0 then
    [i + n + n * j, i + n * j, i + 1 + n * j]
  else if (j + yoffset) % 2 = 0 ∧ (i + xoffset) % 2 = 1 then
    [i - 1 + n * j, i + n * j, i - n + n * j]
  else if (j + yoffset) % 2 = 1 ∧ (i + xoffset) % 2 = 1 then
    [i - 1 + n + n * j, i - 1 + n * j, i + n * j]
  else []

/-- Indices of `I` read by the branch `xoffset && yoffset` of lines 311-332. -/
def borderBGGRReads (n xoffset yoffset : Int) (j i : Int) : List Int :=
  if (j + yoffset) % 2 = 0 ∧ (i + xoffset) % 2 = 0 then
    [i + n * j, i - 1 + n * j, i - 1 - n + n * j]
  else if (j + yoffset) % 2 = 1 ∧ (i + xoffset) % 2 = 0 then
    [i + n + n * j, i + n * j, i - 1 + n * j]
  else if (j + yoffset) % 2 = 0 ∧ (i + xoffset) % 2 = 1 then
    [i + 1 + n * j, i + n * j, i - n + n * j]
  else if (j + yoffset) % 2 = 1 ∧ (i + xoffset) % 2 = 1 then
    [i + 1 + n + n * j, i + 1 + n * j, i + n * j]
  else []

/-- Indices of `I` read by the border branch of the second loop nest (lines 245-332). -/
def pass2BorderReads (n xoffset yoffset : Int) (j i : Int) : List Int :=
  if xoffset = 0 ∧ yoffset = 0 then borderRGGBReads n xoffset yoffset j i
  else if xoffset ≠ 0 ∧ yoffset = 0 then borderGRBGReads n xoffset yoffset j i
  else if xoffset = 0 ∧ yoffset ≠ 0 then borderGBRGReads n xoffset yoffset j i
  else if xoffset ≠ 0 ∧ yoffset ≠ 0 then borderBGGRReads n xoffset yoffset j i
  else []

/-- Indices of `I` read by the diagonal gradients `dne` and `dnw` (lines 337-346). -/
def diagReadsI (n : Int) (i j : Int) : List Int :=
  [i - n + 1 + n * j, i + n - 1 + n * j, i - 2 * n + 2 + n * j, i + n * j, i + n * j,
   i + 2 * n - 2 + n * j,
   i - n - 1 + n * j, i + n + 1 + n * j, i - 2 - 2 * n + n * j, i + n * j, i + n * j,
   i + 2 + 2 * n + n * j]

/-- Indices of `G` read by the diagonal gradients `dne` and `dnw` (lines 337-346). -/
def diagReadsG (n : Int) (i j : Int) : List Int :=
  [i - n + 1 + n * j, i + n * j, i + n * j, i + n - 1 + n * j,
   i - n - 1 + n * j, i + n * j, i + n * j, i + n + 1 + n * j]

/-- Indices of `I` (first component) and of `G` (second component) read by the interior
branch of the second loop nest (lines 336-371), in the branch it takes. -/
def pass2InteriorReads (n xoffset yoffset : Int) (I : List ℚ) (j i : Int) (s : Channels) :
    List Int × List Int :=
  let G := s.G
  let dne := gradNE n I G i j
  let dnw := gradNW n I G i j
  if (j + yoffset) % 2 = 0 ∧ (i + xoffset) % 2 = 0 then
    if dne ≤ dnw then
      (diagReadsI n i j ++ [i - n + 1 + n * j, i + n - 1 + n * j],
        diagReadsG n i j ++ [i - n + 1 + n * j, i + n * j, i + n - 1 + n * j])
    else
      (diagReadsI n i j ++ [i - n - 1 + n * j, i + n + 1 + n * j],
        diagReadsG n i j ++ [i - n - 1 + n * j, i + n * j, i + n + 1 + n * j])
  else if (j + yoffset) % 2 = 1 ∧ (i + xoffset) % 2 = 0 then
    (diagReadsI n i j ++ [i + n * j, i - n + n * j, i + n + n * j,
        i + n * j, i - 1 + n * j, i + 1 + n * j],
      diagReadsG n i j ++ [i - n + n * j, i + n + n * j, i - 1 + n * j, i + 1 + n * j])
  else if (j + yoffset) % 2 = 0 ∧ (i + xoffset) % 2 = 1 then
    (diagReadsI n i j ++ [i + n * j, i - 1 + n * j, i + 1 + n * j,
        i + n * j, i - n + n * j, i + n + n * j],
      diagReadsG n i j ++ [i - 1 + n * j, i + 1 + n * j, i - n + n * j, i + n + n * j])
  else if (j + yoffset) % 2 = 1 ∧ (i + xoffset) % 2 = 1 then
    if dne ≤ dnw then
      (diagReadsI n i j ++ [i - n + 1 + n * j, i + n - 1 + n * j],
        diagReadsG n i j ++ [i - n + 1 + n * j, i + n * j, i + n - 1 + n * j])
    else
      (diagReadsI n i j ++ [i - n - 1 + n * j, i + n + 1 + n * j],
        diagReadsG n i j ++ [i - n - 1 + n * j, i + n * j, i + n + 1 + n * j])
  else (diagReadsI n i j, diagReadsG n i j)

/-- Indices of `I` (first component) and of `G` (second component) read by the body of
the second loop nest (lines 244-372) at row `j`, column `i`, in the branch it takes. -/
def pass2Reads (n m xoffset yoffset : Int) (I : List ℚ) (j i : Int) (s : Channels) :
    List Int × List Int :=
  if j ≤ 2 ∨ j ≥ m - 3 ∨ i ≤ 2 ∨ i ≥ n - 3 then
    (pass2BorderReads n xoffset yoffset j i, [])
  else
    pass2InteriorReads n xoffset yoffset I j i s

/-- The loop nest `raster` run with a log: besides the final state it returns, for every
pixel in the order visited, the row `j`, the column `i` and the state in which the body
is entered there. -/
def rasterTrace {σ : Type} (n m : Nat) (body : Nat → Nat → σ → σ) (s : σ) :
    σ × List (Nat × Nat × σ) :=
  raster n m (fun j i acc => (body j i acc.1, acc.2 ++ [(j, i, acc.1)])) (s, [])

/-- All elements of `l` are indices of a vector of `N` elements. -/
def InBounds (N : Nat) (l : List Int) : Prop :=
  ∀ e ∈ l, 0 ≤ e ∧ e < (N : Int)

/-- The first loop nest run with a log of the pixels visited. -/
def pass1Trace (n m : Nat) (xoffset yoffset : Int) (I : List ℚ) (s : Channels) :
    Channels × List (Nat × Nat × Channels) :=
  rasterTrace n m (fun j i s => pass1Pixel n m xoffset yoffset I j i s) s

/-- The second loop nest run with a log of the pixels visited. -/
def pass2Trace (n m : Nat) (xoffset yoffset : Int) (I : List ℚ) (s : Channels) :
    Channels × List (Nat × Nat × Channels) :=
  rasterTrace n m (fun j i s => pass2Pixel n m xoffset yoffset I j i s) s

/-- The gradient selected by the result `d` of `direction`, in the numbering of the
`switch` of lines 208-213: 1 = `N`, 2 = `E`, 3 = `W`, 4 = `S`. -/
def selectedGradient (N E W S : ℚ) (d : Int) : ℚ :=
  if d = 1 then N else if d = 2 then E else if d = 3 then W else S

/-- The 8 x 8 grid that is 0 everywhere except `raw(2,4) = 2`, `raw(5,4) = 1` and
`raw(4,6) = 1`: at the pixel `(4,4)` the four gradients are `DN = 0`, `DE = 1`, `DW = 5`,
`DS = 2`. -/
def edge64 : List ℚ :=
  (((List.replicate 64 0).set 34 2).set 37 1).set 52 1

/-! # Theorems -/

/-! ## Basic facts on buffers -/

theorem length_wr (a : List ℚ) (k : Nat) (v : ℚ) : (wr a k v).length = a.length := by
  simp [wr]

theorem rd_nat (a : List ℚ) (q : Nat) : rd a (q : Int) = a.getD q 0 := by
  simp [rd]

theorem rd_wr_same (a : List ℚ) (k : Nat) (v : ℚ) (h : k < a.length) :
    rd (wr a k v) (k : Int) = v := by
  simp [rd_nat, wr, List.getD_eq_getElem?_getD, List.getElem?_set, h]

theorem rd_wr_ne (a : List ℚ) (k : Nat) (v : ℚ) (idx : Int) (h : idx ≠ (k : Int)) :
    rd (wr a k v) idx = rd a idx := by
  unfold rd
  split
  · rfl
  · rename_i hneg
    have hk : k ≠ idx.toNat := by
      intro hk
      apply h
      rw [hk, Int.toNat_of_nonneg (by omega)]
    simp [wr, List.getD_eq_getElem?_getD, List.getElem?_set, hk]

theorem wr_rd_self (a : List ℚ) (k : Nat) : wr a k (rd a (k : Int)) = a := by
  apply List.ext_getElem?
  intro q
  simp only [rd_nat, wr, List.getD_eq_getElem?_getD, List.getElem?_set]
  by_cases hq : k = q
  · subst hq
    by_cases hk : k < a.length
    · simp [hk]
    · simp [hk, List.getElem?_eq_none (not_lt.mp hk)]
  · simp [hq]

theorem length_resize (a : List ℚ) (sz : Nat) : (resize a sz).length = sz := by
  simp [resize]
  omega

/-! ## Induction along a raster loop -/

theorem foldl_range_induct {σ : Type} (f : σ → Nat → σ) (P : Nat → σ → Prop) (c : Nat)
    (s0 : σ) (h0 : P 0 s0) (hstep : ∀ i s, i < c → P i s → P (i + 1) (f s i)) :
    P c ((List.range c).foldl f s0) := by
  induction c with
  | zero => simpa using h0
  | succ c ih =>
    rw [List.range_succ, List.foldl_append]
    simp only [List.foldl_cons, List.foldl_nil]
    apply hstep c _ (Nat.lt_succ_self c)
    exact ih (fun i s hi hp => hstep i s (Nat.lt_succ_of_lt hi) hp)

/-- Invariant rule for `raster`: `P c` holds after `c` pixels have been visited. -/
theorem raster_induct {σ : Type} (n m : Nat) (body : Nat → Nat → σ → σ)
    (P : Nat → σ → Prop) (s0 : σ) (h0 : P 0 s0)
    (hstep : ∀ j i s, j < m → i < n → P (i + n * j) s → P (i + n * j + 1) (body j i s)) :
    P (n * m) (raster n m body s0) := by
  unfold raster
  have hrow := foldl_range_induct
    (fun s j => (List.range n).foldl (fun s i => body j i s) s)
    (fun c s => P (n * c) s) m s0 (by simpa using h0)
  apply hrow
  intro j s hj hp
  have hcol := foldl_range_induct (fun s i => body j i s)
    (fun c s => P (c + n * j) s) n s (by simpa using hp)
  have := hcol (fun i s hi hp => by
    have := hstep j i s hj hi hp
    simpa [Nat.add_right_comm] using this)
  simpa [Nat.mul_succ, Nat.add_comm] using this

/-- A pixel index determines its column and row. -/
theorem pixel_inj {n i j i' j' : Nat} (hi : i < n) (hi' : i' < n)
    (h : i + n * j = i' + n * j') : i = i' ∧ j = j' := by
  have h1 : (i + n * j) % n = (i' + n * j') % n := by rw [h]
  have h2 : (i + n * j) / n = (i' + n * j') / n := by rw [h]
  have hn : 0 < n := by omega
  simp [Nat.add_mul_mod_self_left, Nat.mod_eq_of_lt hi, Nat.mod_eq_of_lt hi'] at h1
  simp [Nat.add_mul_div_left _ _ hn, Nat.div_eq_of_lt hi, Nat.div_eq_of_lt hi'] at h2
  exact ⟨h1, h2⟩

theorem pixel_lt {n m i j : Nat} (hi : i < n) (hj : j < m) : i + n * j < n * m := by
  calc i + n * j < n + n * j := by omega
    _ = n * (j + 1) := by ring
    _ ≤ n * m := Nat.mul_le_mul_left n hj

theorem pixel_exists {n m q : Nat} (h : q < n * m) :
    ∃ i j, i < n ∧ j < m ∧ q = i + n * j := by
  have hn : 0 < n := by
    rcases Nat.eq_zero_or_pos n with h0 | h0
    · simp [h0] at h
    · exact h0
  refine ⟨q % n, q / n, Nat.mod_lt _ hn, ?_, (Nat.mod_add_div q n).symm⟩
  exact Nat.div_lt_of_lt_mul h

/-! ## The loop bodies write only at index `k` -/

theorem writesK_of {s t : Channels} (r g b : ℚ) (hR : t.R = wr s.R s.k r)
    (hG : t.G = wr s.G s.k g) (hB : t.B = wr s.B s.k b) (hk : t.k = s.k + 1) :
    ∃ r g b : ℚ,
      t = { R := wr s.R s.k r, G := wr s.G s.k g, B := wr s.B s.k b, k := s.k + 1 } := by
  refine ⟨r, g, b, ?_⟩
  cases t
  simp_all

theorem pass1Pixel_writes (n m xoffset yoffset : Int) (I : List ℚ) (j i : Int) :
    WritesK (pass1Pixel n m xoffset yoffset I j i) := by
  intro s
  have hy := Int.emod_two_eq (j + yoffset)
  have hx := Int.emod_two_eq (i + xoffset)
  unfold pass1Pixel
  dsimp only
  generalize greenSwitch n I i j _ = og
  split_ifs with h1 h2 h3 h4 h5
  · exact ⟨_, _, _, rfl⟩
  · cases og with
    | none =>
      exact writesK_of (rd I (i + n * j)) (rd s.G s.k) (rd s.B s.k) rfl
        (wr_rd_self _ _).symm (wr_rd_self _ _).symm rfl
    | some g =>
      exact writesK_of (rd I (i + n * j)) g (rd s.B s.k) rfl rfl (wr_rd_self _ _).symm rfl
  · cases og with
    | none =>
      exact writesK_of (rd s.R s.k) (rd s.G s.k) (rd I (i + n * j)) (wr_rd_self _ _).symm
        (wr_rd_self _ _).symm rfl rfl
    | some g =>
      exact writesK_of (rd s.R s.k) g (rd I (i + n * j)) (wr_rd_self _ _).symm rfl rfl rfl
  · exact writesK_of (rd s.R s.k) (rd I (i + n * j)) (rd s.B s.k) (wr_rd_self _ _).symm rfl
      (wr_rd_self _ _).symm rfl
  · exact writesK_of (rd s.R s.k) (rd I (i + n * j)) (rd s.B s.k) (wr_rd_self _ _).symm rfl
      (wr_rd_self _ _).symm rfl
  · exfalso
    omega

theorem borderRGGB_cases (n xoffset yoffset : Int) (I : List ℚ) (j i : Int)
    (s : Channels) :
    borderRGGB n xoffset yoffset I j i s = s
      ∨ ∃ r g b : ℚ, borderRGGB n xoffset yoffset I j i s = s.setRGB r g b := by
  unfold borderRGGB
  split_ifs <;> first
    | exact Or.inl rfl
    | exact Or.inr ⟨_, _, _, rfl⟩

theorem borderGRBG_cases (n xoffset yoffset : Int) (I : List ℚ) (j i : Int)
    (s : Channels) :
    borderGRBG n xoffset yoffset I j i s = s
      ∨ ∃ r g b : ℚ, borderGRBG n xoffset yoffset I j i s = s.setRGB r g b := by
  unfold borderGRBG
  split_ifs <;> first
    | exact Or.inl rfl
    | exact Or.inr ⟨_, _, _, rfl⟩

theorem borderGBRG_cases (n xoffset yoffset : Int) (I : List ℚ) (j i : Int)
    (s : Channels) :
    borderGBRG n xoffset yoffset I j i s = s
      ∨ ∃ r g b : ℚ, borderGBRG n xoffset yoffset I j i s = s.setRGB r g b := by
  unfold borderGBRG
  split_ifs <;> first
    | exact Or.inl rfl
    | exact Or.inr ⟨_, _, _, rfl⟩

theorem borderBGGR_cases (n xoffset yoffset : Int) (I : List ℚ) (j i : Int)
    (s : Channels) :
    borderBGGR n xoffset yoffset I j i s = s
      ∨ ∃ r g b : ℚ, borderBGGR n xoffset yoffset I j i s = s.setRGB r g b := by
  unfold borderBGGR
  split_ifs <;> first
    | exact Or.inl rfl
    | exact Or.inr ⟨_, _, _, rfl⟩

theorem pass2Border_cases (n xoffset yoffset : Int) (I : List ℚ) (j i : Int)
    (s : Channels) :
    pass2Border n xoffset yoffset I j i s = s
      ∨ ∃ r g b : ℚ, pass2Border n xoffset yoffset I j i s = s.setRGB r g b := by
  unfold pass2Border
  split_ifs
  · exact borderRGGB_cases n xoffset yoffset I j i s
  · exact borderGRBG_cases n xoffset yoffset I j i s
  · exact borderGBRG_cases n xoffset yoffset I j i s
  · exact borderBGGR_cases n xoffset yoffset I j i s
  · exact Or.inl rfl

theorem pass2Border_writes (n xoffset yoffset : Int) (I : List ℚ) (j i : Int)
    (s : Channels) :
    ∃ r g b : ℚ, (pass2Border n xoffset yoffset I j i s).next
      = { R := wr s.R s.k r, G := wr s.G s.k g, B := wr s.B s.k b, k := s.k + 1 } := by
  rcases pass2Border_cases n xoffset yoffset I j i s with h | ⟨r, g, b, h⟩
  · rw [h]
    exact writesK_of (rd s.R s.k) (rd s.G s.k) (rd s.B s.k) (wr_rd_self _ _).symm
        (wr_rd_self _ _).symm (wr_rd_self _ _).symm rfl
  · rw [h]
    exact ⟨r, g, b, rfl⟩

theorem pass2Interior_writes (n xoffset yoffset : Int) (I : List ℚ) (j i : Int) :
    WritesK (pass2Interior n xoffset yoffset I j i) := by
  intro s
  have hy := Int.emod_two_eq (j + yoffset)
  have hx := Int.emod_two_eq (i + xoffset)
  unfold pass2Interior
  dsimp only
  split_ifs with h1 h2 h3 h4 h5 h6
  · exact writesK_of (rd s.R s.k) (rd s.G s.k) _ (wr_rd_self _ _).symm
        (wr_rd_self _ _).symm rfl rfl
  · exact writesK_of (rd s.R s.k) (rd s.G s.k) _ (wr_rd_self _ _).symm
        (wr_rd_self _ _).symm rfl rfl
  · exact writesK_of _ (rd s.G s.k) _ rfl (wr_rd_self _ _).symm rfl rfl
  · exact writesK_of _ (rd s.G s.k) _ rfl (wr_rd_self _ _).symm rfl rfl
  · exact writesK_of _ (rd s.G s.k) (rd s.B s.k) rfl (wr_rd_self _ _).symm
        (wr_rd_self _ _).symm rfl
  · exact writesK_of _ (rd s.G s.k) (rd s.B s.k) rfl (wr_rd_self _ _).symm
        (wr_rd_self _ _).symm rfl
  · exfalso
    omega

theorem pass2Pixel_writes (n m xoffset yoffset : Int) (I : List ℚ) (j i : Int) :
    WritesK (pass2Pixel n m xoffset yoffset I j i) := by
  intro s
  unfold pass2Pixel
  split_ifs
  · exact pass2Border_writes n xoffset yoffset I j i s
  · exact pass2Interior_writes n xoffset yoffset I j i s

/-! ## What a raster loop of local bodies computes -/

theorem px_writes_ne (s : Channels) (r g b : ℚ) (q : Int) (k' : Nat) (h : q ≠ (s.k : Int)) :
    Channels.px { R := wr s.R s.k r, G := wr s.G s.k g, B := wr s.B s.k b, k := k' } q
      = s.px q := by
  simp [Channels.px, rd_wr_ne _ _ _ _ h]

/-- Along a raster loop whose body writes only at index `k`: the counter ends at `n*m`, the
lengths are kept, and the final values at pixel `(i,j)` are those the body produced there,
from a state `t` that agrees with the final state below `i+n*j` and with the initial state
from `i+n*j` on. -/
theorem raster_local (n m : Nat) (body : Nat → Nat → Channels → Channels)
    (hbody : ∀ j i, WritesK (body j i)) (s0 : Channels) (h0 : s0.k = 0) :
    (raster n m body s0).k = n * m
    ∧ (raster n m body s0).R.length = s0.R.length
    ∧ (raster n m body s0).G.length = s0.G.length
    ∧ (raster n m body s0).B.length = s0.B.length
    ∧ ∀ j i, j < m → i < n → ∃ t : Channels,
        t.k = i + n * j
        ∧ t.R.length = s0.R.length ∧ t.G.length = s0.G.length ∧ t.B.length = s0.B.length
        ∧ (∀ q : Nat, q < i + n * j → t.px q = (raster n m body s0).px q)
        ∧ (∀ q : Nat, i + n * j ≤ q → t.px q = s0.px q)
        ∧ (raster n m body s0).px ((i + n * j : Nat) : Int)
            = (body j i t).px ((i + n * j : Nat) : Int) := by
  have key := raster_induct n m body
    (fun c s => s.k = c
      ∧ s.R.length = s0.R.length ∧ s.G.length = s0.G.length ∧ s.B.length = s0.B.length
      ∧ (∀ q : Nat, c ≤ q → s.px q = s0.px q)
      ∧ ∀ j i, j < m → i < n → i + n * j < c → ∃ t : Channels,
        t.k = i + n * j
        ∧ t.R.length = s0.R.length ∧ t.G.length = s0.G.length ∧ t.B.length = s0.B.length
        ∧ (∀ q : Nat, q < i + n * j → t.px q = s.px q)
        ∧ (∀ q : Nat, i + n * j ≤ q → t.px q = s0.px q)
        ∧ s.px ((i + n * j : Nat) : Int) = (body j i t).px ((i + n * j : Nat) : Int))
    s0 ⟨h0, rfl, rfl, rfl, fun _ _ => rfl, fun j i _ _ h => absurd h (Nat.not_lt_zero _)⟩
    (by
      intro j i s hj hi ⟨hk, hR, hG, hB, hfut, hpast⟩
      obtain ⟨r, g, b, hs⟩ := hbody j i s
      have hne : ∀ q : Nat, q ≠ i + n * j → (body j i s).px q = s.px q := by
        intro q hq
        rw [hs]
        apply px_writes_ne
        rw [hk]
        exact_mod_cast hq
      refine ⟨by rw [hs, hk], by rw [hs]; simpa [length_wr] using hR,
        by rw [hs]; simpa [length_wr] using hG, by rw [hs]; simpa [length_wr] using hB, ?_, ?_⟩
      · intro q hq
        rw [hne q (by omega)]
        exact hfut q (by omega)
      · intro j' i' hj' hi' hlt
        rcases Nat.lt_succ_iff_lt_or_eq.mp hlt with hlt' | heq
        · obtain ⟨t, ht1, ht2, ht3, ht4, ht5, ht6, ht7⟩ := hpast j' i' hj' hi' hlt'
          refine ⟨t, ht1, ht2, ht3, ht4, ?_, ht6, ?_⟩
          · intro q hq
            rw [hne q (by omega)]
            exact ht5 q hq
          · rw [hne _ (by omega)]
            exact ht7
        · obtain ⟨rfl, rfl⟩ := pixel_inj hi' hi heq
          refine ⟨s, hk, hR, hG, hB, ?_, ?_, rfl⟩
          · intro q hq
            rw [hne q (by omega)]
          · intro q hq
            exact hfut q hq)
  obtain ⟨k1, k2, k3, k4, _, k6⟩ := key
  exact ⟨k1, k2, k3, k4, fun j i hj hi => k6 j i hj hi (pixel_lt hi hj)⟩

/-! ## `direction` and `hue_transit` -/

/-- C6: `direction` returns 1 exactly when `N<E`, `W<S` and `N<W`; 3 exactly when `N<E`,
`W<S` and `N>=W`; 2 exactly when not (`N<E` and `W<S`) and `E<S`; 4 exactly in every other
case; so its result is always one of 1, 2, 3, 4. -/
theorem direction_cases (N E W S : ℚ) :
    (direction N E W S = 1 ↔ (N < E ∧ W < S ∧ N < W))
    ∧ (direction N E W S = 3 ↔ (N < E ∧ W < S ∧ N ≥ W))
    ∧ (direction N E W S = 2 ↔ (¬ (N < E ∧ W < S) ∧ E < S))
    ∧ (direction N E W S = 4 ↔
        (¬ (N < E ∧ W < S ∧ N < W) ∧ ¬ (N < E ∧ W < S ∧ N ≥ W)
          ∧ ¬ (¬ (N < E ∧ W < S) ∧ E < S)))
    ∧ (direction N E W S = 1 ∨ direction N E W S = 2 ∨ direction N E W S = 3
        ∨ direction N E W S = 4) := by
  unfold direction
  by_cases h1 : N < E <;> by_cases h2 : W < S <;> by_cases h3 : N < W <;>
    by_cases h4 : E < S <;> simp [h1, h2, h3, h4, not_lt.mp, le_of_lt]

/-- C7: `hue_transit` coincides with its reference definition on all inputs: the linear
interpolation `v1+(v3-v1)*(l2-l1)/(l3-l1)` when `l1<l2<l3` or `l1>l2>l3`, and
`(v1+v3)/2 + (2*l2-l1-l3)/4` otherwise; for `l1 = l2 = l3` this is `(v1+v3)/2`. -/
theorem hue_transit_eq_spec (l1 l2 l3 v1 v3 : ℚ) :
    hue_transit l1 l2 l3 v1 v3 = hue_transit_spec l1 l2 l3 v1 v3
    ∧ hue_transit l1 l1 l1 v1 v3 = (v1 + v3) / 2 := by
  constructor
  · unfold hue_transit hue_transit_spec
    split_ifs
    · rfl
    · ring
  · unfold hue_transit
    simp
    ring

/-! ## Geometry of the outputs and the failure path -/

theorem pass1_length (n m : Nat) (xoffset yoffset : Int) (I : List ℚ) (s : Channels)
    (hk : s.k = 0) :
    (pass1 n m xoffset yoffset I s).R.length = s.R.length
    ∧ (pass1 n m xoffset yoffset I s).G.length = s.G.length
    ∧ (pass1 n m xoffset yoffset I s).B.length = s.B.length := by
  obtain ⟨_, h2, h3, h4, _⟩ := raster_local n m
    (fun j i s => pass1Pixel n m xoffset yoffset I j i s)
    (fun j i => pass1Pixel_writes n m xoffset yoffset I j i) s hk
  exact ⟨h2, h3, h4⟩

theorem pass2_length (n m : Nat) (xoffset yoffset : Int) (I : List ℚ) (s : Channels)
    (hk : s.k = 0) :
    (pass2 n m xoffset yoffset I s).R.length = s.R.length
    ∧ (pass2 n m xoffset yoffset I s).G.length = s.G.length
    ∧ (pass2 n m xoffset yoffset I s).B.length = s.B.length := by
  obtain ⟨_, h2, h3, h4, _⟩ := raster_local n m
    (fun j i s => pass2Pixel n m xoffset yoffset I j i s)
    (fun j i => pass2Pixel_writes n m xoffset yoffset I j i) s hk
  exact ⟨h2, h3, h4⟩

theorem ppg_length (n m : Nat) (xoffset yoffset : Int) (I R G B : List ℚ) :
    (ppg n m xoffset yoffset I R G B).R.length = R.length
    ∧ (ppg n m xoffset yoffset I R G B).G.length = G.length
    ∧ (ppg n m xoffset yoffset I R G B).B.length = B.length := by
  unfold ppg
  obtain ⟨a1, a2, a3⟩ := pass1_length n m xoffset yoffset I
    { R := R, G := G, B := B, k := 0 } rfl
  obtain ⟨b1, b2, b3⟩ := pass2_length n m xoffset yoffset I
    { pass1 n m xoffset yoffset I { R := R, G := G, B := B, k := 0 } with k := 0 } rfl
  exact ⟨b1.trans a1, b2.trans a2, b3.trans a3⟩

/-- The truncation of lines 70-73. -/
theorem evenPart (w : Nat) : (if w % 2 ≠ 0 then w - 1 else w) = w - w % 2 := by
  split_ifs with h <;> omega

/-- What `debayer` returns on the successful path. -/
theorem debayer_success (c : Collab) (chip : Int) (image imageB imageG imageR : MyImage)
    (hs : image.successProcessing = true)
    (hp : image.bayer = "RGGB" ∨ image.bayer = "GRBG" ∨ image.bayer = "GBRG"
      ∨ image.bayer = "BGGR") :
    debayer c chip image imageB imageG imageR =
      { image := image,
        imageB := { labelChannel chip "B" (setupChannel c image
            (image.naxis1 - image.naxis1 % 2) (image.naxis2 - image.naxis2 % 2) 0 imageB) with
          dataCurrent := (ppg (image.naxis1 - image.naxis1 % 2)
            (image.naxis2 - image.naxis2 % 2) (bayerOffsets image.bayer).1
            (bayerOffsets image.bayer).2 image.dataCurrent
            (resize imageR.dataCurrent
              ((image.naxis1 - image.naxis1 % 2) * (image.naxis2 - image.naxis2 % 2)))
            (resize imageG.dataCurrent
              ((image.naxis1 - image.naxis1 % 2) * (image.naxis2 - image.naxis2 % 2)))
            (resize imageB.dataCurrent
              ((image.naxis1 - image.naxis1 % 2) * (image.naxis2 - image.naxis2 % 2)))).B },
        imageG := { labelChannel chip "G" (setupChannel c image
            (image.naxis1 - image.naxis1 % 2) (image.naxis2 - image.naxis2 % 2)
            (0 + mjdStep) imageG) with
          dataCurrent := (ppg (image.naxis1 - image.naxis1 % 2)
            (image.naxis2 - image.naxis2 % 2) (bayerOffsets image.bayer).1
            (bayerOffsets image.bayer).2 image.dataCurrent
            (resize imageR.dataCurrent
              ((image.naxis1 - image.naxis1 % 2) * (image.naxis2 - image.naxis2 % 2)))
            (resize imageG.dataCurrent
              ((image.naxis1 - image.naxis1 % 2) * (image.naxis2 - image.naxis2 % 2)))
            (resize imageB.dataCurrent
              ((image.naxis1 - image.naxis1 % 2) * (image.naxis2 - image.naxis2 % 2)))).G },
        imageR := { labelChannel chip "R" (setupChannel c image
            (image.naxis1 - image.naxis1 % 2) (image.naxis2 - image.naxis2 % 2)
            (0 + mjdStep + mjdStep) imageR) with
          dataCurrent := (ppg (image.naxis1 - image.naxis1 % 2)
            (image.naxis2 - image.naxis2 % 2) (bayerOffsets image.bayer).1
            (bayerOffsets image.bayer).2 image.dataCurrent
            (resize imageR.dataCurrent
              ((image.naxis1 - image.naxis1 % 2) * (image.naxis2 - image.naxis2 % 2)))
            (resize imageG.dataCurrent
              ((image.naxis1 - image.naxis1 % 2) * (image.naxis2 - image.naxis2 % 2)))
            (resize imageB.dataCurrent
              ((image.naxis1 - image.naxis1 % 2) * (image.naxis2 - image.naxis2 % 2)))).R } } := by
  have hpat : ¬ (image.bayer ≠ "RGGB" ∧ image.bayer ≠ "GRBG" ∧ image.bayer ≠ "GBRG"
      ∧ image.bayer ≠ "BGGR") := by
    rintro ⟨h1, h2, h3, h4⟩
    rcases hp with h | h | h | h <;> contradiction
  unfold debayer
  rw [if_neg (by simp [hs]), if_neg hpat]
  simp only [evenPart]
  rfl

/-- C4: for a recognised pattern and an input of width `w` and height `h` whose success flag
is set, each of the three outputs has `naxis1 = w - w%2`, `naxis2 = h - h%2` and a pixel
buffer of exactly `naxis1*naxis2` elements. -/
theorem debayer_geometry (c : Collab) (chip : Int) (image imageB imageG imageR : MyImage)
    (hs : image.successProcessing = true)
    (hp : image.bayer = "RGGB" ∨ image.bayer = "GRBG" ∨ image.bayer = "GBRG"
      ∨ image.bayer = "BGGR") :
    ((debayer c chip image imageB imageG imageR).imageB.naxis1
        = image.naxis1 - image.naxis1 % 2
      ∧ (debayer c chip image imageB imageG imageR).imageB.naxis2
        = image.naxis2 - image.naxis2 % 2
      ∧ (debayer c chip image imageB imageG imageR).imageB.dataCurrent.length
        = (debayer c chip image imageB imageG imageR).imageB.naxis1
          * (debayer c chip image imageB imageG imageR).imageB.naxis2)
    ∧ ((debayer c chip image imageB imageG imageR).imageG.naxis1
        = image.naxis1 - image.naxis1 % 2
      ∧ (debayer c chip image imageB imageG imageR).imageG.naxis2
        = image.naxis2 - image.naxis2 % 2
      ∧ (debayer c chip image imageB imageG imageR).imageG.dataCurrent.length
        = (debayer c chip image imageB imageG imageR).imageG.naxis1
          * (debayer c chip image imageB imageG imageR).imageG.naxis2)
    ∧ ((debayer c chip image imageB imageG imageR).imageR.naxis1
        = image.naxis1 - image.naxis1 % 2
      ∧ (debayer c chip image imageB imageG imageR).imageR.naxis2
        = image.naxis2 - image.naxis2 % 2
      ∧ (debayer c chip image imageB imageG imageR).imageR.dataCurrent.length
        = (debayer c chip image imageB imageG imageR).imageR.naxis1
          * (debayer c chip image imageB imageG imageR).imageR.naxis2) := by
  rw [debayer_success c chip image imageB imageG imageR hs hp]
  obtain ⟨hR, hG, hB⟩ := ppg_length (image.naxis1 - image.naxis1 % 2)
    (image.naxis2 - image.naxis2 % 2) (bayerOffsets image.bayer).1
    (bayerOffsets image.bayer).2 image.dataCurrent
    (resize imageR.dataCurrent
      ((image.naxis1 - image.naxis1 % 2) * (image.naxis2 - image.naxis2 % 2)))
    (resize imageG.dataCurrent
      ((image.naxis1 - image.naxis1 % 2) * (image.naxis2 - image.naxis2 % 2)))
    (resize imageB.dataCurrent
      ((image.naxis1 - image.naxis1 % 2) * (image.naxis2 - image.naxis2 % 2)))
  rw [length_resize] at hR hG hB
  refine ⟨⟨rfl, rfl, ?_⟩, ⟨rfl, rfl, ?_⟩, ⟨rfl, rfl, ?_⟩⟩
  · exact hB
  · exact hG
  · exact hR

/-- Instance of C4: a 5x3 raw image with tag GRBG and three empty output images. -/
theorem debayer_geometry_witness :
    (rawImage "GRBG" 5 3 (List.replicate 15 1)).successProcessing = true
    ∧ ((debayer noCollab 0 (rawImage "GRBG" 5 3 (List.replicate 15 1))
          blankImage blankImage blankImage).imageB.naxis1 = 5 - 5 % 2
      ∧ (debayer noCollab 0 (rawImage "GRBG" 5 3 (List.replicate 15 1))
          blankImage blankImage blankImage).imageB.naxis2 = 3 - 3 % 2
      ∧ (debayer noCollab 0 (rawImage "GRBG" 5 3 (List.replicate 15 1))
          blankImage blankImage blankImage).imageB.dataCurrent.length
        = (debayer noCollab 0 (rawImage "GRBG" 5 3 (List.replicate 15 1))
            blankImage blankImage blankImage).imageB.naxis1
          * (debayer noCollab 0 (rawImage "GRBG" 5 3 (List.replicate 15 1))
            blankImage blankImage blankImage).imageB.naxis2) :=
  ⟨rfl, (debayer_geometry noCollab 0 (rawImage "GRBG" 5 3 (List.replicate 15 1))
    blankImage blankImage blankImage rfl (Or.inr (Or.inl rfl))).1⟩

/-- C5: when the pattern tag is none of RGGB, GRBG, GBRG, BGGR, and likewise when the
input's success flag is already false, `debayer` ends with the input's success flag false
and with the three output images exactly as they were before the call. -/
theorem debayer_failure (c : Collab) (chip : Int) (image imageB imageG imageR : MyImage)
    (h : image.successProcessing = false
      ∨ (image.bayer ≠ "RGGB" ∧ image.bayer ≠ "GRBG" ∧ image.bayer ≠ "GBRG"
        ∧ image.bayer ≠ "BGGR")) :
    (debayer c chip image imageB imageG imageR).image.successProcessing = false
    ∧ (debayer c chip image imageB imageG imageR).imageB = imageB
    ∧ (debayer c chip image imageB imageG imageR).imageG = imageG
    ∧ (debayer c chip image imageB imageG imageR).imageR = imageR := by
  unfold debayer
  by_cases hs : image.successProcessing = false
  · rw [if_pos hs]
    exact ⟨hs, rfl, rfl, rfl⟩
  · rw [if_neg hs]
    rcases h with h | h
    · exact absurd h hs
    · rw [if_pos h]
      exact ⟨rfl, rfl, rfl, rfl⟩

/-- Instance of C5: the tag "XYZZY" on a 2x2 image, the outputs being empty images. -/
theorem debayer_failure_witness :
    ((rawImage "XYZZY" 2 2 [1, 2, 3, 4]).successProcessing = false
      ∨ ((rawImage "XYZZY" 2 2 [1, 2, 3, 4]).bayer ≠ "RGGB"
        ∧ (rawImage "XYZZY" 2 2 [1, 2, 3, 4]).bayer ≠ "GRBG"
        ∧ (rawImage "XYZZY" 2 2 [1, 2, 3, 4]).bayer ≠ "GBRG"
        ∧ (rawImage "XYZZY" 2 2 [1, 2, 3, 4]).bayer ≠ "BGGR"))
    ∧ (debayer noCollab 0 (rawImage "XYZZY" 2 2 [1, 2, 3, 4]) blankImage blankImage
        blankImage).image.successProcessing = false
    ∧ (debayer noCollab 0 (rawImage "XYZZY" 2 2 [1, 2, 3, 4]) blankImage blankImage
        blankImage).imageB.dataCurrent = []
    ∧ (debayer noCollab 0 (rawImage "XYZZY" 2 2 [1, 2, 3, 4]) blankImage blankImage
        blankImage).imageG.dataCurrent = []
    ∧ (debayer noCollab 0 (rawImage "XYZZY" 2 2 [1, 2, 3, 4]) blankImage blankImage
        blankImage).imageR.dataCurrent = [] := by
  have hx : ((rawImage "XYZZY" 2 2 [1, 2, 3, 4]).successProcessing = false
      ∨ ((rawImage "XYZZY" 2 2 [1, 2, 3, 4]).bayer ≠ "RGGB"
        ∧ (rawImage "XYZZY" 2 2 [1, 2, 3, 4]).bayer ≠ "GRBG"
        ∧ (rawImage "XYZZY" 2 2 [1, 2, 3, 4]).bayer ≠ "GBRG"
        ∧ (rawImage "XYZZY" 2 2 [1, 2, 3, 4]).bayer ≠ "BGGR")) :=
    Or.inr (by simp [rawImage])
  obtain ⟨h1, h2, h3, h4⟩ := debayer_failure noCollab 0 (rawImage "XYZZY" 2 2 [1, 2, 3, 4])
    blankImage blankImage blankImage hx
  exact ⟨hx, h1, by rw [h2]; rfl, by rw [h3]; rfl, by rw [h4]; rfl⟩

/-! ## The flat equalizer -/

theorem foldl_proj_sum {σ : Type} (π : σ → ℚ) (f : σ → Nat → σ) (g : Nat → ℚ)
    (h : ∀ a t, π (f a t) = π a + g t) (a0 : σ) (c : Nat) :
    π ((List.range c).foldl f a0) = π a0 + ∑ t ∈ Finset.range c, g t := by
  induction c with
  | zero => simp
  | succ c ih =>
    rw [List.range_succ, List.foldl_append]
    simp only [List.foldl_cons, List.foldl_nil]
    rw [h, ih, Finset.sum_range_succ]
    ring

theorem tiles_proj_sum {σ : Type} (π : σ → ℚ) (n m : Nat) (body : Nat → Nat → σ → σ)
    (g : Nat → Nat → ℚ) (h : ∀ tj ti a, π (body (2 * tj) (2 * ti) a) = π a + g tj ti)
    (a0 : σ) :
    π (tiles n m body a0)
      = π a0 + ∑ tj ∈ Finset.range (m / 2), ∑ ti ∈ Finset.range (n / 2), g tj ti := by
  unfold tiles
  apply foldl_proj_sum π _ (fun tj => ∑ ti ∈ Finset.range (n / 2), g tj ti)
  intro a tj
  exact foldl_proj_sum π _ (fun ti => g tj ti) (fun a ti => h tj ti a) a (n / 2)

theorem superSums_eq (n m : Nat) (d : List ℚ) :
    superSums n m d = { ll := tileSum n m d 0 0, lr := tileSum n m d 1 0,
                        ul := tileSum n m d 0 1, ur := tileSum n m d 1 1 } := by
  have hll : (superSums n m d).ll = tileSum n m d 0 0 := by
    unfold superSums tileSum
    rw [tiles_proj_sum SuperPixel.ll n m _
      (fun tj ti => rd d (((2 * ti + 0) + n * (2 * tj + 0) : Nat) : Int))]
    · simp
    · intro tj ti a
      show a.ll + rd d _ = a.ll + rd d _
      congr 2
  have hlr : (superSums n m d).lr = tileSum n m d 1 0 := by
    unfold superSums tileSum
    rw [tiles_proj_sum SuperPixel.lr n m _
      (fun tj ti => rd d (((2 * ti + 1) + n * (2 * tj + 0) : Nat) : Int))]
    · simp
    · intro tj ti a
      show a.lr + rd d _ = a.lr + rd d _
      congr 2
  have hul : (superSums n m d).ul = tileSum n m d 0 1 := by
    unfold superSums tileSum
    rw [tiles_proj_sum SuperPixel.ul n m _
      (fun tj ti => rd d (((2 * ti + 0) + n * (2 * tj + 1) : Nat) : Int))]
    · simp
    · intro tj ti a
      show a.ul + rd d _ = a.ul + rd d _
      congr 2
  have hur : (superSums n m d).ur = tileSum n m d 1 1 := by
    unfold superSums tileSum
    rw [tiles_proj_sum SuperPixel.ur n m _
      (fun tj ti => rd d (((2 * ti + 1) + n * (2 * tj + 1) : Nat) : Int))]
    · simp
    · intro tj ti a
      show a.ur + rd d _ = a.ur + rd d _
      congr 2
  cases hs : superSums n m d
  rw [hs] at hll hlr hul hur
  simp_all

theorem divAt_nat (d : List ℚ) (p : Nat) (f : ℚ) :
    divAt d (p : Int) f = wr d p (rd d (p : Int) / f) := by
  simp [divAt]

theorem length_divAt (d : List ℚ) (idx : Int) (f : ℚ) :
    (divAt d idx f).length = d.length := by
  unfold divAt
  split_ifs
  · rfl
  · exact length_wr _ _ _

theorem rd_divAt (d : List ℚ) (p q : Nat) (f : ℚ) (hp : p < d.length) :
    rd (divAt d (p : Int) f) (q : Int)
      = if q = p then rd d (p : Int) / f else rd d (q : Int) := by
  rw [divAt_nat]
  split_ifs with h
  · subst h
    exact rd_wr_same _ _ _ hp
  · exact rd_wr_ne _ _ _ _ (by exact_mod_cast h)

/-- One tile of the normalisation loop, with its four indices as natural numbers. -/
theorem rd_normTile (n : Nat) (f : SuperPixel) (d : List ℚ) (ti tj q : Nat)
    (hi : 2 * ti + 1 < n) (hlen : 2 * ti + 1 + n * (2 * tj + 1) < d.length) :
    rd (divAt (divAt (divAt (divAt d
        (((2 * ti : Nat) : Int) + (n : Int) * ((2 * tj : Nat) : Int)) f.ll)
        (((2 * ti : Nat) : Int) + 1 + (n : Int) * ((2 * tj : Nat) : Int)) f.lr)
        (((2 * ti : Nat) : Int) + (n : Int) * (((2 * tj : Nat) : Int) + 1)) f.ul)
        (((2 * ti : Nat) : Int) + 1 + (n : Int) * (((2 * tj : Nat) : Int) + 1)) f.ur) (q : Int)
      = if q = 2 * ti + n * (2 * tj) then rd d (q : Int) / f.ll
        else if q = 2 * ti + 1 + n * (2 * tj) then rd d (q : Int) / f.lr
        else if q = 2 * ti + n * (2 * tj + 1) then rd d (q : Int) / f.ul
        else if q = 2 * ti + 1 + n * (2 * tj + 1) then rd d (q : Int) / f.ur
        else rd d (q : Int) := by
  have e00 : ((2 * ti : Nat) : Int) + (n : Int) * ((2 * tj : Nat) : Int)
      = ((2 * ti + n * (2 * tj) : Nat) : Int) := by push_cast; ring
  have e10 : ((2 * ti : Nat) : Int) + 1 + (n : Int) * ((2 * tj : Nat) : Int)
      = ((2 * ti + 1 + n * (2 * tj) : Nat) : Int) := by push_cast; ring
  have e01 : ((2 * ti : Nat) : Int) + (n : Int) * (((2 * tj : Nat) : Int) + 1)
      = ((2 * ti + n * (2 * tj + 1) : Nat) : Int) := by push_cast; ring
  have e11 : ((2 * ti : Nat) : Int) + 1 + (n : Int) * (((2 * tj : Nat) : Int) + 1)
      = ((2 * ti + 1 + n * (2 * tj + 1) : Nat) : Int) := by push_cast; ring
  rw [e00, e10, e01, e11]
  have hn : n * (2 * tj + 1) = n * (2 * tj) + n := by ring
  have l11 := hlen
  have l01 : 2 * ti + n * (2 * tj + 1) < d.length := by omega
  have l10 : 2 * ti + 1 + n * (2 * tj) < d.length := by omega
  have l00 : 2 * ti + n * (2 * tj) < d.length := by omega
  have n1 : 2 * ti + 1 + n * (2 * tj + 1) ≠ 2 * ti + n * (2 * tj + 1) := by omega
  have n2 : 2 * ti + 1 + n * (2 * tj + 1) ≠ 2 * ti + 1 + n * (2 * tj) := by omega
  have n3 : 2 * ti + 1 + n * (2 * tj + 1) ≠ 2 * ti + n * (2 * tj) := by omega
  have n4 : 2 * ti + n * (2 * tj + 1) ≠ 2 * ti + 1 + n * (2 * tj) := by omega
  have n5 : 2 * ti + n * (2 * tj + 1) ≠ 2 * ti + n * (2 * tj) := by omega
  have n6 : 2 * ti + 1 + n * (2 * tj) ≠ 2 * ti + n * (2 * tj) := by omega
  simp only [rd_divAt, length_divAt, l00, l10, l01, l11, n1, n2, n3, n4, n5, n6, if_false]
  by_cases q0 : q = 2 * ti + n * (2 * tj)
  · simp only [q0, n1.symm, n2.symm, n3.symm, n4.symm, n5.symm, n6.symm, if_false, if_true]
  · by_cases q1 : q = 2 * ti + 1 + n * (2 * tj)
    · simp only [q1, n1.symm, n2.symm, n3.symm, n4.symm, n5.symm, n6.symm, n6, n4, n2,
        if_false, if_true]
    · by_cases q2 : q = 2 * ti + n * (2 * tj + 1)
      · simp only [q2, n1.symm, n2.symm, n3.symm, n4.symm, n5.symm, n6.symm, n4, n5, n1,
          if_false, if_true]
      · by_cases q3 : q = 2 * ti + 1 + n * (2 * tj + 1)
        · simp only [q3, n1, n2, n3, if_false, if_true]
        · simp only [q0, q1, q2, q3, if_false]

theorem sub_cases (f : SuperPixel) :
    f.sub 0 0 = f.ll ∧ f.sub 1 0 = f.lr ∧ f.sub 0 1 = f.ul ∧ f.sub 1 1 = f.ur := by
  simp [SuperPixel.sub]

/-- What the normalisation loop does to each pixel: a pixel of a complete tile is divided
by the factor of its sub-position, a pixel of a trailing row or column is kept. -/
theorem normalizeFlat_px (n m : Nat) (f : SuperPixel) (d : List ℚ)
    (hlen : d.length = n * m) :
    (normalizeFlat n m f d).length = n * m
    ∧ ∀ i j, i < n → j < m →
        rd (normalizeFlat n m f d) ((i + n * j : Nat) : Int)
          = if i < 2 * (n / 2) ∧ j < 2 * (m / 2) then
              rd d ((i + n * j : Nat) : Int) / f.sub (i % 2) (j % 2)
            else rd d ((i + n * j : Nat) : Int) := by
  have key := raster_induct (n / 2) (m / 2)
    (fun tj ti (d : List ℚ) =>
      divAt (divAt (divAt (divAt d
        (((2 * ti : Nat) : Int) + (n : Int) * ((2 * tj : Nat) : Int)) f.ll)
        (((2 * ti : Nat) : Int) + 1 + (n : Int) * ((2 * tj : Nat) : Int)) f.lr)
        (((2 * ti : Nat) : Int) + (n : Int) * (((2 * tj : Nat) : Int) + 1)) f.ul)
        (((2 * ti : Nat) : Int) + 1 + (n : Int) * (((2 * tj : Nat) : Int) + 1)) f.ur)
    (fun c dc => dc.length = n * m
      ∧ ∀ i j, i < n → j < m →
        rd dc ((i + n * j : Nat) : Int)
          = if i / 2 < n / 2 ∧ j / 2 < m / 2 ∧ i / 2 + (n / 2) * (j / 2) < c then
              rd d ((i + n * j : Nat) : Int) / f.sub (i % 2) (j % 2)
            else rd d ((i + n * j : Nat) : Int))
    d ⟨hlen, by simp⟩
    (by
      intro tj ti dc htj hti ⟨hl, hpx⟩
      have hi1 : 2 * ti + 1 < n := by omega
      have hj1 : 2 * tj + 1 < m := by omega
      have hin : 2 * ti + 1 + n * (2 * tj + 1) < dc.length := by
        rw [hl]
        exact pixel_lt hi1 hj1
      refine ⟨by simp [length_divAt, hl], ?_⟩
      intro i j hi hj
      rw [rd_normTile n f dc ti tj (i + n * j) hi1 hin, hpx i j hi hj]
      have e00 : i + n * j = 2 * ti + n * (2 * tj) ↔ (i = 2 * ti ∧ j = 2 * tj) :=
        ⟨fun h => pixel_inj hi (by omega) h, fun ⟨a, b⟩ => by rw [a, b]⟩
      have e10 : i + n * j = 2 * ti + 1 + n * (2 * tj) ↔ (i = 2 * ti + 1 ∧ j = 2 * tj) :=
        ⟨fun h => pixel_inj hi (by omega) h, fun ⟨a, b⟩ => by rw [a, b]⟩
      have e01 : i + n * j = 2 * ti + n * (2 * tj + 1) ↔ (i = 2 * ti ∧ j = 2 * tj + 1) :=
        ⟨fun h => pixel_inj hi (by omega) h, fun ⟨a, b⟩ => by rw [a, b]⟩
      have e11 : i + n * j = 2 * ti + 1 + n * (2 * tj + 1)
          ↔ (i = 2 * ti + 1 ∧ j = 2 * tj + 1) :=
        ⟨fun h => pixel_inj hi (by omega) h, fun ⟨a, b⟩ => by rw [a, b]⟩
      simp only [e00, e10, e01, e11]
      by_cases hT : i / 2 = ti ∧ j / 2 = tj
      · obtain ⟨hTi, hTj⟩ := hT
        have hc1 : i / 2 < n / 2 ∧ j / 2 < m / 2
            ∧ i / 2 + n / 2 * (j / 2) < ti + n / 2 * tj + 1 := by
          rw [hTi, hTj]
          exact ⟨hti, htj, Nat.lt_succ_self _⟩
        have hc0 : ¬ (i / 2 < n / 2 ∧ j / 2 < m / 2
            ∧ i / 2 + n / 2 * (j / 2) < ti + n / 2 * tj) := by
          rw [hTi, hTj]
          intro h
          exact Nat.lt_irrefl _ h.2.2
        rw [if_pos hc1, if_neg hc0]
        obtain ⟨s00, s10, s01, s11⟩ := sub_cases f
        rcases Nat.mod_two_eq_zero_or_one i with hi2 | hi2 <;>
          rcases Nat.mod_two_eq_zero_or_one j with hj2 | hj2
        · have a : i = 2 * ti := by omega
          have b : j = 2 * tj := by omega
          rw [if_pos ⟨a, b⟩, hi2, hj2, s00]
        · have a : i = 2 * ti := by omega
          have b : j = 2 * tj + 1 := by omega
          rw [if_neg (by omega), if_neg (by omega), if_pos ⟨a, b⟩, hi2, hj2, s01]
        · have a : i = 2 * ti + 1 := by omega
          have b : j = 2 * tj := by omega
          rw [if_neg (by omega), if_pos ⟨a, b⟩, hi2, hj2, s10]
        · have a : i = 2 * ti + 1 := by omega
          have b : j = 2 * tj + 1 := by omega
          rw [if_neg (by omega), if_neg (by omega), if_neg (by omega), if_pos ⟨a, b⟩,
            hi2, hj2, s11]
      · have hne : ¬ (i / 2 < n / 2 ∧ i / 2 + n / 2 * (j / 2) = ti + n / 2 * tj) := by
          rintro ⟨h1, h2⟩
          exact hT (pixel_inj h1 hti h2)
        rw [if_neg (by omega), if_neg (by omega), if_neg (by omega), if_neg (by omega)]
        by_cases hc : i / 2 < n / 2 ∧ j / 2 < m / 2
            ∧ i / 2 + n / 2 * (j / 2) < ti + n / 2 * tj
        · rw [if_pos hc, if_pos ⟨hc.1, hc.2.1, Nat.lt_succ_of_lt hc.2.2⟩]
        · rw [if_neg hc, if_neg]
          rintro ⟨h1, h2, h3⟩
          rcases Nat.lt_succ_iff_lt_or_eq.mp h3 with h4 | h4
          · exact hc ⟨h1, h2, h4⟩
          · exact hne ⟨h1, h4⟩)
  obtain ⟨k1, k2⟩ := key
  refine ⟨k1, ?_⟩
  intro i j hi hj
  have k3 := k2 i j hi hj
  have hiff : (i / 2 < n / 2 ∧ j / 2 < m / 2 ∧ i / 2 + n / 2 * (j / 2) < n / 2 * (m / 2))
      ↔ (i < 2 * (n / 2) ∧ j < 2 * (m / 2)) := by
    constructor
    · rintro ⟨h1, h2, _⟩
      omega
    · rintro ⟨h1, h2⟩
      have a : i / 2 < n / 2 := by omega
      have b : j / 2 < m / 2 := by omega
      exact ⟨a, b, pixel_lt a b⟩
  simp only [hiff] at k3
  exact k3

theorem factor_scale (a b c e q t : ℚ) (hq : q ≠ 0) (ht : t ≠ 0) :
    (a / q) / ((a / q + b / q + c / q + e / q) / 4)
      = (a / t) / ((a / t + b / t + c / t + e / t) / 4) := by
  have h1 : a / q + b / q + c / q + e / q = (a + b + c + e) / q := by ring
  have h2 : a / t + b / t + c / t + e / t = (a + b + c + e) / t := by ring
  rw [h1, h2]
  by_cases hs : a + b + c + e = 0
  · simp [hs]
  · field_simp
    ring

/-- The factors computed by lines 396-421 are the normalised means of the specification:
dividing the sums by `n*m/4.` instead of the number of complete tiles cancels out. -/
theorem superFactors_eq (n m : Nat) (d : List ℚ) (hT : 0 < (n / 2) * (m / 2)) :
    superFactors n m d = { ll := specFactor n m d 0 0, lr := specFactor n m d 1 0,
                           ul := specFactor n m d 0 1, ur := specFactor n m d 1 1 } := by
  have hn : 0 < n / 2 := by
    rcases Nat.eq_zero_or_pos (n / 2) with h0 | h0
    · simp [h0] at hT
    · exact h0
  have hm : 0 < m / 2 := by
    rcases Nat.eq_zero_or_pos (m / 2) with h0 | h0
    · simp [h0] at hT
    · exact h0
  have hnm : 0 < n * m := Nat.mul_pos (by omega) (by omega)
  have hq : (((n * m : Nat) : ℚ) / 4) ≠ 0 := by
    have : ((n * m : Nat) : ℚ) ≠ 0 := by exact_mod_cast hnm.ne'
    exact div_ne_zero this (by norm_num)
  have ht : ((((n / 2) * (m / 2) : Nat)) : ℚ) ≠ 0 := by exact_mod_cast hT.ne'
  unfold superFactors superMeans specFactor tileAverage tileMean
  rw [superSums_eq]
  simp only [SuperPixel.mk.injEq]
  refine ⟨?_, ?_, ?_, ?_⟩
  · exact factor_scale _ _ _ _ _ _ hq ht
  · have := factor_scale (tileSum n m d 1 0) (tileSum n m d 0 0) (tileSum n m d 0 1)
      (tileSum n m d 1 1) _ _ hq ht
    rw [show ∀ x y z w : ℚ, x + y + z + w = y + x + z + w from fun x y z w => by ring]
    rw [this]
    congr 2
    ring
  · have := factor_scale (tileSum n m d 0 1) (tileSum n m d 0 0) (tileSum n m d 1 0)
      (tileSum n m d 1 1) _ _ hq ht
    rw [show ∀ x y z w : ℚ, x + y + z + w = z + x + y + w from fun x y z w => by ring]
    rw [this]
    congr 2
    ring
  · have := factor_scale (tileSum n m d 1 1) (tileSum n m d 0 0) (tileSum n m d 1 0)
      (tileSum n m d 0 1) _ _ hq ht
    rw [show ∀ x y z w : ℚ, x + y + z + w = w + x + y + z from fun x y z w => by ring]
    rw [this]
    congr 2
    ring

theorem sub_mk (g : Nat → Nat → ℚ) (dx dy : Nat) (hx : dx < 2) (hy : dy < 2) :
    SuperPixel.sub { ll := g 0 0, lr := g 1 0, ul := g 0 1, ur := g 1 1 } dx dy = g dx dy := by
  interval_cases dx <;> interval_cases dy <;> simp [SuperPixel.sub]

/-- Pixelwise description of `equalizeBayerFlat` in terms of the normalised means. -/
theorem equalizeBayerFlat_px (c : Collab) (image : MyImage)
    (hlen : image.dataCurrent.length = image.naxis1 * image.naxis2)
    (hT : 0 < (image.naxis1 / 2) * (image.naxis2 / 2)) :
    (equalizeBayerFlat c image).naxis1 = image.naxis1
    ∧ (equalizeBayerFlat c image).naxis2 = image.naxis2
    ∧ (equalizeBayerFlat c image).dataCurrent.length = image.naxis1 * image.naxis2
    ∧ ∀ i j, i < image.naxis1 → j < image.naxis2 →
        rd (equalizeBayerFlat c image).dataCurrent ((i + image.naxis1 * j : Nat) : Int)
          = if i < 2 * (image.naxis1 / 2) ∧ j < 2 * (image.naxis2 / 2) then
              rd image.dataCurrent ((i + image.naxis1 * j : Nat) : Int)
                / specFactor image.naxis1 image.naxis2 image.dataCurrent (i % 2) (j % 2)
            else rd image.dataCurrent ((i + image.naxis1 * j : Nat) : Int) := by
  obtain ⟨h1, h2⟩ := normalizeFlat_px image.naxis1 image.naxis2
    (superFactors image.naxis1 image.naxis2 image.dataCurrent) image.dataCurrent hlen
  refine ⟨rfl, rfl, h1, ?_⟩
  intro i j hi hj
  have h3 := h2 i j hi hj
  have h4 : (superFactors image.naxis1 image.naxis2 image.dataCurrent).sub (i % 2) (j % 2)
      = specFactor image.naxis1 image.naxis2 image.dataCurrent (i % 2) (j % 2) := by
    rw [superFactors_eq _ _ _ hT]
    exact sub_mk (specFactor image.naxis1 image.naxis2 image.dataCurrent) _ _
      (Nat.mod_lt _ (by norm_num)) (Nat.mod_lt _ (by norm_num))
  rw [h4] at h3
  exact h3

theorem specFactor_ne_zero (w h : Nat) (d : List ℚ) (dx dy : Nat)
    (hm : tileMean w h d dx dy ≠ 0) (hA : tileAverage w h d ≠ 0) :
    specFactor w h d dx dy ≠ 0 :=
  div_ne_zero hm hA

theorem specFactor_average (w h : Nat) (d : List ℚ) (hA : tileAverage w h d ≠ 0) :
    (specFactor w h d 0 0 + specFactor w h d 1 0 + specFactor w h d 0 1
      + specFactor w h d 1 1) / 4 = 1 := by
  unfold specFactor
  have : (tileMean w h d 0 0 / tileAverage w h d + tileMean w h d 1 0 / tileAverage w h d
      + tileMean w h d 0 1 / tileAverage w h d + tileMean w h d 1 1 / tileAverage w h d) / 4
      = tileAverage w h d / tileAverage w h d := by
    rw [show tileAverage w h d / tileAverage w h d
      = ((tileMean w h d 0 0 + tileMean w h d 1 0 + tileMean w h d 0 1
          + tileMean w h d 1 1) / 4) / tileAverage w h d from rfl]
    ring
  rw [this, div_self hA]

/-- C10: for every grid size, with `T = floor(w/2)*floor(h/2) > 0` complete tiles, the four
sub-position means (sums over the complete tiles divided by `T`) and their average nonzero:
the four normalised means `f_p` are nonzero and average to 1, every pixel at sub-position
`p` of a complete tile becomes its old value divided by `f_p`, every pixel of a trailing
odd row or column is unchanged, and the width and height are unchanged. -/
theorem equalizeBayerFlat_spec (c : Collab) (image : MyImage)
    (hlen : image.dataCurrent.length = image.naxis1 * image.naxis2)
    (hT : 0 < (image.naxis1 / 2) * (image.naxis2 / 2))
    (hmean : tileMean image.naxis1 image.naxis2 image.dataCurrent 0 0 ≠ 0
      ∧ tileMean image.naxis1 image.naxis2 image.dataCurrent 1 0 ≠ 0
      ∧ tileMean image.naxis1 image.naxis2 image.dataCurrent 0 1 ≠ 0
      ∧ tileMean image.naxis1 image.naxis2 image.dataCurrent 1 1 ≠ 0)
    (hA : tileAverage image.naxis1 image.naxis2 image.dataCurrent ≠ 0) :
    (specFactor image.naxis1 image.naxis2 image.dataCurrent 0 0 ≠ 0
      ∧ specFactor image.naxis1 image.naxis2 image.dataCurrent 1 0 ≠ 0
      ∧ specFactor image.naxis1 image.naxis2 image.dataCurrent 0 1 ≠ 0
      ∧ specFactor image.naxis1 image.naxis2 image.dataCurrent 1 1 ≠ 0)
    ∧ (specFactor image.naxis1 image.naxis2 image.dataCurrent 0 0
        + specFactor image.naxis1 image.naxis2 image.dataCurrent 1 0
        + specFactor image.naxis1 image.naxis2 image.dataCurrent 0 1
        + specFactor image.naxis1 image.naxis2 image.dataCurrent 1 1) / 4 = 1
    ∧ (equalizeBayerFlat c image).naxis1 = image.naxis1
    ∧ (equalizeBayerFlat c image).naxis2 = image.naxis2
    ∧ (equalizeBayerFlat c image).dataCurrent.length = image.naxis1 * image.naxis2
    ∧ ∀ i j, i < image.naxis1 → j < image.naxis2 →
        rd (equalizeBayerFlat c image).dataCurrent ((i + image.naxis1 * j : Nat) : Int)
          = if i < 2 * (image.naxis1 / 2) ∧ j < 2 * (image.naxis2 / 2) then
              rd image.dataCurrent ((i + image.naxis1 * j : Nat) : Int)
                / specFactor image.naxis1 image.naxis2 image.dataCurrent (i % 2) (j % 2)
            else rd image.dataCurrent ((i + image.naxis1 * j : Nat) : Int) := by
  obtain ⟨m00, m10, m01, m11⟩ := hmean
  exact ⟨⟨specFactor_ne_zero _ _ _ _ _ m00 hA, specFactor_ne_zero _ _ _ _ _ m10 hA,
      specFactor_ne_zero _ _ _ _ _ m01 hA, specFactor_ne_zero _ _ _ _ _ m11 hA⟩,
    specFactor_average _ _ _ hA, equalizeBayerFlat_px c image hlen hT⟩

/-- Instance of C10: a 3x2 grid, one complete tile and a trailing column. -/
theorem equalizeBayerFlat_spec_witness :
    (0 < ((rawImage "RGGB" 3 2 [1, 2, 7, 3, 6, 9]).naxis1 / 2)
        * ((rawImage "RGGB" 3 2 [1, 2, 7, 3, 6, 9]).naxis2 / 2))
    ∧ tileAverage 3 2 [1, 2, 7, 3, 6, 9] ≠ 0
    ∧ rd (equalizeBayerFlat noCollab (rawImage "RGGB" 3 2 [1, 2, 7, 3, 6, 9])).dataCurrent
        ((1 + 3 * 1 : Nat) : Int) = 6 / specFactor 3 2 [1, 2, 7, 3, 6, 9] 1 1
    ∧ rd (equalizeBayerFlat noCollab (rawImage "RGGB" 3 2 [1, 2, 7, 3, 6, 9])).dataCurrent
        ((2 + 3 * 1 : Nat) : Int) = 9 := by
  have hT : 0 < ((rawImage "RGGB" 3 2 [1, 2, 7, 3, 6, 9]).naxis1 / 2)
        * ((rawImage "RGGB" 3 2 [1, 2, 7, 3, 6, 9]).naxis2 / 2) := by decide
  have hA : tileAverage 3 2 [1, 2, 7, 3, 6, 9] ≠ 0 := by
    simp [tileAverage, tileMean, tileSum, Finset.sum_range_succ, rd]
    norm_num
  have hm : tileMean 3 2 [1, 2, 7, 3, 6, 9] 0 0 ≠ 0
      ∧ tileMean 3 2 [1, 2, 7, 3, 6, 9] 1 0 ≠ 0
      ∧ tileMean 3 2 [1, 2, 7, 3, 6, 9] 0 1 ≠ 0
      ∧ tileMean 3 2 [1, 2, 7, 3, 6, 9] 1 1 ≠ 0 := by
    simp [tileMean, tileSum, Finset.sum_range_succ, rd]
  have h := (equalizeBayerFlat_spec noCollab (rawImage "RGGB" 3 2 [1, 2, 7, 3, 6, 9])
    rfl hT hm hA).2.2.2.2.2
  refine ⟨hT, hA, ?_, ?_⟩
  · have h1 := h 1 1 (by decide) (by decide)
    simpa [rawImage, rd] using h1
  · have h2 := h 2 1 (by decide) (by decide)
    simpa [rawImage, rd] using h2

theorem sum_range_pairs (g : Nat → ℚ) (c : Nat) :
    ∑ i ∈ Finset.range (2 * c), g i = ∑ t ∈ Finset.range c, (g (2 * t) + g (2 * t + 1)) := by
  induction c with
  | zero => simp
  | succ c ih =>
    rw [show 2 * (c + 1) = 2 * c + 1 + 1 from by ring, Finset.sum_range_succ,
      Finset.sum_range_succ, ih, Finset.sum_range_succ]
    ring

/-- On a grid of even width and height the sum of all pixels is the sum of the four
sub-position sums. -/
theorem gridSum_split (n m : Nat) (d : List ℚ) (hn : n % 2 = 0) (hm : m % 2 = 0) :
    (∑ j ∈ Finset.range m, ∑ i ∈ Finset.range n, rd d ((i + n * j : Nat) : Int))
      = tileSum n m d 0 0 + tileSum n m d 1 0 + tileSum n m d 0 1 + tileSum n m d 1 1 := by
  have en : n = 2 * (n / 2) := by omega
  have em : m = 2 * (m / 2) := by omega
  unfold tileSum
  conv_lhs => rw [em, sum_range_pairs]
  conv_lhs =>
    enter [2, tj]
    rw [en, sum_range_pairs, sum_range_pairs]
  simp only [← en, Finset.sum_add_distrib, Nat.add_zero]
  ring

theorem gridMean_eq_tileAverage (n m : Nat) (d : List ℚ) (hn : n % 2 = 0) (hm : m % 2 = 0)
    (hT : 0 < (n / 2) * (m / 2)) : gridMean n m d = tileAverage n m d := by
  unfold gridMean tileAverage tileMean
  rw [gridSum_split n m d hn hm]
  have e : n * m = 4 * ((n / 2) * (m / 2)) := by
    have en : n = 2 * (n / 2) := by omega
    have em : m = 2 * (m / 2) := by omega
    calc n * m = (2 * (n / 2)) * (2 * (m / 2)) := by rw [← en, ← em]
      _ = 4 * ((n / 2) * (m / 2)) := by ring
  have ht : ((((n / 2) * (m / 2) : Nat)) : ℚ) ≠ 0 := by exact_mod_cast hT.ne'
  rw [e, Nat.cast_mul]
  generalize ((((n / 2) * (m / 2) : Nat)) : ℚ) = t at ht
  have e4 : ((4 : Nat) : ℚ) = 4 := by norm_num
  rw [e4]
  ring

/-- The sub-position sums after equalisation. -/
theorem tileSum_equalized (c : Collab) (image : MyImage)
    (hlen : image.dataCurrent.length = image.naxis1 * image.naxis2)
    (hT : 0 < (image.naxis1 / 2) * (image.naxis2 / 2)) (dx dy : Nat) (hx : dx < 2)
    (hy : dy < 2) :
    tileSum image.naxis1 image.naxis2 (equalizeBayerFlat c image).dataCurrent dx dy
      = tileSum image.naxis1 image.naxis2 image.dataCurrent dx dy
          / specFactor image.naxis1 image.naxis2 image.dataCurrent dx dy := by
  obtain ⟨_, _, _, hpx⟩ := equalizeBayerFlat_px c image hlen hT
  unfold tileSum
  rw [Finset.sum_div]
  apply Finset.sum_congr rfl
  intro tj htj
  rw [Finset.sum_div]
  apply Finset.sum_congr rfl
  intro ti hti
  have h1 := Finset.mem_range.mp htj
  have h2 := Finset.mem_range.mp hti
  rw [hpx (2 * ti + dx) (2 * tj + dy) (by omega) (by omega), if_pos ⟨by omega, by omega⟩]
  have e1 : (2 * ti + dx) % 2 = dx := by omega
  have e2 : (2 * tj + dy) % 2 = dy := by omega
  rw [e1, e2]

theorem tileMean_equalized (c : Collab) (image : MyImage)
    (hlen : image.dataCurrent.length = image.naxis1 * image.naxis2)
    (hT : 0 < (image.naxis1 / 2) * (image.naxis2 / 2)) (dx dy : Nat) (hx : dx < 2)
    (hy : dy < 2)
    (hm : tileMean image.naxis1 image.naxis2 image.dataCurrent dx dy ≠ 0) :
    tileMean image.naxis1 image.naxis2 (equalizeBayerFlat c image).dataCurrent dx dy
      = tileAverage image.naxis1 image.naxis2 image.dataCurrent := by
  have h := tileSum_equalized c image hlen hT dx dy hx hy
  unfold tileMean
  rw [h]
  unfold specFactor
  have e : tileSum image.naxis1 image.naxis2 image.dataCurrent dx dy
      / (tileMean image.naxis1 image.naxis2 image.dataCurrent dx dy
          / tileAverage image.naxis1 image.naxis2 image.dataCurrent)
      / ((((image.naxis1 / 2) * (image.naxis2 / 2) : Nat)) : ℚ)
      = (tileSum image.naxis1 image.naxis2 image.dataCurrent dx dy
          / ((((image.naxis1 / 2) * (image.naxis2 / 2) : Nat)) : ℚ))
        / (tileMean image.naxis1 image.naxis2 image.dataCurrent dx dy
          / tileAverage image.naxis1 image.naxis2 image.dataCurrent) := by
    ring
  rw [e]
  change tileMean image.naxis1 image.naxis2 image.dataCurrent dx dy
    / (tileMean image.naxis1 image.naxis2 image.dataCurrent dx dy
        / tileAverage image.naxis1 image.naxis2 image.dataCurrent) = _
  field_simp

/-- C9: on a grid of even width >= 2 and even height >= 2 whose four sub-position means are
nonzero and have a nonzero average `A`, after `equalizeBayerFlat` the mean over all 2x2
tiles of each of the four sub-positions equals `A`, and the mean of the whole grid is the
same as before the call. -/
theorem equalizeBayerFlat_common_mean (c : Collab) (image : MyImage)
    (hw : image.naxis1 % 2 = 0) (hw2 : 2 ≤ image.naxis1)
    (hh : image.naxis2 % 2 = 0) (hh2 : 2 ≤ image.naxis2)
    (hlen : image.dataCurrent.length = image.naxis1 * image.naxis2)
    (hmean : tileMean image.naxis1 image.naxis2 image.dataCurrent 0 0 ≠ 0
      ∧ tileMean image.naxis1 image.naxis2 image.dataCurrent 1 0 ≠ 0
      ∧ tileMean image.naxis1 image.naxis2 image.dataCurrent 0 1 ≠ 0
      ∧ tileMean image.naxis1 image.naxis2 image.dataCurrent 1 1 ≠ 0)
    (_hA : tileAverage image.naxis1 image.naxis2 image.dataCurrent ≠ 0) :
    tileMean image.naxis1 image.naxis2 (equalizeBayerFlat c image).dataCurrent 0 0
        = tileAverage image.naxis1 image.naxis2 image.dataCurrent
    ∧ tileMean image.naxis1 image.naxis2 (equalizeBayerFlat c image).dataCurrent 1 0
        = tileAverage image.naxis1 image.naxis2 image.dataCurrent
    ∧ tileMean image.naxis1 image.naxis2 (equalizeBayerFlat c image).dataCurrent 0 1
        = tileAverage image.naxis1 image.naxis2 image.dataCurrent
    ∧ tileMean image.naxis1 image.naxis2 (equalizeBayerFlat c image).dataCurrent 1 1
        = tileAverage image.naxis1 image.naxis2 image.dataCurrent
    ∧ gridMean image.naxis1 image.naxis2 (equalizeBayerFlat c image).dataCurrent
        = gridMean image.naxis1 image.naxis2 image.dataCurrent := by
  have hT : 0 < (image.naxis1 / 2) * (image.naxis2 / 2) :=
    Nat.mul_pos (by omega) (by omega)
  obtain ⟨m00, m10, m01, m11⟩ := hmean
  have t00 := tileMean_equalized c image hlen hT 0 0 (by decide) (by decide) m00
  have t10 := tileMean_equalized c image hlen hT 1 0 (by decide) (by decide) m10
  have t01 := tileMean_equalized c image hlen hT 0 1 (by decide) (by decide) m01
  have t11 := tileMean_equalized c image hlen hT 1 1 (by decide) (by decide) m11
  refine ⟨t00, t10, t01, t11, ?_⟩
  rw [gridMean_eq_tileAverage _ _ _ hw hh hT, gridMean_eq_tileAverage _ _ _ hw hh hT]
  conv_lhs => unfold tileAverage
  rw [t00, t10, t01, t11]
  ring

/-- Instance of C9: a 4x2 grid. -/
theorem equalizeBayerFlat_common_mean_witness :
    (tileMean 4 2 [1, 2, 3, 4, 5, 6, 7, 8] 0 0 ≠ 0
      ∧ tileMean 4 2 [1, 2, 3, 4, 5, 6, 7, 8] 1 0 ≠ 0
      ∧ tileMean 4 2 [1, 2, 3, 4, 5, 6, 7, 8] 0 1 ≠ 0
      ∧ tileMean 4 2 [1, 2, 3, 4, 5, 6, 7, 8] 1 1 ≠ 0)
    ∧ tileAverage 4 2 [1, 2, 3, 4, 5, 6, 7, 8] ≠ 0
    ∧ tileMean 4 2 (equalizeBayerFlat noCollab
          (rawImage "RGGB" 4 2 [1, 2, 3, 4, 5, 6, 7, 8])).dataCurrent 1 0
        = tileAverage 4 2 [1, 2, 3, 4, 5, 6, 7, 8]
    ∧ gridMean 4 2 (equalizeBayerFlat noCollab
          (rawImage "RGGB" 4 2 [1, 2, 3, 4, 5, 6, 7, 8])).dataCurrent
        = gridMean 4 2 [1, 2, 3, 4, 5, 6, 7, 8] := by
  have hm : tileMean 4 2 [1, 2, 3, 4, 5, 6, 7, 8] 0 0 ≠ 0
      ∧ tileMean 4 2 [1, 2, 3, 4, 5, 6, 7, 8] 1 0 ≠ 0
      ∧ tileMean 4 2 [1, 2, 3, 4, 5, 6, 7, 8] 0 1 ≠ 0
      ∧ tileMean 4 2 [1, 2, 3, 4, 5, 6, 7, 8] 1 1 ≠ 0 := by
    simp [tileMean, tileSum, Finset.sum_range_succ, rd]
    norm_num
  have hA : tileAverage 4 2 [1, 2, 3, 4, 5, 6, 7, 8] ≠ 0 := by
    simp [tileAverage, tileMean, tileSum, Finset.sum_range_succ, rd]
    norm_num
  have h := equalizeBayerFlat_common_mean noCollab
    (rawImage "RGGB" 4 2 [1, 2, 3, 4, 5, 6, 7, 8]) (by decide) (by decide) (by decide)
    (by decide) rfl hm hA
  exact ⟨hm, hA, h.2.1, h.2.2.2.2⟩

theorem tileMean_grid4 (a b c d : ℚ) (dx dy : Nat) (hx : dx < 2) (hy : dy < 2) :
    tileMean 4 4 (grid4 a b c d) dx dy
      = SuperPixel.sub { ll := a, lr := b, ul := c, ur := d } dx dy := by
  interval_cases dx <;> interval_cases dy <;>
    simp [tileMean, tileSum, Finset.sum_range_succ, rd, grid4, SuperPixel.sub] <;> ring

theorem rd_grid4 (a b c d : ℚ) (i j : Nat) (hi : i < 4) (hj : j < 4) :
    rd (grid4 a b c d) ((i + 4 * j : Nat) : Int)
      = SuperPixel.sub { ll := a, lr := b, ul := c, ur := d } (i % 2) (j % 2) := by
  interval_cases i <;> interval_cases j <;> simp [rd, grid4, SuperPixel.sub]

theorem tileAverage_grid4 (a b c d : ℚ) :
    tileAverage 4 4 (grid4 a b c d) = (a + b + c + d) / 4 := by
  unfold tileAverage
  rw [tileMean_grid4 a b c d 0 0 (by decide) (by decide),
    tileMean_grid4 a b c d 1 0 (by decide) (by decide),
    tileMean_grid4 a b c d 0 1 (by decide) (by decide),
    tileMean_grid4 a b c d 1 1 (by decide) (by decide)]
  simp [SuperPixel.sub]

theorem sub_ne_zero (a b c d : ℚ) (ha : a ≠ 0) (hb : b ≠ 0) (hc : c ≠ 0) (hd : d ≠ 0)
    (dx dy : Nat) : SuperPixel.sub { ll := a, lr := b, ul := c, ur := d } dx dy ≠ 0 := by
  unfold SuperPixel.sub
  split_ifs <;> assumption

/-- Equalisation of the 4x4 grid of constant sub-positions: every pixel becomes the mean
of the four constants. -/
theorem grid4_px (col : Collab) (pat : String) (a b c d : ℚ) (ha : a ≠ 0) (hb : b ≠ 0)
    (hc : c ≠ 0) (hd : d ≠ 0) (i j : Nat) (hi : i < 4) (hj : j < 4) :
    rd (equalizeBayerFlat col (rawImage pat 4 4 (grid4 a b c d))).dataCurrent
      ((i + 4 * j : Nat) : Int) = (a + b + c + d) / 4 := by
  have hT : 0 < ((rawImage pat 4 4 (grid4 a b c d)).naxis1 / 2)
      * ((rawImage pat 4 4 (grid4 a b c d)).naxis2 / 2) := by
    show 0 < (4 / 2) * (4 / 2)
    decide
  obtain ⟨_, _, _, hpx⟩ := equalizeBayerFlat_px col (rawImage pat 4 4 (grid4 a b c d))
    rfl hT
  have h : rd (equalizeBayerFlat col (rawImage pat 4 4 (grid4 a b c d))).dataCurrent
      ((i + 4 * j : Nat) : Int)
    = if i < 2 * (4 / 2) ∧ j < 2 * (4 / 2) then
        rd (grid4 a b c d) ((i + 4 * j : Nat) : Int)
          / specFactor 4 4 (grid4 a b c d) (i % 2) (j % 2)
      else rd (grid4 a b c d) ((i + 4 * j : Nat) : Int) := hpx i j hi hj
  rw [if_pos ⟨by omega, by omega⟩] at h
  rw [h, rd_grid4 a b c d i j hi hj]
  unfold specFactor
  rw [tileAverage_grid4, tileMean_grid4 a b c d _ _ (Nat.mod_lt _ (by decide))
    (Nat.mod_lt _ (by decide))]
  have hx := sub_ne_zero a b c d ha hb hc hd (i % 2) (j % 2)
  field_simp
  ring

theorem div_quarter (x S : ℚ) : x / (S / 4) = 4 * x / S := by
  by_cases hS : S = 0
  · simp [hS]
  · field_simp
    ring

/-- The factors by which the 4x4 grid of constant sub-positions is divided. -/
theorem grid4_factors (a b c d : ℚ) :
    superFactors 4 4 (grid4 a b c d)
      = { ll := 4 * a / (a + b + c + d), lr := 4 * b / (a + b + c + d),
          ul := 4 * c / (a + b + c + d), ur := 4 * d / (a + b + c + d) } := by
  rw [superFactors_eq 4 4 _ (by decide)]
  unfold specFactor
  rw [tileAverage_grid4, tileMean_grid4 a b c d 0 0 (by decide) (by decide),
    tileMean_grid4 a b c d 1 0 (by decide) (by decide),
    tileMean_grid4 a b c d 0 1 (by decide) (by decide),
    tileMean_grid4 a b c d 1 1 (by decide) (by decide)]
  simp only [SuperPixel.sub, SuperPixel.mk.injEq, div_quarter]
  simp

/-- C8, as stated, fails: on the 4x4 grid with sub-position constants 1, 2, 3, 6 (distinct,
sum 12) the pixel at index 0, whose constant was 1, ends as 3 and not as `4*1/12`; the
four resulting sub-position values are all 3, so their average is 3 and not 1. -/
theorem equalizeBayerFlat_grid4_counterexample :
    rd (equalizeBayerFlat noCollab (rawImage "RGGB" 4 4 (grid4 1 2 3 6))).dataCurrent
        ((0 + 4 * 0 : Nat) : Int) = 3
    ∧ rd (equalizeBayerFlat noCollab (rawImage "RGGB" 4 4 (grid4 1 2 3 6))).dataCurrent
        ((0 + 4 * 0 : Nat) : Int) ≠ 4 * 1 / (1 + 2 + 3 + 6)
    ∧ (rd (equalizeBayerFlat noCollab (rawImage "RGGB" 4 4 (grid4 1 2 3 6))).dataCurrent
          ((0 + 4 * 0 : Nat) : Int)
        + rd (equalizeBayerFlat noCollab (rawImage "RGGB" 4 4 (grid4 1 2 3 6))).dataCurrent
          ((1 + 4 * 0 : Nat) : Int)
        + rd (equalizeBayerFlat noCollab (rawImage "RGGB" 4 4 (grid4 1 2 3 6))).dataCurrent
          ((0 + 4 * 1 : Nat) : Int)
        + rd (equalizeBayerFlat noCollab (rawImage "RGGB" 4 4 (grid4 1 2 3 6))).dataCurrent
          ((1 + 4 * 1 : Nat) : Int)) / 4 ≠ 1 := by
  have h00 := grid4_px noCollab "RGGB" 1 2 3 6 (by norm_num) (by norm_num) (by norm_num)
    (by norm_num) 0 0 (by decide) (by decide)
  have h10 := grid4_px noCollab "RGGB" 1 2 3 6 (by norm_num) (by norm_num) (by norm_num)
    (by norm_num) 1 0 (by decide) (by decide)
  have h01 := grid4_px noCollab "RGGB" 1 2 3 6 (by norm_num) (by norm_num) (by norm_num)
    (by norm_num) 0 1 (by decide) (by decide)
  have h11 := grid4_px noCollab "RGGB" 1 2 3 6 (by norm_num) (by norm_num) (by norm_num)
    (by norm_num) 1 1 (by decide) (by decide)
  rw [h00, h10, h01, h11]
  norm_num

/-- C8, amended: on the 4x4 grid whose sub-positions hold nonzero constants `a`, `b`, `c`,
`d` with `a+b+c+d` nonzero, the factor by which `equalizeBayerFlat` divides the
sub-position of constant `x` is `4*x/(a+b+c+d)`, the four factors average to 1, and after
the call every pixel equals `(a+b+c+d)/4`. -/
theorem equalizeBayerFlat_grid4 (col : Collab) (pat : String) (a b c d : ℚ) (ha : a ≠ 0)
    (hb : b ≠ 0) (hc : c ≠ 0) (hd : d ≠ 0) (hs : a + b + c + d ≠ 0) :
    superFactors 4 4 (grid4 a b c d)
        = { ll := 4 * a / (a + b + c + d), lr := 4 * b / (a + b + c + d),
            ul := 4 * c / (a + b + c + d), ur := 4 * d / (a + b + c + d) }
    ∧ (4 * a / (a + b + c + d) + 4 * b / (a + b + c + d) + 4 * c / (a + b + c + d)
        + 4 * d / (a + b + c + d)) / 4 = 1
    ∧ ∀ i j, i < 4 → j < 4 →
        rd (equalizeBayerFlat col (rawImage pat 4 4 (grid4 a b c d))).dataCurrent
          ((i + 4 * j : Nat) : Int) = (a + b + c + d) / 4 := by
  refine ⟨grid4_factors a b c d, ?_, fun i j hi hj => grid4_px col pat a b c d ha hb hc hd i j hi hj⟩
  field_simp
  ring

/-- Instance of the amended C8: the constants 1, 2, 3, 6. -/
theorem equalizeBayerFlat_grid4_witness :
    ((1 : ℚ) + 2 + 3 + 6 ≠ 0)
    ∧ superFactors 4 4 (grid4 1 2 3 6)
        = { ll := 4 * 1 / (1 + 2 + 3 + 6), lr := 4 * 2 / (1 + 2 + 3 + 6),
            ul := 4 * 3 / (1 + 2 + 3 + 6), ur := 4 * 6 / (1 + 2 + 3 + 6) }
    ∧ rd (equalizeBayerFlat noCollab (rawImage "GBRG" 4 4 (grid4 1 2 3 6))).dataCurrent
          ((3 + 4 * 2 : Nat) : Int) = (1 + 2 + 3 + 6) / 4 := by
  have hs : (1 : ℚ) + 2 + 3 + 6 ≠ 0 := by norm_num
  have h := equalizeBayerFlat_grid4 noCollab "GBRG" 1 2 3 6 (by norm_num) (by norm_num)
    (by norm_num) (by norm_num) hs
  exact ⟨hs, h.1, h.2.2 3 2 (by decide) (by decide)⟩

/-! ## Native samples -/

/-- Pass 1 at pixel `(i,j)`: the channel of the pixel's own colour receives the raw sample. -/
theorem pass1Pixel_native (n m : Nat) (xoffset yoffset : Int) (I : List ℚ) (i j : Nat)
    (s : Channels) (hk : s.k = i + n * j) (hR : i + n * j < s.R.length)
    (hG : i + n * j < s.G.length) (hB : i + n * j < s.B.length) :
    (((j : Int) + yoffset) % 2 = 0 ∧ ((i : Int) + xoffset) % 2 = 0 →
        rd (pass1Pixel n m xoffset yoffset I j i s).R ((i + n * j : Nat) : Int)
          = rd I ((i : Int) + (n : Int) * (j : Int)))
    ∧ (((j : Int) + yoffset) % 2 = 1 ∧ ((i : Int) + xoffset) % 2 = 1 →
        rd (pass1Pixel n m xoffset yoffset I j i s).B ((i + n * j : Nat) : Int)
          = rd I ((i : Int) + (n : Int) * (j : Int)))
    ∧ (((j : Int) + yoffset) % 2 ≠ ((i : Int) + xoffset) % 2 →
        rd (pass1Pixel n m xoffset yoffset I j i s).G ((i + n * j : Nat) : Int)
          = rd I ((i : Int) + (n : Int) * (j : Int))) := by
  have hy := Int.emod_two_eq ((j : Int) + yoffset)
  have hx := Int.emod_two_eq ((i : Int) + xoffset)
  rcases s with ⟨R, G, B, k⟩
  simp only at hk hR hG hB
  subst hk
  unfold pass1Pixel
  dsimp only
  generalize greenSwitch _ I _ _ _ = og
  cases og <;> split_ifs <;> refine ⟨fun hr => ?_, fun hb => ?_, fun hg => ?_⟩ <;>
    first
      | (exfalso; omega)
      | simp only [Channels.next, Channels.setRGB, rd_wr_same _ _ _ hR,
          rd_wr_same _ _ _ hG, rd_wr_same _ _ _ hB]

/-- The border branch of pass 2 at pixel `(i,j)`: the channel of the pixel's own colour
receives the raw sample. -/
theorem pass2Border_native (n : Nat) (xoffset yoffset : Int) (I : List ℚ) (i j : Nat)
    (s : Channels) (hk : s.k = i + n * j) (hR : i + n * j < s.R.length)
    (hG : i + n * j < s.G.length) (hB : i + n * j < s.B.length) :
    (((j : Int) + yoffset) % 2 = 0 ∧ ((i : Int) + xoffset) % 2 = 0 →
        rd (pass2Border n xoffset yoffset I j i s).R ((i + n * j : Nat) : Int)
          = rd I ((i : Int) + (n : Int) * (j : Int)))
    ∧ (((j : Int) + yoffset) % 2 = 1 ∧ ((i : Int) + xoffset) % 2 = 1 →
        rd (pass2Border n xoffset yoffset I j i s).B ((i + n * j : Nat) : Int)
          = rd I ((i : Int) + (n : Int) * (j : Int)))
    ∧ (((j : Int) + yoffset) % 2 ≠ ((i : Int) + xoffset) % 2 →
        rd (pass2Border n xoffset yoffset I j i s).G ((i + n * j : Nat) : Int)
          = rd I ((i : Int) + (n : Int) * (j : Int))) := by
  have hy := Int.emod_two_eq ((j : Int) + yoffset)
  have hx := Int.emod_two_eq ((i : Int) + xoffset)
  rcases s with ⟨R, G, B, k⟩
  simp only at hk hR hG hB
  subst hk
  unfold pass2Border
  split_ifs
  · unfold borderRGGB
    split_ifs <;> refine ⟨fun hr => ?_, fun hb => ?_, fun hg => ?_⟩ <;>
      first
        | (exfalso; omega)
        | simp only [Channels.setRGB, rd_wr_same _ _ _ hR, rd_wr_same _ _ _ hG,
            rd_wr_same _ _ _ hB]
  · unfold borderGRBG
    split_ifs <;> refine ⟨fun hr => ?_, fun hb => ?_, fun hg => ?_⟩ <;>
      first
        | (exfalso; omega)
        | simp only [Channels.setRGB, rd_wr_same _ _ _ hR, rd_wr_same _ _ _ hG,
            rd_wr_same _ _ _ hB]
  · unfold borderGBRG
    split_ifs <;> refine ⟨fun hr => ?_, fun hb => ?_, fun hg => ?_⟩ <;>
      first
        | (exfalso; omega)
        | simp only [Channels.setRGB, rd_wr_same _ _ _ hR, rd_wr_same _ _ _ hG,
            rd_wr_same _ _ _ hB]
  · unfold borderBGGR
    split_ifs <;> refine ⟨fun hr => ?_, fun hb => ?_, fun hg => ?_⟩ <;>
      first
        | (exfalso; omega)
        | simp only [Channels.setRGB, rd_wr_same _ _ _ hR, rd_wr_same _ _ _ hG,
            rd_wr_same _ _ _ hB]
  · exfalso
    omega

/-- The interior branch of pass 2 at pixel `(i,j)` leaves the channel of the pixel's own
colour as it is. -/
theorem pass2Interior_native (n : Nat) (xoffset yoffset : Int) (I : List ℚ) (i j : Nat)
    (s : Channels) :
    (((j : Int) + yoffset) % 2 = 0 ∧ ((i : Int) + xoffset) % 2 = 0 →
        (pass2Interior n xoffset yoffset I j i s).R = s.R)
    ∧ (((j : Int) + yoffset) % 2 = 1 ∧ ((i : Int) + xoffset) % 2 = 1 →
        (pass2Interior n xoffset yoffset I j i s).B = s.B)
    ∧ (pass2Interior n xoffset yoffset I j i s).G = s.G := by
  have hy := Int.emod_two_eq ((j : Int) + yoffset)
  have hx := Int.emod_two_eq ((i : Int) + xoffset)
  unfold pass2Interior
  dsimp only
  split_ifs <;> refine ⟨fun hr => ?_, fun hb => ?_, ?_⟩ <;>
    first
      | (exfalso; omega)
      | rfl

/-- Pass 2 at pixel `(i,j)`: the channel of the pixel's own colour holds the raw sample
afterwards, provided that at an interior pixel it held it before. -/
theorem pass2Pixel_native (n m : Nat) (xoffset yoffset : Int) (I : List ℚ) (i j : Nat)
    (s : Channels) (hk : s.k = i + n * j) (hR : i + n * j < s.R.length)
    (hG : i + n * j < s.G.length) (hB : i + n * j < s.B.length) :
    (((j : Int) + yoffset) % 2 = 0 ∧ ((i : Int) + xoffset) % 2 = 0 →
        rd s.R ((i + n * j : Nat) : Int) = rd I ((i : Int) + (n : Int) * (j : Int)) →
        rd (pass2Pixel n m xoffset yoffset I j i s).R ((i + n * j : Nat) : Int)
          = rd I ((i : Int) + (n : Int) * (j : Int)))
    ∧ (((j : Int) + yoffset) % 2 = 1 ∧ ((i : Int) + xoffset) % 2 = 1 →
        rd s.B ((i + n * j : Nat) : Int) = rd I ((i : Int) + (n : Int) * (j : Int)) →
        rd (pass2Pixel n m xoffset yoffset I j i s).B ((i + n * j : Nat) : Int)
          = rd I ((i : Int) + (n : Int) * (j : Int)))
    ∧ (((j : Int) + yoffset) % 2 ≠ ((i : Int) + xoffset) % 2 →
        rd s.G ((i + n * j : Nat) : Int) = rd I ((i : Int) + (n : Int) * (j : Int)) →
        rd (pass2Pixel n m xoffset yoffset I j i s).G ((i + n * j : Nat) : Int)
          = rd I ((i : Int) + (n : Int) * (j : Int))) := by
  unfold pass2Pixel
  split_ifs
  · obtain ⟨b1, b2, b3⟩ := pass2Border_native n xoffset yoffset I i j s hk hR hG hB
    exact ⟨fun h _ => b1 h, fun h _ => b2 h, fun h _ => b3 h⟩
  · obtain ⟨b1, b2, b3⟩ := pass2Interior_native n xoffset yoffset I i j s
    refine ⟨fun h h' => ?_, fun h h' => ?_, fun _ h' => ?_⟩
    · rw [b1 h]
      exact h'
    · rw [b2 h]
      exact h'
    · rw [b3]
      exact h'

theorem px_eq_iff (s t : Channels) (q : Int) :
    s.px q = t.px q ↔ (rd s.R q = rd t.R q ∧ rd s.G q = rd t.G q ∧ rd s.B q = rd t.B q) := by
  simp [Channels.px, Prod.ext_iff]

/-- The state in which pass 1 reaches pixel `(i,j)`, and what it leaves there. -/
theorem pass1_at (n m : Nat) (xoffset yoffset : Int) (I : List ℚ) (s0 : Channels)
    (h0 : s0.k = 0) (i j : Nat) (hi : i < n) (hj : j < m) :
    ∃ t : Channels, t.k = i + n * j
      ∧ t.R.length = s0.R.length ∧ t.G.length = s0.G.length ∧ t.B.length = s0.B.length
      ∧ (∀ q : Nat, i + n * j ≤ q → t.px q = s0.px q)
      ∧ (pass1 n m xoffset yoffset I s0).px ((i + n * j : Nat) : Int)
          = (pass1Pixel n m xoffset yoffset I j i t).px ((i + n * j : Nat) : Int) := by
  obtain ⟨_, _, _, _, h⟩ := raster_local n m
    (fun j i s => pass1Pixel n m xoffset yoffset I j i s)
    (fun j i => pass1Pixel_writes n m xoffset yoffset I j i) s0 h0
  obtain ⟨t, t1, t2, t3, t4, _, t6, t7⟩ := h j i hj hi
  exact ⟨t, t1, t2, t3, t4, t6, t7⟩

/-- The state in which pass 2 reaches pixel `(i,j)`, and what it leaves there. -/
theorem pass2_at (n m : Nat) (xoffset yoffset : Int) (I : List ℚ) (s0 : Channels)
    (h0 : s0.k = 0) (i j : Nat) (hi : i < n) (hj : j < m) :
    ∃ t : Channels, t.k = i + n * j
      ∧ t.R.length = s0.R.length ∧ t.G.length = s0.G.length ∧ t.B.length = s0.B.length
      ∧ (∀ q : Nat, q < i + n * j → t.px q = (pass2 n m xoffset yoffset I s0).px q)
      ∧ (∀ q : Nat, i + n * j ≤ q → t.px q = s0.px q)
      ∧ (pass2 n m xoffset yoffset I s0).px ((i + n * j : Nat) : Int)
          = (pass2Pixel n m xoffset yoffset I j i t).px ((i + n * j : Nat) : Int) := by
  obtain ⟨_, _, _, _, h⟩ := raster_local n m
    (fun j i s => pass2Pixel n m xoffset yoffset I j i s)
    (fun j i => pass2Pixel_writes n m xoffset yoffset I j i) s0 h0
  exact h j i hj hi

/-- Native samples survive both passes. -/
theorem ppg_native (n m : Nat) (xoffset yoffset : Int) (I R G B : List ℚ)
    (hR : R.length = n * m) (hG : G.length = n * m) (hB : B.length = n * m)
    (i j : Nat) (hi : i < n) (hj : j < m) :
    (((j : Int) + yoffset) % 2 = 0 ∧ ((i : Int) + xoffset) % 2 = 0 →
        rd (ppg n m xoffset yoffset I R G B).R ((i + n * j : Nat) : Int)
          = rd I ((i : Int) + (n : Int) * (j : Int)))
    ∧ (((j : Int) + yoffset) % 2 = 1 ∧ ((i : Int) + xoffset) % 2 = 1 →
        rd (ppg n m xoffset yoffset I R G B).B ((i + n * j : Nat) : Int)
          = rd I ((i : Int) + (n : Int) * (j : Int)))
    ∧ (((j : Int) + yoffset) % 2 ≠ ((i : Int) + xoffset) % 2 →
        rd (ppg n m xoffset yoffset I R G B).G ((i + n * j : Nat) : Int)
          = rd I ((i : Int) + (n : Int) * (j : Int))) := by
  have hp : i + n * j < n * m := pixel_lt hi hj
  obtain ⟨a1, a2, a3⟩ := pass1_length n m xoffset yoffset I
    { R := R, G := G, B := B, k := 0 } rfl
  obtain ⟨t, t1, t2, t3, t4, _, t6⟩ := pass1_at n m xoffset yoffset I
    { R := R, G := G, B := B, k := 0 } rfl i j hi hj
  obtain ⟨e1, e2, e3⟩ := (px_eq_iff _ _ _).mp t6
  obtain ⟨n1, n2, n3⟩ := pass1Pixel_native n m xoffset yoffset I i j t t1
    (by rw [t2]; simpa [hR] using hp) (by rw [t3]; simpa [hG] using hp)
    (by rw [t4]; simpa [hB] using hp)
  obtain ⟨u, u1, u2, u3, u4, _, u6, u7⟩ := pass2_at n m xoffset yoffset I
    { pass1 n m xoffset yoffset I { R := R, G := G, B := B, k := 0 } with k := 0 } rfl
    i j hi hj
  obtain ⟨f1, f2, f3⟩ := (px_eq_iff _ _ _).mp u7
  obtain ⟨g1, g2, g3⟩ := (px_eq_iff _ _ _).mp (u6 (i + n * j) (le_refl _))
  obtain ⟨p1, p2, p3⟩ := pass2Pixel_native n m xoffset yoffset I i j u u1
    (by rw [u2]; simp only []; rw [a1]; simpa [hR] using hp)
    (by rw [u3]; simp only []; rw [a2]; simpa [hG] using hp)
    (by rw [u4]; simp only []; rw [a3]; simpa [hB] using hp)
  unfold ppg
  refine ⟨fun h => ?_, fun h => ?_, fun h => ?_⟩
  · rw [f1]
    exact p1 h (by rw [g1]; exact e1.trans (n1 h))
  · rw [f3]
    exact p2 h (by rw [g3]; exact e3.trans (n2 h))
  · rw [f2]
    exact p3 h (by rw [g2]; exact e2.trans (n3 h))

/-- C2: for a recognised pattern and a grid of even width and even height, at every pixel
`(i,j)` the output channel of the pixel's own Bayer colour equals the raw sample: `R` at a
red site (`(j+yoffset)` and `(i+xoffset)` both even), `B` at a blue site (both odd), `G`
at a green site (mixed parity); in the 3-pixel border as well as in the interior. -/
theorem debayer_native_samples (c : Collab) (chip : Int)
    (image imageB imageG imageR : MyImage)
    (hs : image.successProcessing = true)
    (hp : image.bayer = "RGGB" ∨ image.bayer = "GRBG" ∨ image.bayer = "GBRG"
      ∨ image.bayer = "BGGR")
    (hw : image.naxis1 % 2 = 0) (hh : image.naxis2 % 2 = 0)
    (i j : Nat) (hi : i < image.naxis1) (hj : j < image.naxis2) :
    (((j : Int) + (bayerOffsets image.bayer).2) % 2 = 0
        ∧ ((i : Int) + (bayerOffsets image.bayer).1) % 2 = 0 →
      rd (debayer c chip image imageB imageG imageR).imageR.dataCurrent
          ((i + image.naxis1 * j : Nat) : Int)
        = rd image.dataCurrent ((i + image.naxis1 * j : Nat) : Int))
    ∧ (((j : Int) + (bayerOffsets image.bayer).2) % 2 = 1
        ∧ ((i : Int) + (bayerOffsets image.bayer).1) % 2 = 1 →
      rd (debayer c chip image imageB imageG imageR).imageB.dataCurrent
          ((i + image.naxis1 * j : Nat) : Int)
        = rd image.dataCurrent ((i + image.naxis1 * j : Nat) : Int))
    ∧ (((j : Int) + (bayerOffsets image.bayer).2) % 2
        ≠ ((i : Int) + (bayerOffsets image.bayer).1) % 2 →
      rd (debayer c chip image imageB imageG imageR).imageG.dataCurrent
          ((i + image.naxis1 * j : Nat) : Int)
        = rd image.dataCurrent ((i + image.naxis1 * j : Nat) : Int)) := by
  have e1 : image.naxis1 - image.naxis1 % 2 = image.naxis1 := by omega
  have e2 : image.naxis2 - image.naxis2 % 2 = image.naxis2 := by omega
  rw [debayer_success c chip image imageB imageG imageR hs hp]
  simp only [e1, e2]
  exact ppg_native image.naxis1 image.naxis2 (bayerOffsets image.bayer).1
    (bayerOffsets image.bayer).2 image.dataCurrent _ _ _ (length_resize _ _)
    (length_resize _ _) (length_resize _ _) i j hi hj

/-- Instance of C2: the interior red site `(3,3)` of an 8x8 grid with tag BGGR. -/
theorem debayer_native_samples_witness :
    (((3 : Nat) : Int) + (bayerOffsets (rawImage "BGGR" 8 8 ramp64).bayer).2) % 2 = 0
    ∧ (((3 : Nat) : Int) + (bayerOffsets (rawImage "BGGR" 8 8 ramp64).bayer).1) % 2 = 0
    ∧ rd (debayer noCollab 0 (rawImage "BGGR" 8 8 ramp64) blankImage blankImage
          blankImage).imageR.dataCurrent ((3 + 8 * 3 : Nat) : Int)
        = rd ramp64 ((3 + 8 * 3 : Nat) : Int) := by
  have hred : (((3 : Nat) : Int) + (bayerOffsets (rawImage "BGGR" 8 8 ramp64).bayer).2) % 2 = 0
      ∧ (((3 : Nat) : Int) + (bayerOffsets (rawImage "BGGR" 8 8 ramp64).bayer).1) % 2 = 0 := by
    decide
  exact ⟨hred.1, hred.2, (debayer_native_samples noCollab 0 (rawImage "BGGR" 8 8 ramp64)
    blankImage blankImage blankImage rfl (Or.inr (Or.inr (Or.inr rfl))) (by decide)
    (by decide) 3 3 (by decide) (by decide)).1 hred⟩

/-! ## Flat-field invariance -/

/-- Bounds on the row offset `n*j` used to show that the indices stay inside the grid. -/
theorem row_facts (n m j : Nat) (hj : j < m) :
    (0 : Int) ≤ (n : Int) * j
    ∧ (n : Int) * j + n ≤ (n : Int) * m
    ∧ (1 ≤ (j : Int) → (n : Int) ≤ (n : Int) * j)
    ∧ ((j : Int) + 2 ≤ m → (n : Int) * j + 2 * n ≤ (n : Int) * m)
    ∧ (3 ≤ (j : Int) → 3 * (n : Int) ≤ (n : Int) * j)
    ∧ ((j : Int) + 4 ≤ m → (n : Int) * j + 4 * n ≤ (n : Int) * m) := by
  have hn : (0 : Int) ≤ n := Int.natCast_nonneg n
  have hj0 : (0 : Int) ≤ j := Int.natCast_nonneg j
  have hjm : (j : Int) + 1 ≤ m := by exact_mod_cast hj
  refine ⟨mul_nonneg hn hj0, ?_, ?_, ?_, ?_, ?_⟩
  · nlinarith [mul_le_mul_of_nonneg_left hjm hn]
  · intro h
    nlinarith [mul_le_mul_of_nonneg_left h hn]
  · intro h
    nlinarith [mul_le_mul_of_nonneg_left h hn]
  · intro h
    nlinarith [mul_le_mul_of_nonneg_left h hn]
  · intro h
    nlinarith [mul_le_mul_of_nonneg_left h hn]

theorem hue_transit_const (v : ℚ) : hue_transit v v v v v = v := by
  unfold hue_transit
  simp
  ring

/-- On a constant grid the green value interpolated at an interior pixel is the constant. -/
theorem greenSwitch_const (n m : Nat) (I : List ℚ) (v : ℚ)
    (hI : ∀ e : Int, 0 ≤ e → e < (n : Int) * m → rd I e = v) (i j : Nat) (hj : j < m)
    (hint : ¬ ((j : Int) ≤ 2 ∨ (j : Int) ≥ (m : Int) - 3 ∨ (i : Int) ≤ 2
      ∨ (i : Int) ≥ (n : Int) - 3)) :
    greenSwitch n I i j (direction (gradN n I i j) (gradE n I i j) (gradW n I i j)
      (gradS n I i j)) = some v := by
  obtain ⟨f0, f1, f2, f3, f4, f5⟩ := row_facts n m j hj
  unfold gradN gradE gradW gradS greenSwitch
  simp (disch := omega) only [hI]
  simp [direction]
  ring

/-- Pass 1 on a constant grid: green becomes the constant at every pixel, red at the red
sites, blue at the blue sites. -/
theorem pass1Pixel_const (n m : Nat) (xoffset yoffset : Int) (I : List ℚ) (v : ℚ)
    (hI : ∀ e : Int, 0 ≤ e → e < (n : Int) * m → rd I e = v) (i j : Nat) (hi : i < n)
    (hj : j < m) (s : Channels) (hk : s.k = i + n * j) (hR : i + n * j < s.R.length)
    (hG : i + n * j < s.G.length) (hB : i + n * j < s.B.length) :
    rd (pass1Pixel n m xoffset yoffset I j i s).G ((i + n * j : Nat) : Int) = v
    ∧ (((j : Int) + yoffset) % 2 = 0 ∧ ((i : Int) + xoffset) % 2 = 0 →
        rd (pass1Pixel n m xoffset yoffset I j i s).R ((i + n * j : Nat) : Int) = v)
    ∧ (((j : Int) + yoffset) % 2 = 1 ∧ ((i : Int) + xoffset) % 2 = 1 →
        rd (pass1Pixel n m xoffset yoffset I j i s).B ((i + n * j : Nat) : Int) = v) := by
  have hy := Int.emod_two_eq ((j : Int) + yoffset)
  have hx := Int.emod_two_eq ((i : Int) + xoffset)
  obtain ⟨f0, f1, f2, f3, f4, f5⟩ := row_facts n m j hj
  have hc : rd I ((i : Int) + (n : Int) * (j : Int)) = v := hI _ (by omega) (by omega)
  rcases s with ⟨R, G, B, k⟩
  simp only at hk hR hG hB
  subst hk
  unfold pass1Pixel
  dsimp only
  split_ifs with h1 h2 h3 h4 h5
  · simp only [Channels.next, Channels.setRGB, rd_wr_same _ _ _ hR, rd_wr_same _ _ _ hG,
      rd_wr_same _ _ _ hB, hc, implies_true, and_self]
  · rw [greenSwitch_const n m I v hI i j hj h1]
    refine ⟨?_, fun _ => ?_, fun hb => ?_⟩
    · simp only [Channels.next, rd_wr_same _ _ _ hG]
    · simp only [Channels.next, rd_wr_same _ _ _ hR, hc]
    · exfalso
      omega
  · rw [greenSwitch_const n m I v hI i j hj h1]
    refine ⟨?_, fun hr => ?_, fun _ => ?_⟩
    · simp only [Channels.next, rd_wr_same _ _ _ hG]
    · exfalso
      omega
    · simp only [Channels.next, rd_wr_same _ _ _ hB, hc]
  · refine ⟨?_, fun hr => ?_, fun hb => ?_⟩
    · simp only [Channels.next, rd_wr_same _ _ _ hG, hc]
    · exfalso
      omega
    · exfalso
      omega
  · refine ⟨?_, fun hr => ?_, fun hb => ?_⟩
    · simp only [Channels.next, rd_wr_same _ _ _ hG, hc]
    · exfalso
      omega
    · exfalso
      omega
  · exfalso
    omega

set_option maxHeartbeats 1000000 in
theorem borderRGGB_const (n m : Nat) (I : List ℚ) (v : ℚ)
    (hn : n % 2 = 0) (hm : m % 2 = 0)
    (hI : ∀ e : Int, 0 ≤ e → e < (n : Int) * m → rd I e = v) (i j : Nat) (hi : i < n)
    (hj : j < m) (R G B : List ℚ) (hR : i + n * j < R.length)
    (hG : i + n * j < G.length) (hB : i + n * j < B.length) :
    rd (borderRGGB n 0 0 I j i { R := R, G := G, B := B, k := i + n * j }).R
        ((i + n * j : Nat) : Int) = v
    ∧ rd (borderRGGB n 0 0 I j i { R := R, G := G, B := B, k := i + n * j }).G
        ((i + n * j : Nat) : Int) = v
    ∧ rd (borderRGGB n 0 0 I j i { R := R, G := G, B := B, k := i + n * j }).B
        ((i + n * j : Nat) : Int) = v := by
  have hy := Int.emod_two_eq ((j : Int) + 0)
  have hx := Int.emod_two_eq ((i : Int) + 0)
  obtain ⟨f0, f1, f2, f3, f4, f5⟩ := row_facts n m j hj
  unfold borderRGGB
  split_ifs <;> first
    | (simp only [Channels.setRGB, rd_wr_same _ _ _ hR, rd_wr_same _ _ _ hG,
        rd_wr_same _ _ _ hB]
       simp (disch := omega) only [hI, and_self])
    | (exfalso; omega)

set_option maxHeartbeats 1000000 in
theorem borderGRBG_const (n m : Nat) (I : List ℚ) (v : ℚ)
    (hn : n % 2 = 0) (hm : m % 2 = 0)
    (hI : ∀ e : Int, 0 ≤ e → e < (n : Int) * m → rd I e = v) (i j : Nat) (hi : i < n)
    (hj : j < m) (R G B : List ℚ) (hR : i + n * j < R.length)
    (hG : i + n * j < G.length) (hB : i + n * j < B.length) :
    rd (borderGRBG n 1 0 I j i { R := R, G := G, B := B, k := i + n * j }).R
        ((i + n * j : Nat) : Int) = v
    ∧ rd (borderGRBG n 1 0 I j i { R := R, G := G, B := B, k := i + n * j }).G
        ((i + n * j : Nat) : Int) = v
    ∧ rd (borderGRBG n 1 0 I j i { R := R, G := G, B := B, k := i + n * j }).B
        ((i + n * j : Nat) : Int) = v := by
  have hy := Int.emod_two_eq ((j : Int) + 0)
  have hx := Int.emod_two_eq ((i : Int) + 1)
  obtain ⟨f0, f1, f2, f3, f4, f5⟩ := row_facts n m j hj
  unfold borderGRBG
  split_ifs <;> first
    | (simp only [Channels.setRGB, rd_wr_same _ _ _ hR, rd_wr_same _ _ _ hG,
        rd_wr_same _ _ _ hB]
       simp (disch := omega) only [hI, and_self])
    | (exfalso; omega)

set_option maxHeartbeats 1000000 in
theorem borderGBRG_const (n m : Nat) (I : List ℚ) (v : ℚ)
    (hn : n % 2 = 0) (hm : m % 2 = 0)
    (hI : ∀ e : Int, 0 ≤ e → e < (n : Int) * m → rd I e = v) (i j : Nat) (hi : i < n)
    (hj : j < m) (R G B : List ℚ) (hR : i + n * j < R.length)
    (hG : i + n * j < G.length) (hB : i + n * j < B.length) :
    rd (borderGBRG n 0 1 I j i { R := R, G := G, B := B, k := i + n * j }).R
        ((i + n * j : Nat) : Int) = v
    ∧ rd (borderGBRG n 0 1 I j i { R := R, G := G, B := B, k := i + n * j }).G
        ((i + n * j : Nat) : Int) = v
    ∧ rd (borderGBRG n 0 1 I j i { R := R, G := G, B := B, k := i + n * j }).B
        ((i + n * j : Nat) : Int) = v := by
  have hy := Int.emod_two_eq ((j : Int) + 1)
  have hx := Int.emod_two_eq ((i : Int) + 0)
  obtain ⟨f0, f1, f2, f3, f4, f5⟩ := row_facts n m j hj
  unfold borderGBRG
  split_ifs <;> first
    | (simp only [Channels.setRGB, rd_wr_same _ _ _ hR, rd_wr_same _ _ _ hG,
        rd_wr_same _ _ _ hB]
       simp (disch := omega) only [hI, and_self])
    | (exfalso; omega)

set_option maxHeartbeats 1000000 in
theorem borderBGGR_const (n m : Nat) (I : List ℚ) (v : ℚ)
    (hn : n % 2 = 0) (hm : m % 2 = 0)
    (hI : ∀ e : Int, 0 ≤ e → e < (n : Int) * m → rd I e = v) (i j : Nat) (hi : i < n)
    (hj : j < m) (R G B : List ℚ) (hR : i + n * j < R.length)
    (hG : i + n * j < G.length) (hB : i + n * j < B.length) :
    rd (borderBGGR n 1 1 I j i { R := R, G := G, B := B, k := i + n * j }).R
        ((i + n * j : Nat) : Int) = v
    ∧ rd (borderBGGR n 1 1 I j i { R := R, G := G, B := B, k := i + n * j }).G
        ((i + n * j : Nat) : Int) = v
    ∧ rd (borderBGGR n 1 1 I j i { R := R, G := G, B := B, k := i + n * j }).B
        ((i + n * j : Nat) : Int) = v := by
  have hy := Int.emod_two_eq ((j : Int) + 1)
  have hx := Int.emod_two_eq ((i : Int) + 1)
  obtain ⟨f0, f1, f2, f3, f4, f5⟩ := row_facts n m j hj
  unfold borderBGGR
  split_ifs <;> first
    | (simp only [Channels.setRGB, rd_wr_same _ _ _ hR, rd_wr_same _ _ _ hG,
        rd_wr_same _ _ _ hB]
       simp (disch := omega) only [hI, and_self])
    | (exfalso; omega)

/-- The border branch of pass 2 on a constant grid of even width and height writes the
constant into the three channels. -/
theorem pass2Border_const (n m : Nat) (xoffset yoffset : Int) (I : List ℚ) (v : ℚ)
    (hn : n % 2 = 0) (hm : m % 2 = 0) (hxo : xoffset = 0 ∨ xoffset = 1)
    (hyo : yoffset = 0 ∨ yoffset = 1)
    (hI : ∀ e : Int, 0 ≤ e → e < (n : Int) * m → rd I e = v) (i j : Nat) (hi : i < n)
    (hj : j < m) (s : Channels) (hk : s.k = i + n * j) (hR : i + n * j < s.R.length)
    (hG : i + n * j < s.G.length) (hB : i + n * j < s.B.length) :
    rd (pass2Border n xoffset yoffset I j i s).R ((i + n * j : Nat) : Int) = v
    ∧ rd (pass2Border n xoffset yoffset I j i s).G ((i + n * j : Nat) : Int) = v
    ∧ rd (pass2Border n xoffset yoffset I j i s).B ((i + n * j : Nat) : Int) = v := by
  rcases s with ⟨R, G, B, k⟩
  simp only at hk hR hG hB
  subst hk
  unfold pass2Border
  rcases hxo with rfl | rfl <;> rcases hyo with rfl | rfl
  · rw [if_pos ⟨rfl, rfl⟩]
    exact borderRGGB_const n m I v hn hm hI i j hi hj R G B hR hG hB
  · rw [if_neg (by decide), if_neg (by decide), if_pos ⟨rfl, by decide⟩]
    exact borderGBRG_const n m I v hn hm hI i j hi hj R G B hR hG hB
  · rw [if_neg (by decide), if_pos ⟨by decide, rfl⟩]
    exact borderGRBG_const n m I v hn hm hI i j hi hj R G B hR hG hB
  · rw [if_neg (by decide), if_neg (by decide), if_neg (by decide),
      if_pos ⟨by decide, by decide⟩]
    exact borderBGGR_const n m I v hn hm hI i j hi hj R G B hR hG hB

set_option maxHeartbeats 1000000 in
/-- The interior branch of pass 2 on a constant grid, the green channel being constant:
the channel values at the pixel are the constant afterwards. -/
theorem pass2Interior_const (n m : Nat) (xoffset yoffset : Int) (I : List ℚ) (v : ℚ)
    (hI : ∀ e : Int, 0 ≤ e → e < (n : Int) * m → rd I e = v) (i j : Nat) (hj : j < m)
    (hint : ¬ ((j : Int) ≤ 2 ∨ (j : Int) ≥ (m : Int) - 3 ∨ (i : Int) ≤ 2
      ∨ (i : Int) ≥ (n : Int) - 3))
    (R G B : List ℚ) (hR : i + n * j < R.length) (hB : i + n * j < B.length)
    (hGc : ∀ e : Int, 0 ≤ e → e < (n : Int) * m → rd G e = v)
    (hRc : ((j : Int) + yoffset) % 2 = 0 ∧ ((i : Int) + xoffset) % 2 = 0 →
      rd R ((i + n * j : Nat) : Int) = v)
    (hBc : ((j : Int) + yoffset) % 2 = 1 ∧ ((i : Int) + xoffset) % 2 = 1 →
      rd B ((i + n * j : Nat) : Int) = v) :
    rd (pass2Interior n xoffset yoffset I j i
        { R := R, G := G, B := B, k := i + n * j }).R ((i + n * j : Nat) : Int) = v
    ∧ rd (pass2Interior n xoffset yoffset I j i
        { R := R, G := G, B := B, k := i + n * j }).G ((i + n * j : Nat) : Int) = v
    ∧ rd (pass2Interior n xoffset yoffset I j i
        { R := R, G := G, B := B, k := i + n * j }).B ((i + n * j : Nat) : Int) = v := by
  have hy := Int.emod_two_eq ((j : Int) + yoffset)
  have hx := Int.emod_two_eq ((i : Int) + xoffset)
  obtain ⟨f0, f1, f2, f3, f4, f5⟩ := row_facts n m j hj
  have hg : rd G ((i + n * j : Nat) : Int) = v :=
    hGc _ (by push_cast; omega) (by push_cast; omega)
  unfold pass2Interior
  dsimp only
  simp (disch := omega) only [hI, hGc, hue_transit_const, ite_self]
  split_ifs with h1 h2 h3 h4
  · exact ⟨hRc h1, hg, by simp only [Channels.next, rd_wr_same _ _ _ hB]⟩
  · exact ⟨by simp only [Channels.next, rd_wr_same _ _ _ hR], hg,
      by simp only [Channels.next, rd_wr_same _ _ _ hB]⟩
  · exact ⟨by simp only [Channels.next, rd_wr_same _ _ _ hR], hg,
      by simp only [Channels.next, rd_wr_same _ _ _ hB]⟩
  · exact ⟨by simp only [Channels.next, rd_wr_same _ _ _ hR], hg, hBc h4⟩
  · exfalso
    omega

/-- Pass 2 at a pixel of a constant grid of even width and height. -/
theorem pass2Pixel_const (n m : Nat) (xoffset yoffset : Int) (I : List ℚ) (v : ℚ)
    (hn : n % 2 = 0) (hm : m % 2 = 0) (hxo : xoffset = 0 ∨ xoffset = 1)
    (hyo : yoffset = 0 ∨ yoffset = 1)
    (hI : ∀ e : Int, 0 ≤ e → e < (n : Int) * m → rd I e = v) (i j : Nat) (hi : i < n)
    (hj : j < m) (s : Channels) (hk : s.k = i + n * j) (hR : i + n * j < s.R.length)
    (hG : i + n * j < s.G.length) (hB : i + n * j < s.B.length)
    (hGc : ∀ e : Int, 0 ≤ e → e < (n : Int) * m → rd s.G e = v)
    (hRc : ((j : Int) + yoffset) % 2 = 0 ∧ ((i : Int) + xoffset) % 2 = 0 →
      rd s.R ((i + n * j : Nat) : Int) = v)
    (hBc : ((j : Int) + yoffset) % 2 = 1 ∧ ((i : Int) + xoffset) % 2 = 1 →
      rd s.B ((i + n * j : Nat) : Int) = v) :
    rd (pass2Pixel n m xoffset yoffset I j i s).R ((i + n * j : Nat) : Int) = v
    ∧ rd (pass2Pixel n m xoffset yoffset I j i s).G ((i + n * j : Nat) : Int) = v
    ∧ rd (pass2Pixel n m xoffset yoffset I j i s).B ((i + n * j : Nat) : Int) = v := by
  unfold pass2Pixel
  split_ifs with hb
  · exact pass2Border_const n m xoffset yoffset I v hn hm hxo hyo hI i j hi hj s hk hR hG hB
  · rcases s with ⟨R, G, B, k⟩
    simp only at hk hR hG hB hGc hRc hBc
    subst hk
    exact pass2Interior_const n m xoffset yoffset I v hI i j hj hb R G B hR hB hGc hRc hBc

theorem rd_of_lt (l : List ℚ) (N : Nat) (v : ℚ) (h : ∀ q : Nat, q < N → rd l (q : Int) = v)
    (e : Int) (h0 : 0 ≤ e) (h1 : e < (N : Int)) : rd l e = v := by
  obtain ⟨q, rfl⟩ := Int.eq_ofNat_of_zero_le h0
  exact h q (by exact_mod_cast h1)

/-- After pass 1 on a constant grid: green is the constant everywhere, red at the red sites
and blue at the blue sites. -/
theorem pass1_const (n m : Nat) (xoffset yoffset : Int) (I : List ℚ) (v : ℚ)
    (hI : ∀ e : Int, 0 ≤ e → e < (n : Int) * m → rd I e = v) (R G B : List ℚ)
    (hR : R.length = n * m) (hG : G.length = n * m) (hB : B.length = n * m)
    (i j : Nat) (hi : i < n) (hj : j < m) :
    rd (pass1 n m xoffset yoffset I { R := R, G := G, B := B, k := 0 }).G
        ((i + n * j : Nat) : Int) = v
    ∧ (((j : Int) + yoffset) % 2 = 0 ∧ ((i : Int) + xoffset) % 2 = 0 →
        rd (pass1 n m xoffset yoffset I { R := R, G := G, B := B, k := 0 }).R
          ((i + n * j : Nat) : Int) = v)
    ∧ (((j : Int) + yoffset) % 2 = 1 ∧ ((i : Int) + xoffset) % 2 = 1 →
        rd (pass1 n m xoffset yoffset I { R := R, G := G, B := B, k := 0 }).B
          ((i + n * j : Nat) : Int) = v) := by
  have hp : i + n * j < n * m := pixel_lt hi hj
  obtain ⟨t, t1, t2, t3, t4, _, t6⟩ := pass1_at n m xoffset yoffset I
    { R := R, G := G, B := B, k := 0 } rfl i j hi hj
  obtain ⟨e1, e2, e3⟩ := (px_eq_iff _ _ _).mp t6
  obtain ⟨c1, c2, c3⟩ := pass1Pixel_const n m xoffset yoffset I v hI i j hi hj t t1
    (by rw [t2]; simpa [hR] using hp) (by rw [t3]; simpa [hG] using hp)
    (by rw [t4]; simpa [hB] using hp)
  exact ⟨e2.trans c1, fun h => e1.trans (c2 h), fun h => e3.trans (c3 h)⟩

/-- Flat-field invariance of the two passes. -/
theorem ppg_const (n m : Nat) (xoffset yoffset : Int) (I : List ℚ) (v : ℚ)
    (hn : n % 2 = 0) (hm : m % 2 = 0) (hxo : xoffset = 0 ∨ xoffset = 1)
    (hyo : yoffset = 0 ∨ yoffset = 1)
    (hI : ∀ e : Int, 0 ≤ e → e < (n : Int) * m → rd I e = v) (R G B : List ℚ)
    (hR : R.length = n * m) (hG : G.length = n * m) (hB : B.length = n * m)
    (q : Nat) (hq : q < n * m) :
    rd (ppg n m xoffset yoffset I R G B).R (q : Int) = v
    ∧ rd (ppg n m xoffset yoffset I R G B).G (q : Int) = v
    ∧ rd (ppg n m xoffset yoffset I R G B).B (q : Int) = v := by
  obtain ⟨a1, a2, a3⟩ := pass1_length n m xoffset yoffset I
    { R := R, G := G, B := B, k := 0 } rfl
  have h1 := pass1_const n m xoffset yoffset I v hI R G B hR hG hB
  have h1G : ∀ q : Nat, q < n * m →
      rd (pass1 n m xoffset yoffset I { R := R, G := G, B := B, k := 0 }).G (q : Int) = v := by
    intro q hq
    obtain ⟨i, j, hi, hj, rfl⟩ := pixel_exists hq
    exact (h1 i j hi hj).1
  unfold ppg
  dsimp only
  induction q using Nat.strong_induction_on with
  | _ q ih =>
    obtain ⟨i, j, hi, hj, rfl⟩ := pixel_exists hq
    obtain ⟨u, u1, u2, u3, u4, u5, u6, u7⟩ := pass2_at n m xoffset yoffset I
      { pass1 n m xoffset yoffset I { R := R, G := G, B := B, k := 0 } with k := 0 } rfl
      i j hi hj
    obtain ⟨f1, f2, f3⟩ := (px_eq_iff _ _ _).mp u7
    obtain ⟨g1, g2, g3⟩ := (px_eq_iff _ _ _).mp (u6 (i + n * j) (le_refl _))
    have hGc : ∀ e : Int, 0 ≤ e → e < (n : Int) * m → rd u.G e = v := by
      intro e h0 h1'
      have h1'' : e < ((n * m : Nat) : Int) := by push_cast; exact h1'
      apply rd_of_lt u.G (n * m) v _ e h0 h1''
      intro q' hq'
      by_cases hlt : q' < i + n * j
      · rw [((px_eq_iff _ _ _).mp (u5 q' hlt)).2.1]
        exact (ih q' hlt hq').2.1
      · rw [((px_eq_iff _ _ _).mp (u6 q' (not_lt.mp hlt))).2.1]
        exact h1G q' hq'
    obtain ⟨p1, p2, p3⟩ := pass2Pixel_const n m xoffset yoffset I v hn hm hxo hyo hI i j hi hj
      u u1
      (by rw [u2]; simp only []; rw [a1]; simpa [hR] using hq)
      (by rw [u3]; simp only []; rw [a2]; simpa [hG] using hq)
      (by rw [u4]; simp only []; rw [a3]; simpa [hB] using hq)
      hGc
      (fun h => by rw [g1]; exact (h1 i j hi hj).2.1 h)
      (fun h => by rw [g3]; exact (h1 i j hi hj).2.2 h)
    exact ⟨f1.trans p1, f2.trans p2, f3.trans p3⟩

theorem bayerOffsets_range (pattern : String) :
    ((bayerOffsets pattern).1 = 0 ∨ (bayerOffsets pattern).1 = 1)
    ∧ ((bayerOffsets pattern).2 = 0 ∨ (bayerOffsets pattern).2 = 1) := by
  unfold bayerOffsets
  split_ifs <;> simp

theorem rd_replicate (N : Nat) (v : ℚ) (e : Int) (h0 : 0 ≤ e) (h1 : e < (N : Int)) :
    rd (List.replicate N v) e = v := by
  obtain ⟨q, rfl⟩ := Int.eq_ofNat_of_zero_le h0
  have hq : q < N := by exact_mod_cast h1
  simp [rd_nat, List.getD_eq_getElem?_getD, List.getElem?_replicate, hq]

theorem eq_replicate_of_rd (l : List ℚ) (N : Nat) (v : ℚ) (hl : l.length = N)
    (h : ∀ q : Nat, q < N → rd l (q : Int) = v) : l = List.replicate N v := by
  rw [List.eq_replicate_iff]
  refine ⟨hl, ?_⟩
  intro b hb
  obtain ⟨q, hq, rfl⟩ := List.mem_iff_getElem.mp hb
  have := h q (hl ▸ hq)
  rw [rd_nat, List.getD_eq_getElem?_getD, List.getElem?_eq_getElem hq] at this
  simpa using this

/-- C1: for each of the four pattern tags, every grid size and every constant `v`, if
every raw sample equals `v` then after `debayer` the `R`, the `G` and the `B` output buffer
consist of `v` only (each of them has `(w - w%2)*(h - h%2)` elements). -/
theorem debayer_flat_field (c : Collab) (chip : Int) (image imageB imageG imageR : MyImage)
    (v : ℚ) (hs : image.successProcessing = true)
    (hp : image.bayer = "RGGB" ∨ image.bayer = "GRBG" ∨ image.bayer = "GBRG"
      ∨ image.bayer = "BGGR")
    (hI : image.dataCurrent = List.replicate (image.naxis1 * image.naxis2) v) :
    (debayer c chip image imageB imageG imageR).imageR.dataCurrent
        = List.replicate
            ((image.naxis1 - image.naxis1 % 2) * (image.naxis2 - image.naxis2 % 2)) v
    ∧ (debayer c chip image imageB imageG imageR).imageG.dataCurrent
        = List.replicate
            ((image.naxis1 - image.naxis1 % 2) * (image.naxis2 - image.naxis2 % 2)) v
    ∧ (debayer c chip image imageB imageG imageR).imageB.dataCurrent
        = List.replicate
            ((image.naxis1 - image.naxis1 % 2) * (image.naxis2 - image.naxis2 % 2)) v := by
  have hn : (image.naxis1 - image.naxis1 % 2) % 2 = 0 := by omega
  have hm : (image.naxis2 - image.naxis2 % 2) % 2 = 0 := by omega
  have hle : (image.naxis1 - image.naxis1 % 2) * (image.naxis2 - image.naxis2 % 2)
      ≤ image.naxis1 * image.naxis2 :=
    Nat.mul_le_mul (Nat.sub_le _ _) (Nat.sub_le _ _)
  have hc : ∀ e : Int, 0 ≤ e
      → e < ((image.naxis1 - image.naxis1 % 2 : Nat) : Int)
          * ((image.naxis2 - image.naxis2 % 2 : Nat) : Int)
      → rd image.dataCurrent e = v := by
    intro e h0 h1
    rw [hI]
    apply rd_replicate _ _ _ h0
    have : e < (((image.naxis1 - image.naxis1 % 2) * (image.naxis2 - image.naxis2 % 2)
        : Nat) : Int) := by push_cast; exact h1
    exact lt_of_lt_of_le this (by exact_mod_cast hle)
  obtain ⟨hxo, hyo⟩ := bayerOffsets_range image.bayer
  have key := ppg_const (image.naxis1 - image.naxis1 % 2) (image.naxis2 - image.naxis2 % 2)
    (bayerOffsets image.bayer).1 (bayerOffsets image.bayer).2 image.dataCurrent v hn hm
    hxo hyo hc
    (resize imageR.dataCurrent
      ((image.naxis1 - image.naxis1 % 2) * (image.naxis2 - image.naxis2 % 2)))
    (resize imageG.dataCurrent
      ((image.naxis1 - image.naxis1 % 2) * (image.naxis2 - image.naxis2 % 2)))
    (resize imageB.dataCurrent
      ((image.naxis1 - image.naxis1 % 2) * (image.naxis2 - image.naxis2 % 2)))
    (length_resize _ _) (length_resize _ _) (length_resize _ _)
  obtain ⟨lR, lG, lB⟩ := ppg_length (image.naxis1 - image.naxis1 % 2)
    (image.naxis2 - image.naxis2 % 2) (bayerOffsets image.bayer).1
    (bayerOffsets image.bayer).2 image.dataCurrent
    (resize imageR.dataCurrent
      ((image.naxis1 - image.naxis1 % 2) * (image.naxis2 - image.naxis2 % 2)))
    (resize imageG.dataCurrent
      ((image.naxis1 - image.naxis1 % 2) * (image.naxis2 - image.naxis2 % 2)))
    (resize imageB.dataCurrent
      ((image.naxis1 - image.naxis1 % 2) * (image.naxis2 - image.naxis2 % 2)))
  rw [length_resize] at lR lG lB
  rw [debayer_success c chip image imageB imageG imageR hs hp]
  exact ⟨eq_replicate_of_rd _ _ _ lR (fun q hq => (key q hq).1),
    eq_replicate_of_rd _ _ _ lG (fun q hq => (key q hq).2.1),
    eq_replicate_of_rd _ _ _ lB (fun q hq => (key q hq).2.2)⟩

/-- Instance of C1: a 9x8 grid of constant 5 with tag GBRG. -/
theorem debayer_flat_field_witness :
    (rawImage "GBRG" 9 8 (List.replicate (9 * 8) 5)).dataCurrent
        = List.replicate ((rawImage "GBRG" 9 8 (List.replicate (9 * 8) 5)).naxis1
            * (rawImage "GBRG" 9 8 (List.replicate (9 * 8) 5)).naxis2) 5
    ∧ (debayer noCollab 0 (rawImage "GBRG" 9 8 (List.replicate (9 * 8) 5)) blankImage
        blankImage blankImage).imageR.dataCurrent = List.replicate ((9 - 9 % 2) * (8 - 8 % 2)) 5
    ∧ (debayer noCollab 0 (rawImage "GBRG" 9 8 (List.replicate (9 * 8) 5)) blankImage
        blankImage blankImage).imageG.dataCurrent = List.replicate ((9 - 9 % 2) * (8 - 8 % 2)) 5
    ∧ (debayer noCollab 0 (rawImage "GBRG" 9 8 (List.replicate (9 * 8) 5)) blankImage
        blankImage blankImage).imageB.dataCurrent
          = List.replicate ((9 - 9 % 2) * (8 - 8 % 2)) 5 :=
  ⟨rfl, debayer_flat_field noCollab 0 (rawImage "GBRG" 9 8 (List.replicate (9 * 8) 5))
    blankImage blankImage blankImage 5 rfl (Or.inr (Or.inr (Or.inl rfl))) rfl⟩

/-! ## Odd widths -/

/-- C3 at a failing input: a 3x2 grid with tag RGGB.  The cropped grid is
`[10, 11, 13, 14]`; `debayer` on the 3x2 grid yields `G = [11, 11, 12, 12]` and
`B = [13, 13, 13, 13]`, whereas `debayer` on the cropped 2x2 grid yields
`G = [11, 11, 13, 13]` and `B = [14, 14, 14, 14]`. -/
theorem debayer_odd_width :
    cropEven 3 2 [10, 11, 12, 13, 14, 15] = [10, 11, 13, 14]
    ∧ (debayer noCollab 0 (rawImage "RGGB" 3 2 [10, 11, 12, 13, 14, 15]) blankImage
        blankImage blankImage).imageG.dataCurrent = [11, 11, 12, 12]
    ∧ (debayer noCollab 0 (rawImage "RGGB" 3 2 [10, 11, 12, 13, 14, 15]) blankImage
        blankImage blankImage).imageB.dataCurrent = [13, 13, 13, 13]
    ∧ (debayer noCollab 0 (rawImage "RGGB" 2 2 (cropEven 3 2 [10, 11, 12, 13, 14, 15]))
        blankImage blankImage blankImage).imageG.dataCurrent = [11, 11, 13, 13]
    ∧ (debayer noCollab 0 (rawImage "RGGB" 2 2 (cropEven 3 2 [10, 11, 12, 13, 14, 15]))
        blankImage blankImage blankImage).imageB.dataCurrent = [14, 14, 14, 14] := by
  decide

/-! ## Metadata of the three channels -/

/-- C11: after a successful `debayer` of an input with timestamp `t`, the `B`, `G` and `R`
outputs carry the timestamps `t`, `t + 1e-6` and `t + 2e-6`; they are strictly increasing
in the order `B`, `G`, `R`, hence pairwise distinct. -/
theorem debayer_timestamps (c : Collab) (chip : Int) (image imageB imageG imageR : MyImage)
    (hs : image.successProcessing = true)
    (hp : image.bayer = "RGGB" ∨ image.bayer = "GRBG" ∨ image.bayer = "GBRG"
      ∨ image.bayer = "BGGR") :
    (debayer c chip image imageB imageG imageR).imageB.mjdobs = image.mjdobs
    ∧ (debayer c chip image imageB imageG imageR).imageG.mjdobs
        = image.mjdobs + 1 / 1000000
    ∧ (debayer c chip image imageB imageG imageR).imageR.mjdobs
        = image.mjdobs + 2 / 1000000
    ∧ (debayer c chip image imageB imageG imageR).imageB.mjdobs
        < (debayer c chip image imageB imageG imageR).imageG.mjdobs
    ∧ (debayer c chip image imageB imageG imageR).imageG.mjdobs
        < (debayer c chip image imageB imageG imageR).imageR.mjdobs
    ∧ (debayer c chip image imageB imageG imageR).imageB.mjdobs
        ≠ (debayer c chip image imageB imageG imageR).imageR.mjdobs := by
  rw [debayer_success c chip image imageB imageG imageR hs hp]
  have hB : (labelChannel chip "B" (setupChannel c image
      (image.naxis1 - image.naxis1 % 2) (image.naxis2 - image.naxis2 % 2) 0 imageB)).mjdobs
      = image.mjdobs := by
    simp [labelChannel, setupChannel]
  have hG : (labelChannel chip "G" (setupChannel c image
      (image.naxis1 - image.naxis1 % 2) (image.naxis2 - image.naxis2 % 2) (0 + mjdStep)
      imageG)).mjdobs = image.mjdobs + 1 / 1000000 := by
    simp [labelChannel, setupChannel, mjdStep]
  have hR : (labelChannel chip "R" (setupChannel c image
      (image.naxis1 - image.naxis1 % 2) (image.naxis2 - image.naxis2 % 2)
      (0 + mjdStep + mjdStep) imageR)).mjdobs = image.mjdobs + 2 / 1000000 := by
    simp only [labelChannel, setupChannel, mjdStep]
    ring
  simp only [hB, hG, hR]
  refine ⟨trivial, trivial, trivial, ?_, ?_, ?_⟩
  · linarith
  · linarith
  · intro h
    linarith

/-- Instance of C11: a 4x4 image with tag RGGB and timestamp 58000. -/
theorem debayer_timestamps_witness :
    ({ rawImage "RGGB" 4 4 (List.replicate 16 1) with mjdobs := 58000 } :
        MyImage).successProcessing = true
    ∧ (debayer noCollab 0 { rawImage "RGGB" 4 4 (List.replicate 16 1) with mjdobs := 58000 }
        blankImage blankImage blankImage).imageG.mjdobs = 58000 + 1 / 1000000
    ∧ (debayer noCollab 0 { rawImage "RGGB" 4 4 (List.replicate 16 1) with mjdobs := 58000 }
        blankImage blankImage blankImage).imageR.mjdobs = 58000 + 2 / 1000000 :=
  ⟨rfl, (debayer_timestamps noCollab 0
      { rawImage "RGGB" 4 4 (List.replicate 16 1) with mjdobs := 58000 }
      blankImage blankImage blankImage rfl (Or.inl rfl)).2.1,
    (debayer_timestamps noCollab 0
      { rawImage "RGGB" 4 4 (List.replicate 16 1) with mjdobs := 58000 }
      blankImage blankImage blankImage rfl (Or.inl rfl)).2.2.1⟩

theorem qcontains_iff (card pat : String) :
    qcontains card pat = true ↔ ∃ pre post, card.toList = pre ++ pat.toList ++ post := by
  unfold qcontains
  rw [List.any_eq_true]
  constructor
  · rintro ⟨t, ht, hpre⟩
    rw [List.mem_tails] at ht
    rw [List.isPrefixOf_iff_prefix] at hpre
    obtain ⟨pre, hpre'⟩ := ht
    obtain ⟨post, hpost⟩ := hpre
    exact ⟨pre, post, by rw [← hpre', ← hpost, List.append_assoc]⟩
  · rintro ⟨pre, post, h⟩
    refine ⟨pat.toList ++ post, ?_, ?_⟩
    · rw [List.mem_tails, h, List.append_assoc]
      exact List.suffix_append _ _
    · rw [List.isPrefixOf_iff_prefix]
      exact List.prefix_append _ _

theorem filterCard_eq (card : String) :
    filterCard "B" card = (if qcontains card "FILTER  = " then filterCard80 'B' else card)
    ∧ filterCard "G" card = (if qcontains card "FILTER  = " then filterCard80 'G' else card)
    ∧ filterCard "R" card = (if qcontains card "FILTER  = " then filterCard80 'R' else card) := by
  have hB : qresize ("FILTER  = '" ++ "B" ++ "'") 80 ' ' = filterCard80 'B' := by decide
  have hG : qresize ("FILTER  = '" ++ "G" ++ "'") 80 ' ' = filterCard80 'G' := by decide
  have hR : qresize ("FILTER  = '" ++ "R" ++ "'") 80 ' ' = filterCard80 'R' := by decide
  unfold filterCard
  rw [hB, hG, hR]
  exact ⟨rfl, rfl, rfl⟩



/-- C12: after a successful `debayer` the header of each output channel `X` in `B`, `G`,
`R` has the cards of the input's header, in the same order, where every card that contains
the text `FILTER  = ` is replaced by the card of exactly 80 characters made of
`FILTER  = 'X'` followed by spaces and every other card is kept; the filter tag is `X`. -/
theorem debayer_filter_header (c : Collab) (chip : Int)
    (image imageB imageG imageR : MyImage)
    (hs : image.successProcessing = true)
    (hp : image.bayer = "RGGB" ∨ image.bayer = "GRBG" ∨ image.bayer = "GBRG"
      ∨ image.bayer = "BGGR") :
    ((debayer c chip image imageB imageG imageR).imageB.header
        = image.header.map
            (fun card => if qcontains card "FILTER  = " then filterCard80 'B' else card)
      ∧ (debayer c chip image imageB imageG imageR).imageB.header.length
          = image.header.length
      ∧ (debayer c chip image imageB imageG imageR).imageB.filter = "B")
    ∧ ((debayer c chip image imageB imageG imageR).imageG.header
        = image.header.map
            (fun card => if qcontains card "FILTER  = " then filterCard80 'G' else card)
      ∧ (debayer c chip image imageB imageG imageR).imageG.header.length
          = image.header.length
      ∧ (debayer c chip image imageB imageG imageR).imageG.filter = "G")
    ∧ ((debayer c chip image imageB imageG imageR).imageR.header
        = image.header.map
            (fun card => if qcontains card "FILTER  = " then filterCard80 'R' else card)
      ∧ (debayer c chip image imageB imageG imageR).imageR.header.length
          = image.header.length
      ∧ (debayer c chip image imageB imageG imageR).imageR.filter = "R")
    ∧ ((filterCard80 'B').length = 80 ∧ (filterCard80 'G').length = 80
      ∧ (filterCard80 'R').length = 80)
    ∧ ∀ card : String, qcontains card "FILTER  = " = true
        ↔ ∃ pre post, card.toList = pre ++ "FILTER  = ".toList ++ post := by
  rw [debayer_success c chip image imageB imageG imageR hs hp]
  have hB : (fun card => filterCard "B" card)
      = (fun card => if qcontains card "FILTER  = " then filterCard80 'B' else card) :=
    funext fun card => (filterCard_eq card).1
  have hG : (fun card => filterCard "G" card)
      = (fun card => if qcontains card "FILTER  = " then filterCard80 'G' else card) :=
    funext fun card => (filterCard_eq card).2.1
  have hR : (fun card => filterCard "R" card)
      = (fun card => if qcontains card "FILTER  = " then filterCard80 'R' else card) :=
    funext fun card => (filterCard_eq card).2.2
  refine ⟨⟨?_, ?_, rfl⟩, ⟨?_, ?_, rfl⟩, ⟨?_, ?_, rfl⟩, ⟨by decide, by decide, by decide⟩,
    fun card => qcontains_iff card _⟩
  · show List.map (fun card => filterCard "B" card) image.header = _
    rw [hB]
  · show (List.map (fun card => filterCard "B" card) image.header).length = _
    rw [List.length_map]
  · show List.map (fun card => filterCard "G" card) image.header = _
    rw [hG]
  · show (List.map (fun card => filterCard "G" card) image.header).length = _
    rw [List.length_map]
  · show List.map (fun card => filterCard "R" card) image.header = _
    rw [hR]
  · show (List.map (fun card => filterCard "R" card) image.header).length = _
    rw [List.length_map]

/-- Instance of C12: a header of three cards, the second one a FILTER card. -/
theorem debayer_filter_header_witness :
    ({ rawImage "GRBG" 2 2 [1, 2, 3, 4] with
        header := ["SIMPLE  = T", "FILTER  = 'RGB'   / filter name", "END"] } :
        MyImage).successProcessing = true
    ∧ (debayer noCollab 0
        { rawImage "GRBG" 2 2 [1, 2, 3, 4] with
          header := ["SIMPLE  = T", "FILTER  = 'RGB'   / filter name", "END"] }
        blankImage blankImage blankImage).imageG.header
        = ["SIMPLE  = T", filterCard80 'G', "END"] := by
  refine ⟨rfl, ?_⟩
  rw [(debayer_filter_header noCollab 0
        { rawImage "GRBG" 2 2 [1, 2, 3, 4] with
          header := ["SIMPLE  = T", "FILTER  = 'RGB'   / filter name", "END"] }
        blankImage blankImage blankImage rfl (Or.inr (Or.inl rfl))).2.1.1]
  decide



/-! ## Pattern tags and site colours -/

theorem siteColour_of_offsets (tag : String) (xo yo : Int) (i j : Nat)
    (h : (xo = 0 ∨ xo = 1) ∧ (yo = 0 ∨ yo = 1))
    (h00 : tag.toList.getD (2 * yo.toNat + xo.toNat) ' ' = 'R')
    (h11 : tag.toList.getD (2 * (1 - yo.toNat) + (1 - xo.toNat)) ' ' = 'B')
    (h01 : tag.toList.getD (2 * yo.toNat + (1 - xo.toNat)) ' ' = 'G')
    (h10 : tag.toList.getD (2 * (1 - yo.toNat) + xo.toNat) ' ' = 'G') :
    siteColour xo yo i j = tag.toList.getD (2 * (j % 2) + i % 2) ' ' := by
  obtain ⟨hx, hy⟩ := h
  unfold siteColour
  rcases hx with rfl | rfl <;> rcases hy with rfl | rfl <;>
    rcases Nat.mod_two_eq_zero_or_one i with hi | hi <;>
    rcases Nat.mod_two_eq_zero_or_one j with hj | hj <;>
    simp only [hi, hj] <;>
    simp at h00 h01 h10 h11 <;>
    split_ifs <;>
    first
      | (exfalso; omega)
      | simp [h00, h01, h10, h11]

/-- C13: the pattern tag names the colours of the 2x2 tile in row-major order: for each of
the four tags and every pixel `(i,j)` the site colour assigned through `(j+yoffset)%2` and
`(i+xoffset)%2` is the letter of the tag at index `2*(j mod 2) + (i mod 2)`, the offsets
`(xoffset, yoffset)` being `(0,0)` for RGGB, `(1,0)` for GRBG, `(0,1)` for GBRG and `(1,1)`
for BGGR. -/
theorem siteColour_tag (i j : Nat) :
    (bayerOffsets "RGGB" = (0, 0)
      ∧ siteColour (bayerOffsets "RGGB").1 (bayerOffsets "RGGB").2 i j
          = "RGGB".toList.getD (2 * (j % 2) + i % 2) ' ')
    ∧ (bayerOffsets "GRBG" = (1, 0)
      ∧ siteColour (bayerOffsets "GRBG").1 (bayerOffsets "GRBG").2 i j
          = "GRBG".toList.getD (2 * (j % 2) + i % 2) ' ')
    ∧ (bayerOffsets "GBRG" = (0, 1)
      ∧ siteColour (bayerOffsets "GBRG").1 (bayerOffsets "GBRG").2 i j
          = "GBRG".toList.getD (2 * (j % 2) + i % 2) ' ')
    ∧ (bayerOffsets "BGGR" = (1, 1)
      ∧ siteColour (bayerOffsets "BGGR").1 (bayerOffsets "BGGR").2 i j
          = "BGGR".toList.getD (2 * (j % 2) + i % 2) ' ') := by
  have e1 : bayerOffsets "RGGB" = (0, 0) := by decide
  have e2 : bayerOffsets "GRBG" = (1, 0) := by decide
  have e3 : bayerOffsets "GBRG" = (0, 1) := by decide
  have e4 : bayerOffsets "BGGR" = (1, 1) := by decide
  rw [e1, e2, e3, e4]
  refine ⟨⟨rfl, ?_⟩, ⟨rfl, ?_⟩, ⟨rfl, ?_⟩, ⟨rfl, ?_⟩⟩
  · exact siteColour_of_offsets "RGGB" 0 0 i j (by decide) (by decide) (by decide)
      (by decide) (by decide)
  · exact siteColour_of_offsets "GRBG" 1 0 i j (by decide) (by decide) (by decide)
      (by decide) (by decide)
  · exact siteColour_of_offsets "GBRG" 0 1 i j (by decide) (by decide) (by decide)
      (by decide) (by decide)
  · exact siteColour_of_offsets "BGGR" 1 1 i j (by decide) (by decide) (by decide)
      (by decide) (by decide)

theorem direction_range (N E W S : ℚ) :
    direction N E W S = 1 ∨ direction N E W S = 2 ∨ direction N E W S = 3
      ∨ direction N E W S = 4 := by
  unfold direction
  split_ifs <;> simp

theorem greenSwitch_some (n : Int) (I : List ℚ) (i j : Int) (d : Int)
    (hd : d = 1 ∨ d = 2 ∨ d = 3 ∨ d = 4) : ∃ g, greenSwitch n I i j d = some g := by
  unfold greenSwitch
  rcases hd with rfl | rfl | rfl | rfl <;> simp



/-! ## The passes, pixel by pixel -/

theorem ext_rd (l l' : List ℚ) (hl : l.length = l'.length)
    (h : ∀ q : Nat, q < l.length → rd l (q : Int) = rd l' (q : Int)) : l = l' := by
  apply List.ext_getElem hl
  intro q h1 h2
  have := h q h1
  rw [rd_nat, rd_nat, List.getD_eq_getElem?_getD, List.getD_eq_getElem?_getD,
    List.getElem?_eq_getElem h1, List.getElem?_eq_getElem h2] at this
  simpa using this

/-- The values that pass 1 leaves at pixel `(i,j)` depend on the state only through the
old values of `R` and `B` at that pixel. -/
theorem pass1Pixel_indep (n m : Nat) (xoffset yoffset : Int) (I : List ℚ) (i j : Nat)
    (t t' : Channels) (hk : t.k = i + n * j) (hk' : t'.k = i + n * j)
    (lR : i + n * j < t.R.length) (lG : i + n * j < t.G.length)
    (lB : i + n * j < t.B.length) (lR' : i + n * j < t'.R.length)
    (lG' : i + n * j < t'.G.length) (lB' : i + n * j < t'.B.length) :
    rd (pass1Pixel n m xoffset yoffset I j i t).G ((i + n * j : Nat) : Int)
        = rd (pass1Pixel n m xoffset yoffset I j i t').G ((i + n * j : Nat) : Int)
    ∧ (rd t.R ((i + n * j : Nat) : Int) = rd t'.R ((i + n * j : Nat) : Int)
        ∨ ((j : Int) ≤ 2 ∨ (j : Int) ≥ (m : Int) - 3 ∨ (i : Int) ≤ 2
            ∨ (i : Int) ≥ (n : Int) - 3)
        ∨ (((j : Int) + yoffset) % 2 = 0 ∧ ((i : Int) + xoffset) % 2 = 0) →
      rd (pass1Pixel n m xoffset yoffset I j i t).R ((i + n * j : Nat) : Int)
        = rd (pass1Pixel n m xoffset yoffset I j i t').R ((i + n * j : Nat) : Int))
    ∧ (rd t.B ((i + n * j : Nat) : Int) = rd t'.B ((i + n * j : Nat) : Int)
        ∨ ((j : Int) ≤ 2 ∨ (j : Int) ≥ (m : Int) - 3 ∨ (i : Int) ≤ 2
            ∨ (i : Int) ≥ (n : Int) - 3)
        ∨ (((j : Int) + yoffset) % 2 = 1 ∧ ((i : Int) + xoffset) % 2 = 1) →
      rd (pass1Pixel n m xoffset yoffset I j i t).B ((i + n * j : Nat) : Int)
        = rd (pass1Pixel n m xoffset yoffset I j i t').B ((i + n * j : Nat) : Int)) := by
  have hy := Int.emod_two_eq ((j : Int) + yoffset)
  have hx := Int.emod_two_eq ((i : Int) + xoffset)
  have hd := (direction_range (gradN n I i j) (gradE n I i j) (gradW n I i j)
    (gradS n I i j))
  rcases t with ⟨R, G, B, k⟩
  rcases t' with ⟨R', G', B', k'⟩
  simp only at hk hk' lR lG lB lR' lG' lB'
  subst hk
  subst hk'
  unfold pass1Pixel
  dsimp only
  obtain ⟨g, hg⟩ := greenSwitch_some n I i j _ hd
  rw [hg]
  dsimp only
  split_ifs with h1 h2 h3 h4 h5
  all_goals first
    | (exfalso; omega)
    | (refine ⟨?_, fun h => ?_, fun h => ?_⟩ <;>
        simp only [Channels.next, Channels.setRGB, rd_wr_same _ _ _ lR,
          rd_wr_same _ _ _ lG, rd_wr_same _ _ _ lB, rd_wr_same _ _ _ lR',
          rd_wr_same _ _ _ lG', rd_wr_same _ _ _ lB'] <;>
        (rcases h with h | h | h <;> first | exact h | (exfalso; omega)))

/-- The values that the border branch of pass 2 leaves at pixel `(i,j)` do not depend on
the state. -/
theorem pass2Border_indep (n : Nat) (xoffset yoffset : Int) (I : List ℚ) (i j : Nat)
    (R G B R' G' B' : List ℚ)
    (lR : i + n * j < R.length) (lG : i + n * j < G.length) (lB : i + n * j < B.length)
    (lR' : i + n * j < R'.length) (lG' : i + n * j < G'.length)
    (lB' : i + n * j < B'.length) :
    (pass2Border n xoffset yoffset I j i { R := R, G := G, B := B, k := i + n * j }).px
        ((i + n * j : Nat) : Int)
      = (pass2Border n xoffset yoffset I j i { R := R', G := G', B := B', k := i + n * j }).px
        ((i + n * j : Nat) : Int) := by
  have hy := Int.emod_two_eq ((j : Int) + yoffset)
  have hx := Int.emod_two_eq ((i : Int) + xoffset)
  unfold pass2Border
  split_ifs
  · unfold borderRGGB
    split_ifs <;> first
      | (exfalso; omega)
      | simp only [Channels.px, Channels.setRGB, rd_wr_same _ _ _ lR, rd_wr_same _ _ _ lG,
          rd_wr_same _ _ _ lB, rd_wr_same _ _ _ lR', rd_wr_same _ _ _ lG',
          rd_wr_same _ _ _ lB']
  · unfold borderGRBG
    split_ifs <;> first
      | (exfalso; omega)
      | simp only [Channels.px, Channels.setRGB, rd_wr_same _ _ _ lR, rd_wr_same _ _ _ lG,
          rd_wr_same _ _ _ lB, rd_wr_same _ _ _ lR', rd_wr_same _ _ _ lG',
          rd_wr_same _ _ _ lB']
  · unfold borderGBRG
    split_ifs <;> first
      | (exfalso; omega)
      | simp only [Channels.px, Channels.setRGB, rd_wr_same _ _ _ lR, rd_wr_same _ _ _ lG,
          rd_wr_same _ _ _ lB, rd_wr_same _ _ _ lR', rd_wr_same _ _ _ lG',
          rd_wr_same _ _ _ lB']
  · unfold borderBGGR
    split_ifs <;> first
      | (exfalso; omega)
      | simp only [Channels.px, Channels.setRGB, rd_wr_same _ _ _ lR, rd_wr_same _ _ _ lG,
          rd_wr_same _ _ _ lB, rd_wr_same _ _ _ lR', rd_wr_same _ _ _ lG',
          rd_wr_same _ _ _ lB']
  · exfalso
    omega

/-- The values that pass 2 leaves at pixel `(i,j)` depend on the state only through the
green channel and, at an interior red (blue) site, the old value of `R` (`B`) there. -/
theorem pass2Pixel_indep (n m : Nat) (xoffset yoffset : Int) (I : List ℚ) (i j : Nat)
    (t t' : Channels) (hk : t.k = i + n * j) (hk' : t'.k = i + n * j) (hG : t.G = t'.G)
    (lR : i + n * j < t.R.length) (lG : i + n * j < t.G.length)
    (lB : i + n * j < t.B.length) (lR' : i + n * j < t'.R.length)
    (lB' : i + n * j < t'.B.length)
    (hR : ¬ ((j : Int) ≤ 2 ∨ (j : Int) ≥ (m : Int) - 3 ∨ (i : Int) ≤ 2
            ∨ (i : Int) ≥ (n : Int) - 3) →
        ((j : Int) + yoffset) % 2 = 0 ∧ ((i : Int) + xoffset) % 2 = 0 →
        rd t.R ((i + n * j : Nat) : Int) = rd t'.R ((i + n * j : Nat) : Int))
    (hB : ¬ ((j : Int) ≤ 2 ∨ (j : Int) ≥ (m : Int) - 3 ∨ (i : Int) ≤ 2
            ∨ (i : Int) ≥ (n : Int) - 3) →
        ((j : Int) + yoffset) % 2 = 1 ∧ ((i : Int) + xoffset) % 2 = 1 →
        rd t.B ((i + n * j : Nat) : Int) = rd t'.B ((i + n * j : Nat) : Int)) :
    (pass2Pixel n m xoffset yoffset I j i t).px ((i + n * j : Nat) : Int)
      = (pass2Pixel n m xoffset yoffset I j i t').px ((i + n * j : Nat) : Int) := by
  have hy := Int.emod_two_eq ((j : Int) + yoffset)
  have hx := Int.emod_two_eq ((i : Int) + xoffset)
  rcases t with ⟨R, G, B, k⟩
  rcases t' with ⟨R', G', B', k'⟩
  simp only at hk hk' hG lR lG lB lR' lB' hR hB
  subst hk
  subst hk'
  subst hG
  unfold pass2Pixel
  split_ifs with hb
  · exact pass2Border_indep n xoffset yoffset I i j R G B R' G B' lR lG lB lR' lG lB'
  · have hR' := hR hb
    have hB' := hB hb
    unfold pass2Interior
    dsimp only
    split_ifs <;> first
      | (exfalso; omega)
      | (simp only [Channels.px, Channels.next, rd_wr_same _ _ _ lR, rd_wr_same _ _ _ lB,
          rd_wr_same _ _ _ lR', rd_wr_same _ _ _ lB', Prod.mk.injEq, and_true, true_and] <;>
         first
          | exact hR' ⟨by omega, by omega⟩
          | exact hB' ⟨by omega, by omega⟩)

theorem length_greenSeen (p : Nat) (A B : List ℚ) (h : A.length = B.length)
    (hp : p ≤ A.length) : (greenSeen p A B).length = A.length := by
  simp [greenSeen]
  omega

theorem rd_greenSeen (p : Nat) (A B : List ℚ) (h : A.length = B.length) (q : Nat) :
    rd (greenSeen p A B) (q : Int) = if q < p then rd A (q : Int) else rd B (q : Int) := by
  simp only [greenSeen, rd_nat, List.getD_eq_getElem?_getD]
  by_cases hq : q < p
  · rw [if_pos hq]
    by_cases hA : q < A.length
    · rw [List.getElem?_append_left (by simp; omega), List.getElem?_take_of_lt hq]
    · have h1 : (List.take p A ++ List.drop p B)[q]? = none := by
        apply List.getElem?_eq_none
        simp
        omega
      rw [h1, List.getElem?_eq_none (by omega)]
  · rw [if_neg hq]
    by_cases hA : p ≤ A.length
    · rw [List.getElem?_append_right (by simp; omega)]
      simp only [List.length_take, List.getElem?_drop]
      congr 2
      omega
    · have h1 : (List.take p A ++ List.drop p B)[q]? = none := by
        apply List.getElem?_eq_none
        simp
        omega
      rw [h1, List.getElem?_eq_none (by omega)]

/-- Pass 1, pixel by pixel: the values left at pixel `(i,j)` are those the loop body
computes there from the initial buffers. -/
theorem pass1_px (n m : Nat) (xoffset yoffset : Int) (I : List ℚ) (s0 : Channels)
    (h0 : s0.k = 0) (hR : s0.R.length = n * m) (hG : s0.G.length = n * m)
    (hB : s0.B.length = n * m) (i j : Nat) (hi : i < n) (hj : j < m) :
    (pass1 n m xoffset yoffset I s0).px ((i + n * j : Nat) : Int)
      = (pass1Pixel n m xoffset yoffset I j i { s0 with k := i + n * j }).px
          ((i + n * j : Nat) : Int) := by
  have hp : i + n * j < n * m := pixel_lt hi hj
  obtain ⟨t, t1, t2, t3, t4, t5, t6⟩ := pass1_at n m xoffset yoffset I s0 h0 i j hi hj
  obtain ⟨e1, e2, e3⟩ := (px_eq_iff _ _ _).mp (t5 (i + n * j) (le_refl _))
  obtain ⟨c1, c2, c3⟩ := pass1Pixel_indep n m xoffset yoffset I i j t
    { s0 with k := i + n * j } t1 rfl (by omega) (by omega) (by omega)
    (by simp only []; omega) (by simp only []; omega) (by simp only []; omega)
  rw [t6, px_eq_iff]
  exact ⟨c2 (Or.inl e1), c1, c3 (Or.inl e3)⟩

/-- Pass 2, pixel by pixel: the values left at pixel `(i,j)` are those the loop body
computes there from the `R` and `B` it started with and from the green channel as it is
when the pixel is reached. -/
theorem pass2_px (n m : Nat) (xoffset yoffset : Int) (I : List ℚ) (s0 : Channels)
    (h0 : s0.k = 0) (hR : s0.R.length = n * m) (hG : s0.G.length = n * m)
    (hB : s0.B.length = n * m) (i j : Nat) (hi : i < n) (hj : j < m) :
    (pass2 n m xoffset yoffset I s0).px ((i + n * j : Nat) : Int)
      = (pass2Pixel n m xoffset yoffset I j i
          { R := s0.R, G := greenSeen (i + n * j) (pass2 n m xoffset yoffset I s0).G s0.G,
            B := s0.B, k := i + n * j }).px ((i + n * j : Nat) : Int) := by
  have hp : i + n * j < n * m := pixel_lt hi hj
  obtain ⟨a1, a2, a3⟩ := pass2_length n m xoffset yoffset I s0 h0
  obtain ⟨t, t1, t2, t3, t4, t5, t6, t7⟩ := pass2_at n m xoffset yoffset I s0 h0 i j hi hj
  obtain ⟨e1, e2, e3⟩ := (px_eq_iff _ _ _).mp (t6 (i + n * j) (le_refl _))
  have hGs : t.G = greenSeen (i + n * j) (pass2 n m xoffset yoffset I s0).G s0.G := by
    apply ext_rd
    · rw [length_greenSeen _ _ _ a2 (by omega)]
      omega
    · intro q _
      rw [rd_greenSeen _ _ _ a2]
      split_ifs with hq
      · exact ((px_eq_iff _ _ _).mp (t5 q hq)).2.1
      · exact ((px_eq_iff _ _ _).mp (t6 q (not_lt.mp hq))).2.1
  rw [t7]
  exact pass2Pixel_indep n m xoffset yoffset I i j t _ t1 rfl hGs (by omega) (by omega)
    (by omega) (by simp only []; omega) (by simp only []; omega) (fun _ _ => e1)
    (fun _ _ => e3)

/-! ## Green at the red and blue sites -/

theorem grads_eq (n : Nat) (I : List ℚ) (i j : Int) :
    gradN n I i j = 2 * abs (rawAt n I i (j - 2) - rawAt n I i j)
        + abs (rawAt n I i (j - 1) - rawAt n I i (j + 1))
    ∧ gradE n I i j = 2 * abs (rawAt n I i j - rawAt n I (i + 2) j)
        + abs (rawAt n I (i - 1) j - rawAt n I (i + 1) j)
    ∧ gradW n I i j = 2 * abs (rawAt n I (i - 2) j - rawAt n I i j)
        + abs (rawAt n I (i - 1) j - rawAt n I (i + 1) j)
    ∧ gradS n I i j = 2 * abs (rawAt n I i j - rawAt n I i (j + 2))
        + abs (rawAt n I i (j - 1) - rawAt n I i (j + 1)) := by
  have e1 : i - 2 * (n : Int) + n * j = i + n * (j - 2) := by ring
  have e2 : i - (n : Int) + n * j = i + n * (j - 1) := by ring
  have e3 : i + (n : Int) + n * j = i + n * (j + 1) := by ring
  have e4 : i + 2 * (n : Int) + n * j = i + n * (j + 2) := by ring
  unfold gradN gradE gradW gradS rawAt
  rw [e1, e2, e3, e4]
  refine ⟨by ring, by ring, by ring, by ring⟩

/-- The value assigned by the `switch` of pass 1 is the green of the specification. -/
theorem greenSwitch_eq_spec (n : Nat) (I : List ℚ) (i j : Int) :
    greenSwitch n I i j (direction (gradN n I i j) (gradE n I i j) (gradW n I i j)
      (gradS n I i j)) = some (greenSpec n I i j) := by
  obtain ⟨gN, gE, gW, gS⟩ := grads_eq n I i j
  have e1 : i - 2 * (n : Int) + n * j = i + n * (j - 2) := by ring
  have e2 : i - (n : Int) + n * j = i + n * (j - 1) := by ring
  have e3 : i + (n : Int) + n * j = i + n * (j + 1) := by ring
  have e4 : i + 2 * (n : Int) + n * j = i + n * (j + 2) := by ring
  rw [gN, gE, gW, gS]
  unfold greenSwitch greenSpec
  dsimp only
  rw [e1, e2, e3, e4]
  rcases direction_range
    (2 * abs (rawAt n I i (j - 2) - rawAt n I i j)
        + abs (rawAt n I i (j - 1) - rawAt n I i (j + 1)))
    (2 * abs (rawAt n I i j - rawAt n I (i + 2) j)
        + abs (rawAt n I (i - 1) j - rawAt n I (i + 1) j))
    (2 * abs (rawAt n I (i - 2) j - rawAt n I i j)
        + abs (rawAt n I (i - 1) j - rawAt n I (i + 1) j))
    (2 * abs (rawAt n I i j - rawAt n I i (j + 2))
        + abs (rawAt n I i (j - 1) - rawAt n I i (j + 1))) with h | h | h | h <;>
    rw [h] <;> simp [rawAt] <;> ring

/-- Pass 1 at an interior red or blue site stores the green of the specification. -/
theorem pass1Pixel_green (n m : Nat) (xoffset yoffset : Int) (I : List ℚ) (i j : Nat)
    (s : Channels) (hk : s.k = i + n * j) (hG : i + n * j < s.G.length)
    (hint : ¬ ((j : Int) ≤ 2 ∨ (j : Int) ≥ (m : Int) - 3 ∨ (i : Int) ≤ 2
      ∨ (i : Int) ≥ (n : Int) - 3))
    (hsite : ((j : Int) + yoffset) % 2 = ((i : Int) + xoffset) % 2) :
    rd (pass1Pixel n m xoffset yoffset I j i s).G ((i + n * j : Nat) : Int)
      = greenSpec n I i j := by
  have hy := Int.emod_two_eq ((j : Int) + yoffset)
  have hx := Int.emod_two_eq ((i : Int) + xoffset)
  rcases s with ⟨R, G, B, k⟩
  simp only at hk hG
  subst hk
  unfold pass1Pixel
  dsimp only
  rw [if_neg hint, greenSwitch_eq_spec]
  dsimp only
  split_ifs <;> first
    | (exfalso; omega)
    | simp only [Channels.next, rd_wr_same _ _ _ hG]

/-- Pass 2 does not change the green channel at an interior pixel. -/
theorem ppg_interior_G (n m : Nat) (xoffset yoffset : Int) (I R G B : List ℚ)
    (hR : R.length = n * m) (hG : G.length = n * m) (hB : B.length = n * m)
    (i j : Nat) (hi : i < n) (hj : j < m)
    (hint : ¬ ((j : Int) ≤ 2 ∨ (j : Int) ≥ (m : Int) - 3 ∨ (i : Int) ≤ 2
      ∨ (i : Int) ≥ (n : Int) - 3)) :
    rd (ppg n m xoffset yoffset I R G B).G ((i + n * j : Nat) : Int)
      = rd (pass1 n m xoffset yoffset I { R := R, G := G, B := B, k := 0 }).G
          ((i + n * j : Nat) : Int) := by
  obtain ⟨a1, a2, a3⟩ := pass1_length n m xoffset yoffset I
    { R := R, G := G, B := B, k := 0 } rfl
  obtain ⟨b1, b2, b3⟩ := pass2_length n m xoffset yoffset I
    { pass1 n m xoffset yoffset I { R := R, G := G, B := B, k := 0 } with k := 0 } rfl
  have h := pass2_px n m xoffset yoffset I
    { pass1 n m xoffset yoffset I { R := R, G := G, B := B, k := 0 } with k := 0 } rfl
    (by simp only []; rw [a1]; exact hR) (by simp only []; rw [a2]; exact hG)
    (by simp only []; rw [a3]; exact hB) i j hi hj
  have h2 := ((px_eq_iff _ _ _).mp h).2.1
  unfold ppg
  dsimp only
  rw [h2]
  unfold pass2Pixel
  rw [if_neg hint, (pass2Interior_native n xoffset yoffset I i j _).2.2]
  dsimp only
  rw [rd_greenSeen _ _ _ b2, if_neg (lt_irrefl _)]

/-- The pixel buffers returned by `debayer` on a grid of even width and height. -/
theorem debayer_channels (c : Collab) (chip : Int) (image imageB imageG imageR : MyImage)
    (hs : image.successProcessing = true)
    (hp : image.bayer = "RGGB" ∨ image.bayer = "GRBG" ∨ image.bayer = "GBRG"
      ∨ image.bayer = "BGGR")
    (hw : image.naxis1 % 2 = 0) (hh : image.naxis2 % 2 = 0) :
    (debayer c chip image imageB imageG imageR).imageR.dataCurrent
        = (ppg image.naxis1 image.naxis2 (bayerOffsets image.bayer).1
            (bayerOffsets image.bayer).2 image.dataCurrent
            (resize imageR.dataCurrent (image.naxis1 * image.naxis2))
            (resize imageG.dataCurrent (image.naxis1 * image.naxis2))
            (resize imageB.dataCurrent (image.naxis1 * image.naxis2))).R
    ∧ (debayer c chip image imageB imageG imageR).imageG.dataCurrent
        = (ppg image.naxis1 image.naxis2 (bayerOffsets image.bayer).1
            (bayerOffsets image.bayer).2 image.dataCurrent
            (resize imageR.dataCurrent (image.naxis1 * image.naxis2))
            (resize imageG.dataCurrent (image.naxis1 * image.naxis2))
            (resize imageB.dataCurrent (image.naxis1 * image.naxis2))).G
    ∧ (debayer c chip image imageB imageG imageR).imageB.dataCurrent
        = (ppg image.naxis1 image.naxis2 (bayerOffsets image.bayer).1
            (bayerOffsets image.bayer).2 image.dataCurrent
            (resize imageR.dataCurrent (image.naxis1 * image.naxis2))
            (resize imageG.dataCurrent (image.naxis1 * image.naxis2))
            (resize imageB.dataCurrent (image.naxis1 * image.naxis2))).B := by
  have e1 : image.naxis1 - image.naxis1 % 2 = image.naxis1 := by omega
  have e2 : image.naxis2 - image.naxis2 % 2 = image.naxis2 := by omega
  rw [debayer_success c chip image imageB imageG imageR hs hp]
  simp only [e1, e2]
  exact ⟨trivial, trivial, trivial⟩

/-- C16: for every pattern, every even-sized grid and every interior red or blue site
(`3 <= i <= n-4`, `3 <= j <= m-4`), the final green output equals `(3*a + c + b - a2)/4`,
with `c = raw(i,j)`, `d = direction(DN,DE,DW,DS)` for the four gradients of the
specification, `a` the raw neighbour one step in direction `d`, `b` the one in the
opposite direction and `a2` the one two steps in direction `d`. -/
theorem debayer_green_interior (c : Collab) (chip : Int)
    (image imageB imageG imageR : MyImage)
    (hs : image.successProcessing = true)
    (hp : image.bayer = "RGGB" ∨ image.bayer = "GRBG" ∨ image.bayer = "GBRG"
      ∨ image.bayer = "BGGR")
    (hw : image.naxis1 % 2 = 0) (hh : image.naxis2 % 2 = 0)
    (i j : Nat) (hi : 3 ≤ i) (hi' : i + 4 ≤ image.naxis1) (hj : 3 ≤ j)
    (hj' : j + 4 ≤ image.naxis2)
    (hsite : siteColour (bayerOffsets image.bayer).1 (bayerOffsets image.bayer).2 i j = 'R'
      ∨ siteColour (bayerOffsets image.bayer).1 (bayerOffsets image.bayer).2 i j = 'B') :
    rd (debayer c chip image imageB imageG imageR).imageG.dataCurrent
        ((i + image.naxis1 * j : Nat) : Int)
      = greenSpec image.naxis1 image.dataCurrent i j := by
  have hy := Int.emod_two_eq ((j : Int) + (bayerOffsets image.bayer).2)
  have hx := Int.emod_two_eq ((i : Int) + (bayerOffsets image.bayer).1)
  have hint : ¬ ((j : Int) ≤ 2 ∨ (j : Int) ≥ (image.naxis2 : Int) - 3 ∨ (i : Int) ≤ 2
      ∨ (i : Int) ≥ (image.naxis1 : Int) - 3) := by omega
  have hpar : ((j : Int) + (bayerOffsets image.bayer).2) % 2
      = ((i : Int) + (bayerOffsets image.bayer).1) % 2 := by
    unfold siteColour at hsite
    split_ifs at hsite <;> first
      | omega
      | simp at hsite
  have hp' : i + image.naxis1 * j < image.naxis1 * image.naxis2 :=
    pixel_lt (by omega) (by omega)
  rw [(debayer_channels c chip image imageB imageG imageR hs hp hw hh).2.1,
    ppg_interior_G _ _ _ _ _ _ _ _ (length_resize _ _) (length_resize _ _)
      (length_resize _ _) i j (by omega) (by omega) hint]
  have h := pass1_px image.naxis1 image.naxis2 (bayerOffsets image.bayer).1
    (bayerOffsets image.bayer).2 image.dataCurrent
    { R := resize imageR.dataCurrent (image.naxis1 * image.naxis2),
      G := resize imageG.dataCurrent (image.naxis1 * image.naxis2),
      B := resize imageB.dataCurrent (image.naxis1 * image.naxis2), k := 0 } rfl
    (length_resize _ _) (length_resize _ _) (length_resize _ _) i j (by omega) (by omega)
  rw [((px_eq_iff _ _ _).mp h).2.1]
  exact pass1Pixel_green image.naxis1 image.naxis2 _ _ image.dataCurrent i j _ rfl
    (by simp only []; rw [length_resize]; exact hp') hint hpar

/-- Instance of C16: the interior red site `(3,3)` of an 8x8 grid with tag BGGR. -/
theorem debayer_green_interior_witness :
    (siteColour (bayerOffsets (rawImage "BGGR" 8 8 ramp64).bayer).1
        (bayerOffsets (rawImage "BGGR" 8 8 ramp64).bayer).2 (3 : Nat) (3 : Nat) = 'R')
    ∧ rd (debayer noCollab 0 (rawImage "BGGR" 8 8 ramp64) blankImage blankImage
          blankImage).imageG.dataCurrent ((3 + 8 * 3 : Nat) : Int)
        = greenSpec 8 ramp64 (3 : Nat) (3 : Nat) := by
  have hred : siteColour (bayerOffsets (rawImage "BGGR" 8 8 ramp64).bayer).1
        (bayerOffsets (rawImage "BGGR" 8 8 ramp64).bayer).2 (3 : Nat) (3 : Nat) = 'R' := by
    decide
  exact ⟨hred, debayer_green_interior noCollab 0 (rawImage "BGGR" 8 8 ramp64) blankImage
    blankImage blankImage rfl (Or.inr (Or.inr (Or.inr rfl))) (by decide) (by decide) 3 3
    (by decide) (by decide) (by decide) (by decide) (Or.inl hred)⟩

/-! ## Red and blue in the interior -/

/-- What the interior branch of pass 2 writes, in terms of columns and rows. -/
theorem pass2Interior_values (n : Nat) (xoffset yoffset : Int) (I : List ℚ) (i j : Nat)
    (R G B : List ℚ) (lR : i + n * j < R.length) (lB : i + n * j < B.length) :
    (((j : Int) + yoffset) % 2 = 1 ∧ ((i : Int) + xoffset) % 2 = 0 →
      rd (pass2Interior n xoffset yoffset I j i
          { R := R, G := G, B := B, k := i + n * j }).R ((i + n * j : Nat) : Int)
        = hue_transit (rawAt n G i ((j : Int) - 1)) (rawAt n I i j)
            (rawAt n G i ((j : Int) + 1)) (rawAt n I i ((j : Int) - 1))
            (rawAt n I i ((j : Int) + 1))
      ∧ rd (pass2Interior n xoffset yoffset I j i
          { R := R, G := G, B := B, k := i + n * j }).B ((i + n * j : Nat) : Int)
        = hue_transit (rawAt n G ((i : Int) - 1) j) (rawAt n I i j)
            (rawAt n G ((i : Int) + 1) j) (rawAt n I ((i : Int) - 1) j)
            (rawAt n I ((i : Int) + 1) j))
    ∧ (((j : Int) + yoffset) % 2 = 0 ∧ ((i : Int) + xoffset) % 2 = 1 →
      rd (pass2Interior n xoffset yoffset I j i
          { R := R, G := G, B := B, k := i + n * j }).R ((i + n * j : Nat) : Int)
        = hue_transit (rawAt n G ((i : Int) - 1) j) (rawAt n I i j)
            (rawAt n G ((i : Int) + 1) j) (rawAt n I ((i : Int) - 1) j)
            (rawAt n I ((i : Int) + 1) j)
      ∧ rd (pass2Interior n xoffset yoffset I j i
          { R := R, G := G, B := B, k := i + n * j }).B ((i + n * j : Nat) : Int)
        = hue_transit (rawAt n G i ((j : Int) - 1)) (rawAt n I i j)
            (rawAt n G i ((j : Int) + 1)) (rawAt n I i ((j : Int) - 1))
            (rawAt n I i ((j : Int) + 1)))
    ∧ (((j : Int) + yoffset) % 2 = 0 ∧ ((i : Int) + xoffset) % 2 = 0 →
      rd (pass2Interior n xoffset yoffset I j i
          { R := R, G := G, B := B, k := i + n * j }).B ((i + n * j : Nat) : Int)
        = if gradNE n I G i j ≤ gradNW n I G i j then
            hue_transit (rawAt n G ((i : Int) + 1) ((j : Int) - 1)) (rawAt n G i j)
              (rawAt n G ((i : Int) - 1) ((j : Int) + 1))
              (rawAt n I ((i : Int) + 1) ((j : Int) - 1))
              (rawAt n I ((i : Int) - 1) ((j : Int) + 1))
          else
            hue_transit (rawAt n G ((i : Int) - 1) ((j : Int) - 1)) (rawAt n G i j)
              (rawAt n G ((i : Int) + 1) ((j : Int) + 1))
              (rawAt n I ((i : Int) - 1) ((j : Int) - 1))
              (rawAt n I ((i : Int) + 1) ((j : Int) + 1)))
    ∧ (((j : Int) + yoffset) % 2 = 1 ∧ ((i : Int) + xoffset) % 2 = 1 →
      rd (pass2Interior n xoffset yoffset I j i
          { R := R, G := G, B := B, k := i + n * j }).R ((i + n * j : Nat) : Int)
        = if gradNE n I G i j ≤ gradNW n I G i j then
            hue_transit (rawAt n G ((i : Int) + 1) ((j : Int) - 1)) (rawAt n G i j)
              (rawAt n G ((i : Int) - 1) ((j : Int) + 1))
              (rawAt n I ((i : Int) + 1) ((j : Int) - 1))
              (rawAt n I ((i : Int) - 1) ((j : Int) + 1))
          else
            hue_transit (rawAt n G ((i : Int) - 1) ((j : Int) - 1)) (rawAt n G i j)
              (rawAt n G ((i : Int) + 1) ((j : Int) + 1))
              (rawAt n I ((i : Int) - 1) ((j : Int) - 1))
              (rawAt n I ((i : Int) + 1) ((j : Int) + 1))) := by
  have hy := Int.emod_two_eq ((j : Int) + yoffset)
  have hx := Int.emod_two_eq ((i : Int) + xoffset)
  have e1 : (i : Int) - (n : Int) + n * j = i + n * ((j : Int) - 1) := by ring
  have e2 : (i : Int) + (n : Int) + n * j = i + n * ((j : Int) + 1) := by ring
  have e3 : (i : Int) - (n : Int) + 1 + n * j = ((i : Int) + 1) + n * ((j : Int) - 1) := by
    ring
  have e4 : (i : Int) + (n : Int) - 1 + n * j = ((i : Int) - 1) + n * ((j : Int) + 1) := by
    ring
  have e5 : (i : Int) - (n : Int) - 1 + n * j = ((i : Int) - 1) + n * ((j : Int) - 1) := by
    ring
  have e6 : (i : Int) + (n : Int) + 1 + n * j = ((i : Int) + 1) + n * ((j : Int) + 1) := by
    ring
  unfold pass2Interior rawAt
  dsimp only
  rw [e1, e2, e3, e4, e5, e6]
  refine ⟨fun h => ?_, fun h => ?_, fun h => ?_, fun h => ?_⟩
  · rw [if_neg (by omega), if_pos h]
    simp only [Channels.next, rd_wr_same _ _ _ lR, rd_wr_same _ _ _ lB, and_self]
  · rw [if_neg (by omega), if_neg (by omega), if_pos h]
    simp only [Channels.next, rd_wr_same _ _ _ lR, rd_wr_same _ _ _ lB, and_self]
  · rw [if_pos h]
    split_ifs <;> simp only [Channels.next, rd_wr_same _ _ _ lB]
  · rw [if_neg (by omega), if_neg (by omega), if_neg (by omega), if_pos h]
    split_ifs <;> simp only [Channels.next, rd_wr_same _ _ _ lR]

theorem siteColour_red (xoffset yoffset i j : Int)
    (h : (j + yoffset) % 2 = 0 ∧ (i + xoffset) % 2 = 0) :
    siteColour xoffset yoffset i j = 'R' := by
  unfold siteColour
  rw [if_pos h]

theorem siteColour_blue (xoffset yoffset i j : Int)
    (h : (j + yoffset) % 2 = 1 ∧ (i + xoffset) % 2 = 1) :
    siteColour xoffset yoffset i j = 'B' := by
  unfold siteColour
  rw [if_neg (by omega), if_pos h]

theorem siteColour_green (xoffset yoffset i j : Int)
    (h : (j + yoffset) % 2 ≠ (i + xoffset) % 2) :
    siteColour xoffset yoffset i j = 'G' := by
  unfold siteColour
  rw [if_neg (by omega), if_neg (by omega)]

/-- Pass 2 at an interior pixel of the whole run: the state the interior branch works on. -/
theorem ppg_interior_px (n m : Nat) (xoffset yoffset : Int) (I R G B : List ℚ)
    (hR : R.length = n * m) (hG : G.length = n * m) (hB : B.length = n * m)
    (i j : Nat) (hi : i < n) (hj : j < m)
    (hint : ¬ ((j : Int) ≤ 2 ∨ (j : Int) ≥ (m : Int) - 3 ∨ (i : Int) ≤ 2
      ∨ (i : Int) ≥ (n : Int) - 3)) :
    (ppg n m xoffset yoffset I R G B).px ((i + n * j : Nat) : Int)
      = (pass2Interior n xoffset yoffset I j i
          { R := (pass1 n m xoffset yoffset I { R := R, G := G, B := B, k := 0 }).R,
            G := greenSeen (i + n * j) (ppg n m xoffset yoffset I R G B).G
              (pass1 n m xoffset yoffset I { R := R, G := G, B := B, k := 0 }).G,
            B := (pass1 n m xoffset yoffset I { R := R, G := G, B := B, k := 0 }).B,
            k := i + n * j }).px ((i + n * j : Nat) : Int) := by
  obtain ⟨a1, a2, a3⟩ := pass1_length n m xoffset yoffset I
    { R := R, G := G, B := B, k := 0 } rfl
  have h := pass2_px n m xoffset yoffset I
    { pass1 n m xoffset yoffset I { R := R, G := G, B := B, k := 0 } with k := 0 } rfl
    (by simp only []; rw [a1]; exact hR) (by simp only []; rw [a2]; exact hG)
    (by simp only []; rw [a3]; exact hB) i j hi hj
  unfold pass2Pixel at h
  rw [if_neg hint] at h
  exact h

/-- C17: at every interior pixel of an even-sized grid, each colour written in pass 2 is
`hue_transit` applied to two raw samples from sites of exactly that colour, on opposite
sides of the pixel: at a green site red comes from the two neighbours along the axis on
which the red sites lie and blue from the two neighbours along the other axis; at a red
(blue) site blue (red) comes from the north-east diagonal when `dne <= dnw` and from the
north-west diagonal otherwise.  `Gm` is the green channel as pass 2 finds it at the pixel. -/
theorem debayer_interior_colours (c : Collab) (chip : Int)
    (image imageB imageG imageR : MyImage)
    (hs : image.successProcessing = true)
    (hp : image.bayer = "RGGB" ∨ image.bayer = "GRBG" ∨ image.bayer = "GBRG"
      ∨ image.bayer = "BGGR")
    (hw : image.naxis1 % 2 = 0) (hh : image.naxis2 % 2 = 0)
    (i j : Nat) (hi : 3 ≤ i) (hi' : i + 4 ≤ image.naxis1) (hj : 3 ≤ j)
    (hj' : j + 4 ≤ image.naxis2) :
    ∃ Gm : List ℚ,
      Gm = greenSeen (i + image.naxis1 * j)
        (debayer c chip image imageB imageG imageR).imageG.dataCurrent
        (pass1 image.naxis1 image.naxis2 (bayerOffsets image.bayer).1
          (bayerOffsets image.bayer).2 image.dataCurrent
          { R := resize imageR.dataCurrent (image.naxis1 * image.naxis2),
            G := resize imageG.dataCurrent (image.naxis1 * image.naxis2),
            B := resize imageB.dataCurrent (image.naxis1 * image.naxis2), k := 0 }).G
      ∧ (((j : Int) + (bayerOffsets image.bayer).2) % 2 = 1
          ∧ ((i : Int) + (bayerOffsets image.bayer).1) % 2 = 0 →
        siteColour (bayerOffsets image.bayer).1 (bayerOffsets image.bayer).2 i
            ((j : Int) - 1) = 'R'
        ∧ siteColour (bayerOffsets image.bayer).1 (bayerOffsets image.bayer).2 i
            ((j : Int) + 1) = 'R'
        ∧ siteColour (bayerOffsets image.bayer).1 (bayerOffsets image.bayer).2
            ((i : Int) - 1) j = 'B'
        ∧ siteColour (bayerOffsets image.bayer).1 (bayerOffsets image.bayer).2
            ((i : Int) + 1) j = 'B'
        ∧ rd (debayer c chip image imageB imageG imageR).imageR.dataCurrent
            ((i + image.naxis1 * j : Nat) : Int)
          = hue_transit (rawAt image.naxis1 Gm i ((j : Int) - 1))
              (rawAt image.naxis1 image.dataCurrent i j)
              (rawAt image.naxis1 Gm i ((j : Int) + 1))
              (rawAt image.naxis1 image.dataCurrent i ((j : Int) - 1))
              (rawAt image.naxis1 image.dataCurrent i ((j : Int) + 1))
        ∧ rd (debayer c chip image imageB imageG imageR).imageB.dataCurrent
            ((i + image.naxis1 * j : Nat) : Int)
          = hue_transit (rawAt image.naxis1 Gm ((i : Int) - 1) j)
              (rawAt image.naxis1 image.dataCurrent i j)
              (rawAt image.naxis1 Gm ((i : Int) + 1) j)
              (rawAt image.naxis1 image.dataCurrent ((i : Int) - 1) j)
              (rawAt image.naxis1 image.dataCurrent ((i : Int) + 1) j))
      ∧ (((j : Int) + (bayerOffsets image.bayer).2) % 2 = 0
          ∧ ((i : Int) + (bayerOffsets image.bayer).1) % 2 = 1 →
        siteColour (bayerOffsets image.bayer).1 (bayerOffsets image.bayer).2
            ((i : Int) - 1) j = 'R'
        ∧ siteColour (bayerOffsets image.bayer).1 (bayerOffsets image.bayer).2
            ((i : Int) + 1) j = 'R'
        ∧ siteColour (bayerOffsets image.bayer).1 (bayerOffsets image.bayer).2 i
            ((j : Int) - 1) = 'B'
        ∧ siteColour (bayerOffsets image.bayer).1 (bayerOffsets image.bayer).2 i
            ((j : Int) + 1) = 'B'
        ∧ rd (debayer c chip image imageB imageG imageR).imageR.dataCurrent
            ((i + image.naxis1 * j : Nat) : Int)
          = hue_transit (rawAt image.naxis1 Gm ((i : Int) - 1) j)
              (rawAt image.naxis1 image.dataCurrent i j)
              (rawAt image.naxis1 Gm ((i : Int) + 1) j)
              (rawAt image.naxis1 image.dataCurrent ((i : Int) - 1) j)
              (rawAt image.naxis1 image.dataCurrent ((i : Int) + 1) j)
        ∧ rd (debayer c chip image imageB imageG imageR).imageB.dataCurrent
            ((i + image.naxis1 * j : Nat) : Int)
          = hue_transit (rawAt image.naxis1 Gm i ((j : Int) - 1))
              (rawAt image.naxis1 image.dataCurrent i j)
              (rawAt image.naxis1 Gm i ((j : Int) + 1))
              (rawAt image.naxis1 image.dataCurrent i ((j : Int) - 1))
              (rawAt image.naxis1 image.dataCurrent i ((j : Int) + 1)))
      ∧ (((j : Int) + (bayerOffsets image.bayer).2) % 2 = 0
          ∧ ((i : Int) + (bayerOffsets image.bayer).1) % 2 = 0 →
        siteColour (bayerOffsets image.bayer).1 (bayerOffsets image.bayer).2
            ((i : Int) + 1) ((j : Int) - 1) = 'B'
        ∧ siteColour (bayerOffsets image.bayer).1 (bayerOffsets image.bayer).2
            ((i : Int) - 1) ((j : Int) + 1) = 'B'
        ∧ siteColour (bayerOffsets image.bayer).1 (bayerOffsets image.bayer).2
            ((i : Int) - 1) ((j : Int) - 1) = 'B'
        ∧ siteColour (bayerOffsets image.bayer).1 (bayerOffsets image.bayer).2
            ((i : Int) + 1) ((j : Int) + 1) = 'B'
        ∧ rd (debayer c chip image imageB imageG imageR).imageB.dataCurrent
            ((i + image.naxis1 * j : Nat) : Int)
          = if gradNE image.naxis1 image.dataCurrent Gm i j
                ≤ gradNW image.naxis1 image.dataCurrent Gm i j then
              hue_transit (rawAt image.naxis1 Gm ((i : Int) + 1) ((j : Int) - 1))
                (rawAt image.naxis1 Gm i j)
                (rawAt image.naxis1 Gm ((i : Int) - 1) ((j : Int) + 1))
                (rawAt image.naxis1 image.dataCurrent ((i : Int) + 1) ((j : Int) - 1))
                (rawAt image.naxis1 image.dataCurrent ((i : Int) - 1) ((j : Int) + 1))
            else
              hue_transit (rawAt image.naxis1 Gm ((i : Int) - 1) ((j : Int) - 1))
                (rawAt image.naxis1 Gm i j)
                (rawAt image.naxis1 Gm ((i : Int) + 1) ((j : Int) + 1))
                (rawAt image.naxis1 image.dataCurrent ((i : Int) - 1) ((j : Int) - 1))
                (rawAt image.naxis1 image.dataCurrent ((i : Int) + 1) ((j : Int) + 1)))
      ∧ (((j : Int) + (bayerOffsets image.bayer).2) % 2 = 1
          ∧ ((i : Int) + (bayerOffsets image.bayer).1) % 2 = 1 →
        siteColour (bayerOffsets image.bayer).1 (bayerOffsets image.bayer).2
            ((i : Int) + 1) ((j : Int) - 1) = 'R'
        ∧ siteColour (bayerOffsets image.bayer).1 (bayerOffsets image.bayer).2
            ((i : Int) - 1) ((j : Int) + 1) = 'R'
        ∧ siteColour (bayerOffsets image.bayer).1 (bayerOffsets image.bayer).2
            ((i : Int) - 1) ((j : Int) - 1) = 'R'
        ∧ siteColour (bayerOffsets image.bayer).1 (bayerOffsets image.bayer).2
            ((i : Int) + 1) ((j : Int) + 1) = 'R'
        ∧ rd (debayer c chip image imageB imageG imageR).imageR.dataCurrent
            ((i + image.naxis1 * j : Nat) : Int)
          = if gradNE image.naxis1 image.dataCurrent Gm i j
                ≤ gradNW image.naxis1 image.dataCurrent Gm i j then
              hue_transit (rawAt image.naxis1 Gm ((i : Int) + 1) ((j : Int) - 1))
                (rawAt image.naxis1 Gm i j)
                (rawAt image.naxis1 Gm ((i : Int) - 1) ((j : Int) + 1))
                (rawAt image.naxis1 image.dataCurrent ((i : Int) + 1) ((j : Int) - 1))
                (rawAt image.naxis1 image.dataCurrent ((i : Int) - 1) ((j : Int) + 1))
            else
              hue_transit (rawAt image.naxis1 Gm ((i : Int) - 1) ((j : Int) - 1))
                (rawAt image.naxis1 Gm i j)
                (rawAt image.naxis1 Gm ((i : Int) + 1) ((j : Int) + 1))
                (rawAt image.naxis1 image.dataCurrent ((i : Int) - 1) ((j : Int) - 1))
                (rawAt image.naxis1 image.dataCurrent ((i : Int) + 1) ((j : Int) + 1))) := by
  have hint : ¬ ((j : Int) ≤ 2 ∨ (j : Int) ≥ (image.naxis2 : Int) - 3 ∨ (i : Int) ≤ 2
      ∨ (i : Int) ≥ (image.naxis1 : Int) - 3) := by omega
  have hp' : i + image.naxis1 * j < image.naxis1 * image.naxis2 :=
    pixel_lt (by omega) (by omega)
  obtain ⟨cR, cG, cB⟩ := debayer_channels c chip image imageB imageG imageR hs hp hw hh
  obtain ⟨a1, a2, a3⟩ := pass1_length image.naxis1 image.naxis2 (bayerOffsets image.bayer).1
    (bayerOffsets image.bayer).2 image.dataCurrent
    { R := resize imageR.dataCurrent (image.naxis1 * image.naxis2),
      G := resize imageG.dataCurrent (image.naxis1 * image.naxis2),
      B := resize imageB.dataCurrent (image.naxis1 * image.naxis2), k := 0 } rfl
  have h := ppg_interior_px image.naxis1 image.naxis2 (bayerOffsets image.bayer).1
    (bayerOffsets image.bayer).2 image.dataCurrent
    (resize imageR.dataCurrent (image.naxis1 * image.naxis2))
    (resize imageG.dataCurrent (image.naxis1 * image.naxis2))
    (resize imageB.dataCurrent (image.naxis1 * image.naxis2))
    (length_resize _ _) (length_resize _ _) (length_resize _ _) i j (by omega) (by omega) hint
  obtain ⟨hR, _, hB⟩ := (px_eq_iff _ _ _).mp h
  obtain ⟨v1, v2, v3, v4⟩ := pass2Interior_values image.naxis1 (bayerOffsets image.bayer).1
    (bayerOffsets image.bayer).2 image.dataCurrent i j
    (pass1 image.naxis1 image.naxis2 (bayerOffsets image.bayer).1
      (bayerOffsets image.bayer).2 image.dataCurrent
      { R := resize imageR.dataCurrent (image.naxis1 * image.naxis2),
        G := resize imageG.dataCurrent (image.naxis1 * image.naxis2),
        B := resize imageB.dataCurrent (image.naxis1 * image.naxis2), k := 0 }).R
    (greenSeen (i + image.naxis1 * j)
      (ppg image.naxis1 image.naxis2 (bayerOffsets image.bayer).1
        (bayerOffsets image.bayer).2 image.dataCurrent
        (resize imageR.dataCurrent (image.naxis1 * image.naxis2))
        (resize imageG.dataCurrent (image.naxis1 * image.naxis2))
        (resize imageB.dataCurrent (image.naxis1 * image.naxis2))).G
      (pass1 image.naxis1 image.naxis2 (bayerOffsets image.bayer).1
        (bayerOffsets image.bayer).2 image.dataCurrent
        { R := resize imageR.dataCurrent (image.naxis1 * image.naxis2),
          G := resize imageG.dataCurrent (image.naxis1 * image.naxis2),
          B := resize imageB.dataCurrent (image.naxis1 * image.naxis2), k := 0 }).G)
    (pass1 image.naxis1 image.naxis2 (bayerOffsets image.bayer).1
      (bayerOffsets image.bayer).2 image.dataCurrent
      { R := resize imageR.dataCurrent (image.naxis1 * image.naxis2),
        G := resize imageG.dataCurrent (image.naxis1 * image.naxis2),
        B := resize imageB.dataCurrent (image.naxis1 * image.naxis2), k := 0 }).B
    (by rw [a1, length_resize]; exact hp') (by rw [a3, length_resize]; exact hp')
  rw [cR, cG, cB]
  refine ⟨_, rfl, fun hc => ?_, fun hc => ?_, fun hc => ?_, fun hc => ?_⟩
  · refine ⟨siteColour_red _ _ _ _ (by omega), siteColour_red _ _ _ _ (by omega),
      siteColour_blue _ _ _ _ (by omega), siteColour_blue _ _ _ _ (by omega), ?_, ?_⟩
    · rw [hR]
      exact (v1 hc).1
    · rw [hB]
      exact (v1 hc).2
  · refine ⟨siteColour_red _ _ _ _ (by omega), siteColour_red _ _ _ _ (by omega),
      siteColour_blue _ _ _ _ (by omega), siteColour_blue _ _ _ _ (by omega), ?_, ?_⟩
    · rw [hR]
      exact (v2 hc).1
    · rw [hB]
      exact (v2 hc).2
  · refine ⟨siteColour_blue _ _ _ _ (by omega), siteColour_blue _ _ _ _ (by omega),
      siteColour_blue _ _ _ _ (by omega), siteColour_blue _ _ _ _ (by omega), ?_⟩
    rw [hB]
    exact v3 hc
  · refine ⟨siteColour_red _ _ _ _ (by omega), siteColour_red _ _ _ _ (by omega),
      siteColour_red _ _ _ _ (by omega), siteColour_red _ _ _ _ (by omega), ?_⟩
    rw [hR]
    exact v4 hc



/-- Instance of C17: the interior green site `(3,4)` of an 8x8 grid with tag RGGB, whose
red neighbours lie in the same row. -/
theorem debayer_interior_colours_witness :
    ((((4 : Nat) : Int) + (bayerOffsets (rawImage "RGGB" 8 8 ramp64).bayer).2) % 2 = 0
      ∧ (((3 : Nat) : Int) + (bayerOffsets (rawImage "RGGB" 8 8 ramp64).bayer).1) % 2 = 1)
    ∧ rd (debayer noCollab 0 (rawImage "RGGB" 8 8 ramp64) blankImage blankImage
          blankImage).imageR.dataCurrent ((3 + 8 * 4 : Nat) : Int)
        = hue_transit
            (rawAt 8 (greenSeen (3 + 8 * 4)
              (debayer noCollab 0 (rawImage "RGGB" 8 8 ramp64) blankImage blankImage
                blankImage).imageG.dataCurrent
              (pass1 8 8 (bayerOffsets "RGGB").1 (bayerOffsets "RGGB").2 ramp64
                { R := resize [] (8 * 8), G := resize [] (8 * 8), B := resize [] (8 * 8),
                  k := 0 }).G) (((3 : Nat) : Int) - 1) (4 : Nat))
            (rawAt 8 ramp64 (3 : Nat) (4 : Nat))
            (rawAt 8 (greenSeen (3 + 8 * 4)
              (debayer noCollab 0 (rawImage "RGGB" 8 8 ramp64) blankImage blankImage
                blankImage).imageG.dataCurrent
              (pass1 8 8 (bayerOffsets "RGGB").1 (bayerOffsets "RGGB").2 ramp64
                { R := resize [] (8 * 8), G := resize [] (8 * 8), B := resize [] (8 * 8),
                  k := 0 }).G) (((3 : Nat) : Int) + 1) (4 : Nat))
            (rawAt 8 ramp64 (((3 : Nat) : Int) - 1) (4 : Nat))
            (rawAt 8 ramp64 (((3 : Nat) : Int) + 1) (4 : Nat)) := by
  have hc : (((4 : Nat) : Int) + (bayerOffsets (rawImage "RGGB" 8 8 ramp64).bayer).2) % 2 = 0
      ∧ (((3 : Nat) : Int) + (bayerOffsets (rawImage "RGGB" 8 8 ramp64).bayer).1) % 2 = 1 := by
    decide
  obtain ⟨Gm, hGm, _, h2, _, _⟩ := debayer_interior_colours noCollab 0
    (rawImage "RGGB" 8 8 ramp64) blankImage blankImage blankImage rfl (Or.inl rfl)
    (by decide) (by decide) 3 4 (by decide) (by decide) (by decide) (by decide)
  refine ⟨hc, ?_⟩
  have h3 := (h2 hc).2.2.2.2.1
  rw [hGm] at h3
  exact h3

/-! ## Independence of the prior contents of the output buffers -/

/-- After pass 1 the green channel, red at the border and at the red sites, and blue at the
border and at the blue sites do not depend on the initial buffers. -/
theorem pass1_indep (n m : Nat) (xoffset yoffset : Int) (I R G B R' G' B' : List ℚ)
    (hR : R.length = n * m) (hG : G.length = n * m) (hB : B.length = n * m)
    (hR' : R'.length = n * m) (hG' : G'.length = n * m) (hB' : B'.length = n * m) :
    (pass1 n m xoffset yoffset I { R := R, G := G, B := B, k := 0 }).G
        = (pass1 n m xoffset yoffset I { R := R', G := G', B := B', k := 0 }).G
    ∧ ∀ i j, i < n → j < m →
      ((((j : Int) ≤ 2 ∨ (j : Int) ≥ (m : Int) - 3 ∨ (i : Int) ≤ 2
            ∨ (i : Int) ≥ (n : Int) - 3)
          ∨ (((j : Int) + yoffset) % 2 = 0 ∧ ((i : Int) + xoffset) % 2 = 0) →
        rd (pass1 n m xoffset yoffset I { R := R, G := G, B := B, k := 0 }).R
            ((i + n * j : Nat) : Int)
          = rd (pass1 n m xoffset yoffset I { R := R', G := G', B := B', k := 0 }).R
            ((i + n * j : Nat) : Int))
      ∧ (((j : Int) ≤ 2 ∨ (j : Int) ≥ (m : Int) - 3 ∨ (i : Int) ≤ 2
            ∨ (i : Int) ≥ (n : Int) - 3)
          ∨ (((j : Int) + yoffset) % 2 = 1 ∧ ((i : Int) + xoffset) % 2 = 1) →
        rd (pass1 n m xoffset yoffset I { R := R, G := G, B := B, k := 0 }).B
            ((i + n * j : Nat) : Int)
          = rd (pass1 n m xoffset yoffset I { R := R', G := G', B := B', k := 0 }).B
            ((i + n * j : Nat) : Int))) := by
  obtain ⟨a1, a2, a3⟩ := pass1_length n m xoffset yoffset I
    { R := R, G := G, B := B, k := 0 } rfl
  obtain ⟨b1, b2, b3⟩ := pass1_length n m xoffset yoffset I
    { R := R', G := G', B := B', k := 0 } rfl
  have key : ∀ i j, i < n → j < m →
      rd (pass1 n m xoffset yoffset I { R := R, G := G, B := B, k := 0 }).G
            ((i + n * j : Nat) : Int)
          = rd (pass1 n m xoffset yoffset I { R := R', G := G', B := B', k := 0 }).G
            ((i + n * j : Nat) : Int)
      ∧ ((((j : Int) ≤ 2 ∨ (j : Int) ≥ (m : Int) - 3 ∨ (i : Int) ≤ 2
            ∨ (i : Int) ≥ (n : Int) - 3)
          ∨ (((j : Int) + yoffset) % 2 = 0 ∧ ((i : Int) + xoffset) % 2 = 0) →
        rd (pass1 n m xoffset yoffset I { R := R, G := G, B := B, k := 0 }).R
            ((i + n * j : Nat) : Int)
          = rd (pass1 n m xoffset yoffset I { R := R', G := G', B := B', k := 0 }).R
            ((i + n * j : Nat) : Int))
      ∧ (((j : Int) ≤ 2 ∨ (j : Int) ≥ (m : Int) - 3 ∨ (i : Int) ≤ 2
            ∨ (i : Int) ≥ (n : Int) - 3)
          ∨ (((j : Int) + yoffset) % 2 = 1 ∧ ((i : Int) + xoffset) % 2 = 1) →
        rd (pass1 n m xoffset yoffset I { R := R, G := G, B := B, k := 0 }).B
            ((i + n * j : Nat) : Int)
          = rd (pass1 n m xoffset yoffset I { R := R', G := G', B := B', k := 0 }).B
            ((i + n * j : Nat) : Int))) := by
    intro i j hi hj
    have hp : i + n * j < n * m := pixel_lt hi hj
    obtain ⟨e1, e2, e3⟩ := (px_eq_iff _ _ _).mp (pass1_px n m xoffset yoffset I
      { R := R, G := G, B := B, k := 0 } rfl hR hG hB i j hi hj)
    obtain ⟨f1, f2, f3⟩ := (px_eq_iff _ _ _).mp (pass1_px n m xoffset yoffset I
      { R := R', G := G', B := B', k := 0 } rfl hR' hG' hB' i j hi hj)
    obtain ⟨c1, c2, c3⟩ := pass1Pixel_indep n m xoffset yoffset I i j
      { R := R, G := G, B := B, k := i + n * j }
      { R := R', G := G', B := B', k := i + n * j } rfl rfl
      (by simp only []; omega) (by simp only []; omega) (by simp only []; omega)
      (by simp only []; omega) (by simp only []; omega) (by simp only []; omega)
    rw [e1, e2, e3, f1, f2, f3]
    exact ⟨c1, fun h => c2 (Or.inr h), fun h => c3 (Or.inr h)⟩
  refine ⟨?_, fun i j hi hj => (key i j hi hj).2⟩
  apply ext_rd _ _ (by rw [a2, b2, hG, hG'])
  intro q hq
  rw [a2] at hq
  simp only [] at hq
  rw [hG] at hq
  obtain ⟨i, j, hi, hj, rfl⟩ := pixel_exists hq
  exact (key i j hi hj).1

theorem greenSeen_congr (p N : Nat) (A A' B B' : List ℚ) (hA : A.length = N)
    (hA' : A'.length = N) (hB : B.length = N) (hB' : B'.length = N) (hp : p ≤ N)
    (h1 : ∀ q : Nat, q < p → q < N → rd A (q : Int) = rd A' (q : Int)) (h2 : B = B') :
    greenSeen p A B = greenSeen p A' B' := by
  subst h2
  have e1 : A.length = B.length := hA.trans hB.symm
  have e2 : A'.length = B.length := hA'.trans hB.symm
  apply ext_rd
  · rw [length_greenSeen _ _ _ e1 (by omega), length_greenSeen _ _ _ e2 (by omega), hA, hA']
  · intro q hq
    rw [length_greenSeen _ _ _ e1 (by omega), hA] at hq
    rw [rd_greenSeen _ _ _ e1, rd_greenSeen _ _ _ e2]
    by_cases hlt : q < p
    · rw [if_pos hlt, if_pos hlt]
      exact h1 q hlt hq
    · rw [if_neg hlt, if_neg hlt]

/-- Pass 2 started from two states that agree on the green channel, on red at the interior
red sites and on blue at the interior blue sites ends with the same values everywhere. -/
theorem pass2_indep (n m : Nat) (xoffset yoffset : Int) (I : List ℚ) (s s' : Channels)
    (h0 : s.k = 0) (h0' : s'.k = 0)
    (hR : s.R.length = n * m) (hG : s.G.length = n * m) (hB : s.B.length = n * m)
    (hR' : s'.R.length = n * m) (hB' : s'.B.length = n * m)
    (hGG : s.G = s'.G)
    (hRB : ∀ i j, i < n → j < m →
      ¬ ((j : Int) ≤ 2 ∨ (j : Int) ≥ (m : Int) - 3 ∨ (i : Int) ≤ 2
            ∨ (i : Int) ≥ (n : Int) - 3) →
      (((j : Int) + yoffset) % 2 = 0 ∧ ((i : Int) + xoffset) % 2 = 0 →
        rd s.R ((i + n * j : Nat) : Int) = rd s'.R ((i + n * j : Nat) : Int))
      ∧ (((j : Int) + yoffset) % 2 = 1 ∧ ((i : Int) + xoffset) % 2 = 1 →
        rd s.B ((i + n * j : Nat) : Int) = rd s'.B ((i + n * j : Nat) : Int)))
    (q : Nat) (hq : q < n * m) :
    (pass2 n m xoffset yoffset I s).px (q : Int)
      = (pass2 n m xoffset yoffset I s').px (q : Int) := by
  have hG' : s'.G.length = n * m := by rw [← hGG]; exact hG
  obtain ⟨l1, l2, l3⟩ := pass2_length n m xoffset yoffset I s h0
  obtain ⟨l1', l2', l3'⟩ := pass2_length n m xoffset yoffset I s' h0'
  have key : ∀ q : Nat, ∀ i j, i < n → j < m → i + n * j = q →
      (pass2 n m xoffset yoffset I s).px ((i + n * j : Nat) : Int)
        = (pass2 n m xoffset yoffset I s').px ((i + n * j : Nat) : Int) := by
    intro q
    induction q using Nat.strong_induction_on with
    | _ q ih =>
      intro i j hi hj hij
      have hp : i + n * j < n * m := pixel_lt hi hj
      have hseen : greenSeen (i + n * j) (pass2 n m xoffset yoffset I s).G s.G
          = greenSeen (i + n * j) (pass2 n m xoffset yoffset I s').G s'.G := by
        apply greenSeen_congr (i + n * j) (n * m) _ _ _ _ (l2.trans hG) (l2'.trans hG') hG hG'
          (le_of_lt hp) _ hGG
        intro q' hlt hq'
        obtain ⟨i', j', hi', hj', hq''⟩ := pixel_exists hq'
        have := ih q' (by omega) i' j' hi' hj' hq''.symm
        rw [← hq''] at this
        exact ((px_eq_iff _ _ _).mp this).2.1
      have hlen : i + n * j < (greenSeen (i + n * j) (pass2 n m xoffset yoffset I s).G
          s.G).length := by
        rw [length_greenSeen _ _ _ l2 (by omega)]
        omega
      have hfin := pass2Pixel_indep n m xoffset yoffset I i j
        { R := s.R, G := greenSeen (i + n * j) (pass2 n m xoffset yoffset I s).G s.G,
          B := s.B, k := i + n * j }
        { R := s'.R, G := greenSeen (i + n * j) (pass2 n m xoffset yoffset I s').G s'.G,
          B := s'.B, k := i + n * j } rfl rfl hseen
        (by rw [hR]; exact hp) hlen (by rw [hB]; exact hp) (by rw [hR']; exact hp)
        (by rw [hB']; exact hp)
        (fun hint hc => (hRB i j hi hj hint).1 hc)
        (fun hint hc => (hRB i j hi hj hint).2 hc)
      exact (pass2_px n m xoffset yoffset I s h0 hR hG hB i j hi hj).trans
        (hfin.trans (pass2_px n m xoffset yoffset I s' h0' hR' hG' hB' i j hi hj).symm)
  obtain ⟨i, j, hi, hj, hq'⟩ := pixel_exists hq
  have := key q i j hi hj hq'.symm
  rw [← hq'] at this
  exact this

/-- The two passes yield the same three buffers whatever the buffers held before. -/
theorem ppg_indep (n m : Nat) (xoffset yoffset : Int) (I R G B R' G' B' : List ℚ)
    (hR : R.length = n * m) (hG : G.length = n * m) (hB : B.length = n * m)
    (hR' : R'.length = n * m) (hG' : G'.length = n * m) (hB' : B'.length = n * m) :
    (ppg n m xoffset yoffset I R G B).R = (ppg n m xoffset yoffset I R' G' B').R
    ∧ (ppg n m xoffset yoffset I R G B).G = (ppg n m xoffset yoffset I R' G' B').G
    ∧ (ppg n m xoffset yoffset I R G B).B = (ppg n m xoffset yoffset I R' G' B').B := by
  obtain ⟨a1, a2, a3⟩ := pass1_length n m xoffset yoffset I
    { R := R, G := G, B := B, k := 0 } rfl
  obtain ⟨b1, b2, b3⟩ := pass1_length n m xoffset yoffset I
    { R := R', G := G', B := B', k := 0 } rfl
  obtain ⟨l1, l2, l3⟩ := ppg_length n m xoffset yoffset I R G B
  obtain ⟨l1', l2', l3'⟩ := ppg_length n m xoffset yoffset I R' G' B'
  obtain ⟨hG1, hRB1⟩ := pass1_indep n m xoffset yoffset I R G B R' G' B' hR hG hB hR' hG' hB'
  have key : ∀ q : Nat, q < n * m →
      (ppg n m xoffset yoffset I R G B).px (q : Int)
        = (ppg n m xoffset yoffset I R' G' B').px (q : Int) := fun q hq =>
    pass2_indep n m xoffset yoffset I
      { pass1 n m xoffset yoffset I { R := R, G := G, B := B, k := 0 } with k := 0 }
      { pass1 n m xoffset yoffset I { R := R', G := G', B := B', k := 0 } with k := 0 }
      rfl rfl (a1.trans hR) (a2.trans hG) (a3.trans hB) (b1.trans hR') (b3.trans hB') hG1
      (fun i j hi hj _ => ⟨fun hc => (hRB1 i j hi hj).1 (Or.inr hc),
        fun hc => (hRB1 i j hi hj).2 (Or.inr hc)⟩) q hq
  refine ⟨?_, ?_, ?_⟩
  · apply ext_rd _ _ (by rw [l1, l1', hR, hR'])
    intro q hq
    rw [l1, hR] at hq
    exact ((px_eq_iff _ _ _).mp (key q hq)).1
  · apply ext_rd _ _ (by rw [l2, l2', hG, hG'])
    intro q hq
    rw [l2, hG] at hq
    exact ((px_eq_iff _ _ _).mp (key q hq)).2.1
  · apply ext_rd _ _ (by rw [l3, l3', hB, hB'])
    intro q hq
    rw [l3, hB] at hq
    exact ((px_eq_iff _ _ _).mp (key q hq)).2.2



/-- C20: for a recognised pattern and any input grid, two runs of `debayer` on the same
input with arbitrary prior contents of the three output images end with identical
dimensions and identical `R`, `G` and `B` pixel buffers. -/
theorem debayer_prior_independence (c : Collab) (chip : Int)
    (image imageB imageG imageR imageB' imageG' imageR' : MyImage)
    (hs : image.successProcessing = true)
    (hp : image.bayer = "RGGB" ∨ image.bayer = "GRBG" ∨ image.bayer = "GBRG"
      ∨ image.bayer = "BGGR") :
    ((debayer c chip image imageB imageG imageR).imageR.naxis1
        = (debayer c chip image imageB' imageG' imageR').imageR.naxis1
      ∧ (debayer c chip image imageB imageG imageR).imageR.naxis2
        = (debayer c chip image imageB' imageG' imageR').imageR.naxis2
      ∧ (debayer c chip image imageB imageG imageR).imageR.dataCurrent
        = (debayer c chip image imageB' imageG' imageR').imageR.dataCurrent)
    ∧ ((debayer c chip image imageB imageG imageR).imageG.naxis1
        = (debayer c chip image imageB' imageG' imageR').imageG.naxis1
      ∧ (debayer c chip image imageB imageG imageR).imageG.naxis2
        = (debayer c chip image imageB' imageG' imageR').imageG.naxis2
      ∧ (debayer c chip image imageB imageG imageR).imageG.dataCurrent
        = (debayer c chip image imageB' imageG' imageR').imageG.dataCurrent)
    ∧ ((debayer c chip image imageB imageG imageR).imageB.naxis1
        = (debayer c chip image imageB' imageG' imageR').imageB.naxis1
      ∧ (debayer c chip image imageB imageG imageR).imageB.naxis2
        = (debayer c chip image imageB' imageG' imageR').imageB.naxis2
      ∧ (debayer c chip image imageB imageG imageR).imageB.dataCurrent
        = (debayer c chip image imageB' imageG' imageR').imageB.dataCurrent) := by
  obtain ⟨h1, h2, h3⟩ := ppg_indep (image.naxis1 - image.naxis1 % 2)
    (image.naxis2 - image.naxis2 % 2) (bayerOffsets image.bayer).1
    (bayerOffsets image.bayer).2 image.dataCurrent
    (resize imageR.dataCurrent
      ((image.naxis1 - image.naxis1 % 2) * (image.naxis2 - image.naxis2 % 2)))
    (resize imageG.dataCurrent
      ((image.naxis1 - image.naxis1 % 2) * (image.naxis2 - image.naxis2 % 2)))
    (resize imageB.dataCurrent
      ((image.naxis1 - image.naxis1 % 2) * (image.naxis2 - image.naxis2 % 2)))
    (resize imageR'.dataCurrent
      ((image.naxis1 - image.naxis1 % 2) * (image.naxis2 - image.naxis2 % 2)))
    (resize imageG'.dataCurrent
      ((image.naxis1 - image.naxis1 % 2) * (image.naxis2 - image.naxis2 % 2)))
    (resize imageB'.dataCurrent
      ((image.naxis1 - image.naxis1 % 2) * (image.naxis2 - image.naxis2 % 2)))
    (length_resize _ _) (length_resize _ _) (length_resize _ _) (length_resize _ _)
    (length_resize _ _) (length_resize _ _)
  rw [debayer_success c chip image imageB imageG imageR hs hp,
    debayer_success c chip image imageB' imageG' imageR' hs hp]
  exact ⟨⟨rfl, rfl, h1⟩, ⟨rfl, rfl, h2⟩, ⟨rfl, rfl, h3⟩⟩

/-- Instance of C20: an 8x8 input, once with empty output images and once with output
images that already hold a 3x3 grid of nines. -/
theorem debayer_prior_independence_witness :
    (rawImage "GRBG" 8 8 ramp64).successProcessing = true
    ∧ (debayer noCollab 0 (rawImage "GRBG" 8 8 ramp64) blankImage blankImage
        blankImage).imageR.dataCurrent
      = (debayer noCollab 0 (rawImage "GRBG" 8 8 ramp64)
          (rawImage "" 3 3 (List.replicate 9 9)) (rawImage "" 3 3 (List.replicate 9 9))
          (rawImage "" 3 3 (List.replicate 9 9))).imageR.dataCurrent :=
  ⟨rfl, (debayer_prior_independence noCollab 0 (rawImage "GRBG" 8 8 ramp64) blankImage
    blankImage blankImage (rawImage "" 3 3 (List.replicate 9 9))
    (rawImage "" 3 3 (List.replicate 9 9)) (rawImage "" 3 3 (List.replicate 9 9)) rfl
    (Or.inr (Or.inl rfl))).1.2.2⟩

/-! ## Border fill -/

theorem near_intro (n m : Nat) (xoffset yoffset : Int) (I : List ℚ) (colour : Char)
    (i j di dj e : Int) (he : e = (i + di) + (n : Int) * (j + dj))
    (hb : -1 ≤ di ∧ di ≤ 1 ∧ -1 ≤ dj ∧ dj ≤ 1
      ∧ 0 ≤ i + di ∧ i + di < n ∧ 0 ≤ j + dj ∧ j + dj < m)
    (hc : siteColour xoffset yoffset (i + di) (j + dj) = colour) :
    NearSample n m xoffset yoffset I colour i j (rd I e) := by
  refine ⟨di, dj, hb, hc, ?_⟩
  rw [he]
  rfl

set_option maxHeartbeats 1000000 in
theorem borderRGGB_near (n m : Nat) (I : List ℚ) (hn : n % 2 = 0) (hm : m % 2 = 0)
    (i j : Nat) (hi : i < n) (hj : j < m) (R G B : List ℚ) (lR : i + n * j < R.length)
    (lG : i + n * j < G.length) (lB : i + n * j < B.length) :
    NearSample n m 0 0 I 'R' i j
        (rd (borderRGGB n 0 0 I j i { R := R, G := G, B := B, k := i + n * j }).R
          ((i + n * j : Nat) : Int))
    ∧ NearSample n m 0 0 I 'G' i j
        (rd (borderRGGB n 0 0 I j i { R := R, G := G, B := B, k := i + n * j }).G
          ((i + n * j : Nat) : Int))
    ∧ NearSample n m 0 0 I 'B' i j
        (rd (borderRGGB n 0 0 I j i { R := R, G := G, B := B, k := i + n * j }).B
          ((i + n * j : Nat) : Int)) := by
  have hy := Int.emod_two_eq ((j : Int) + 0)
  have hx := Int.emod_two_eq ((i : Int) + 0)
  unfold borderRGGB
  split_ifs with h1 h2 h3 h4
  · simp only [Channels.setRGB, rd_wr_same _ _ _ lR, rd_wr_same _ _ _ lG,
      rd_wr_same _ _ _ lB]
    refine ⟨?_, ?_, ?_⟩
    · exact near_intro n m 0 0 I 'R' i j 0 0 _ (by ring) (by omega)
        (siteColour_red _ _ _ _ (by omega))
    · exact near_intro n m 0 0 I 'G' i j 1 0 _ (by ring) (by omega)
        (siteColour_green _ _ _ _ (by omega))
    · exact near_intro n m 0 0 I 'B' i j 1 1 _ (by ring) (by omega)
        (siteColour_blue _ _ _ _ (by omega))
  · simp only [Channels.setRGB, rd_wr_same _ _ _ lR, rd_wr_same _ _ _ lG,
      rd_wr_same _ _ _ lB]
    refine ⟨?_, ?_, ?_⟩
    · exact near_intro n m 0 0 I 'R' i j 0 (-1) _ (by ring) (by omega)
        (siteColour_red _ _ _ _ (by omega))
    · exact near_intro n m 0 0 I 'G' i j 0 0 _ (by ring) (by omega)
        (siteColour_green _ _ _ _ (by omega))
    · exact near_intro n m 0 0 I 'B' i j 1 0 _ (by ring) (by omega)
        (siteColour_blue _ _ _ _ (by omega))
  · simp only [Channels.setRGB, rd_wr_same _ _ _ lR, rd_wr_same _ _ _ lG,
      rd_wr_same _ _ _ lB]
    refine ⟨?_, ?_, ?_⟩
    · exact near_intro n m 0 0 I 'R' i j (-1) 0 _ (by ring) (by omega)
        (siteColour_red _ _ _ _ (by omega))
    · exact near_intro n m 0 0 I 'G' i j 0 0 _ (by ring) (by omega)
        (siteColour_green _ _ _ _ (by omega))
    · exact near_intro n m 0 0 I 'B' i j 0 1 _ (by ring) (by omega)
        (siteColour_blue _ _ _ _ (by omega))
  · simp only [Channels.setRGB, rd_wr_same _ _ _ lR, rd_wr_same _ _ _ lG,
      rd_wr_same _ _ _ lB]
    refine ⟨?_, ?_, ?_⟩
    · exact near_intro n m 0 0 I 'R' i j (-1) (-1) _ (by ring) (by omega)
        (siteColour_red _ _ _ _ (by omega))
    · exact near_intro n m 0 0 I 'G' i j (-1) 0 _ (by ring) (by omega)
        (siteColour_green _ _ _ _ (by omega))
    · exact near_intro n m 0 0 I 'B' i j 0 0 _ (by ring) (by omega)
        (siteColour_blue _ _ _ _ (by omega))
  · exfalso
    omega

set_option maxHeartbeats 1000000 in
theorem borderGRBG_near (n m : Nat) (I : List ℚ) (hn : n % 2 = 0) (hm : m % 2 = 0)
    (i j : Nat) (hi : i < n) (hj : j < m) (R G B : List ℚ) (lR : i + n * j < R.length)
    (lG : i + n * j < G.length) (lB : i + n * j < B.length) :
    NearSample n m 1 0 I 'R' i j
        (rd (borderGRBG n 1 0 I j i { R := R, G := G, B := B, k := i + n * j }).R
          ((i + n * j : Nat) : Int))
    ∧ NearSample n m 1 0 I 'G' i j
        (rd (borderGRBG n 1 0 I j i { R := R, G := G, B := B, k := i + n * j }).G
          ((i + n * j : Nat) : Int))
    ∧ NearSample n m 1 0 I 'B' i j
        (rd (borderGRBG n 1 0 I j i { R := R, G := G, B := B, k := i + n * j }).B
          ((i + n * j : Nat) : Int)) := by
  have hy := Int.emod_two_eq ((j : Int) + 0)
  have hx := Int.emod_two_eq ((i : Int) + 1)
  unfold borderGRBG
  split_ifs with h1 h2 h3 h4
  · simp only [Channels.setRGB, rd_wr_same _ _ _ lR, rd_wr_same _ _ _ lG,
      rd_wr_same _ _ _ lB]
    refine ⟨?_, ?_, ?_⟩
    · exact near_intro n m 1 0 I 'R' i j 0 0 _ (by ring) (by omega)
        (siteColour_red _ _ _ _ (by omega))
    · exact near_intro n m 1 0 I 'G' i j (-1) 0 _ (by ring) (by omega)
        (siteColour_green _ _ _ _ (by omega))
    · exact near_intro n m 1 0 I 'B' i j (-1) 1 _ (by ring) (by omega)
        (siteColour_blue _ _ _ _ (by omega))
  · simp only [Channels.setRGB, rd_wr_same _ _ _ lR, rd_wr_same _ _ _ lG,
      rd_wr_same _ _ _ lB]
    refine ⟨?_, ?_, ?_⟩
    · exact near_intro n m 1 0 I 'R' i j 0 (-1) _ (by ring) (by omega)
        (siteColour_red _ _ _ _ (by omega))
    · exact near_intro n m 1 0 I 'G' i j 0 0 _ (by ring) (by omega)
        (siteColour_green _ _ _ _ (by omega))
    · exact near_intro n m 1 0 I 'B' i j (-1) 0 _ (by ring) (by omega)
        (siteColour_blue _ _ _ _ (by omega))
  · simp only [Channels.setRGB, rd_wr_same _ _ _ lR, rd_wr_same _ _ _ lG,
      rd_wr_same _ _ _ lB]
    refine ⟨?_, ?_, ?_⟩
    · exact near_intro n m 1 0 I 'R' i j 1 0 _ (by ring) (by omega)
        (siteColour_red _ _ _ _ (by omega))
    · exact near_intro n m 1 0 I 'G' i j 0 0 _ (by ring) (by omega)
        (siteColour_green _ _ _ _ (by omega))
    · exact near_intro n m 1 0 I 'B' i j 0 1 _ (by ring) (by omega)
        (siteColour_blue _ _ _ _ (by omega))
  · simp only [Channels.setRGB, rd_wr_same _ _ _ lR, rd_wr_same _ _ _ lG,
      rd_wr_same _ _ _ lB]
    refine ⟨?_, ?_, ?_⟩
    · exact near_intro n m 1 0 I 'R' i j 1 (-1) _ (by ring) (by omega)
        (siteColour_red _ _ _ _ (by omega))
    · exact near_intro n m 1 0 I 'G' i j 1 0 _ (by ring) (by omega)
        (siteColour_green _ _ _ _ (by omega))
    · exact near_intro n m 1 0 I 'B' i j 0 0 _ (by ring) (by omega)
        (siteColour_blue _ _ _ _ (by omega))
  · exfalso
    omega

set_option maxHeartbeats 1000000 in
theorem borderGBRG_near (n m : Nat) (I : List ℚ) (hn : n % 2 = 0) (hm : m % 2 = 0)
    (i j : Nat) (hi : i < n) (hj : j < m) (R G B : List ℚ) (lR : i + n * j < R.length)
    (lG : i + n * j < G.length) (lB : i + n * j < B.length) :
    NearSample n m 0 1 I 'R' i j
        (rd (borderGBRG n 0 1 I j i { R := R, G := G, B := B, k := i + n * j }).R
          ((i + n * j : Nat) : Int))
    ∧ NearSample n m 0 1 I 'G' i j
        (rd (borderGBRG n 0 1 I j i { R := R, G := G, B := B, k := i + n * j }).G
          ((i + n * j : Nat) : Int))
    ∧ NearSample n m 0 1 I 'B' i j
        (rd (borderGBRG n 0 1 I j i { R := R, G := G, B := B, k := i + n * j }).B
          ((i + n * j : Nat) : Int)) := by
  have hy := Int.emod_two_eq ((j : Int) + 1)
  have hx := Int.emod_two_eq ((i : Int) + 0)
  unfold borderGBRG
  split_ifs with h1 h2 h3 h4
  · simp only [Channels.setRGB, rd_wr_same _ _ _ lR, rd_wr_same _ _ _ lG,
      rd_wr_same _ _ _ lB]
    refine ⟨?_, ?_, ?_⟩
    · exact near_intro n m 0 1 I 'R' i j 0 0 _ (by ring) (by omega)
        (siteColour_red _ _ _ _ (by omega))
    · exact near_intro n m 0 1 I 'G' i j 0 (-1) _ (by ring) (by omega)
        (siteColour_green _ _ _ _ (by omega))
    · exact near_intro n m 0 1 I 'B' i j 1 (-1) _ (by ring) (by omega)
        (siteColour_blue _ _ _ _ (by omega))
  · simp only [Channels.setRGB, rd_wr_same _ _ _ lR, rd_wr_same _ _ _ lG,
      rd_wr_same _ _ _ lB]
    refine ⟨?_, ?_, ?_⟩
    · exact near_intro n m 0 1 I 'R' i j 0 1 _ (by ring) (by omega)
        (siteColour_red _ _ _ _ (by omega))
    · exact near_intro n m 0 1 I 'G' i j 0 0 _ (by ring) (by omega)
        (siteColour_green _ _ _ _ (by omega))
    · exact near_intro n m 0 1 I 'B' i j 1 0 _ (by ring) (by omega)
        (siteColour_blue _ _ _ _ (by omega))
  · simp only [Channels.setRGB, rd_wr_same _ _ _ lR, rd_wr_same _ _ _ lG,
      rd_wr_same _ _ _ lB]
    refine ⟨?_, ?_, ?_⟩
    · exact near_intro n m 0 1 I 'R' i j (-1) 0 _ (by ring) (by omega)
        (siteColour_red _ _ _ _ (by omega))
    · exact near_intro n m 0 1 I 'G' i j 0 0 _ (by ring) (by omega)
        (siteColour_green _ _ _ _ (by omega))
    · exact near_intro n m 0 1 I 'B' i j 0 (-1) _ (by ring) (by omega)
        (siteColour_blue _ _ _ _ (by omega))
  · simp only [Channels.setRGB, rd_wr_same _ _ _ lR, rd_wr_same _ _ _ lG,
      rd_wr_same _ _ _ lB]
    refine ⟨?_, ?_, ?_⟩
    · exact near_intro n m 0 1 I 'R' i j (-1) 1 _ (by ring) (by omega)
        (siteColour_red _ _ _ _ (by omega))
    · exact near_intro n m 0 1 I 'G' i j (-1) 0 _ (by ring) (by omega)
        (siteColour_green _ _ _ _ (by omega))
    · exact near_intro n m 0 1 I 'B' i j 0 0 _ (by ring) (by omega)
        (siteColour_blue _ _ _ _ (by omega))
  · exfalso
    omega

set_option maxHeartbeats 1000000 in
theorem borderBGGR_near (n m : Nat) (I : List ℚ) (hn : n % 2 = 0) (hm : m % 2 = 0)
    (i j : Nat) (hi : i < n) (hj : j < m) (R G B : List ℚ) (lR : i + n * j < R.length)
    (lG : i + n * j < G.length) (lB : i + n * j < B.length) :
    NearSample n m 1 1 I 'R' i j
        (rd (borderBGGR n 1 1 I j i { R := R, G := G, B := B, k := i + n * j }).R
          ((i + n * j : Nat) : Int))
    ∧ NearSample n m 1 1 I 'G' i j
        (rd (borderBGGR n 1 1 I j i { R := R, G := G, B := B, k := i + n * j }).G
          ((i + n * j : Nat) : Int))
    ∧ NearSample n m 1 1 I 'B' i j
        (rd (borderBGGR n 1 1 I j i { R := R, G := G, B := B, k := i + n * j }).B
          ((i + n * j : Nat) : Int)) := by
  have hy := Int.emod_two_eq ((j : Int) + 1)
  have hx := Int.emod_two_eq ((i : Int) + 1)
  unfold borderBGGR
  split_ifs with h1 h2 h3 h4
  · simp only [Channels.setRGB, rd_wr_same _ _ _ lR, rd_wr_same _ _ _ lG,
      rd_wr_same _ _ _ lB]
    refine ⟨?_, ?_, ?_⟩
    · exact near_intro n m 1 1 I 'R' i j 0 0 _ (by ring) (by omega)
        (siteColour_red _ _ _ _ (by omega))
    · exact near_intro n m 1 1 I 'G' i j (-1) 0 _ (by ring) (by omega)
        (siteColour_green _ _ _ _ (by omega))
    · exact near_intro n m 1 1 I 'B' i j (-1) (-1) _ (by ring) (by omega)
        (siteColour_blue _ _ _ _ (by omega))
  · simp only [Channels.setRGB, rd_wr_same _ _ _ lR, rd_wr_same _ _ _ lG,
      rd_wr_same _ _ _ lB]
    refine ⟨?_, ?_, ?_⟩
    · exact near_intro n m 1 1 I 'R' i j 0 1 _ (by ring) (by omega)
        (siteColour_red _ _ _ _ (by omega))
    · exact near_intro n m 1 1 I 'G' i j 0 0 _ (by ring) (by omega)
        (siteColour_green _ _ _ _ (by omega))
    · exact near_intro n m 1 1 I 'B' i j (-1) 0 _ (by ring) (by omega)
        (siteColour_blue _ _ _ _ (by omega))
  · simp only [Channels.setRGB, rd_wr_same _ _ _ lR, rd_wr_same _ _ _ lG,
      rd_wr_same _ _ _ lB]
    refine ⟨?_, ?_, ?_⟩
    · exact near_intro n m 1 1 I 'R' i j 1 0 _ (by ring) (by omega)
        (siteColour_red _ _ _ _ (by omega))
    · exact near_intro n m 1 1 I 'G' i j 0 0 _ (by ring) (by omega)
        (siteColour_green _ _ _ _ (by omega))
    · exact near_intro n m 1 1 I 'B' i j 0 (-1) _ (by ring) (by omega)
        (siteColour_blue _ _ _ _ (by omega))
  · simp only [Channels.setRGB, rd_wr_same _ _ _ lR, rd_wr_same _ _ _ lG,
      rd_wr_same _ _ _ lB]
    refine ⟨?_, ?_, ?_⟩
    · exact near_intro n m 1 1 I 'R' i j 1 1 _ (by ring) (by omega)
        (siteColour_red _ _ _ _ (by omega))
    · exact near_intro n m 1 1 I 'G' i j 1 0 _ (by ring) (by omega)
        (siteColour_green _ _ _ _ (by omega))
    · exact near_intro n m 1 1 I 'B' i j 0 0 _ (by ring) (by omega)
        (siteColour_blue _ _ _ _ (by omega))
  · exfalso
    omega


theorem pass2Border_near (n m : Nat) (xoffset yoffset : Int) (I : List ℚ)
    (hn : n % 2 = 0) (hm : m % 2 = 0) (hxo : xoffset = 0 ∨ xoffset = 1)
    (hyo : yoffset = 0 ∨ yoffset = 1) (i j : Nat) (hi : i < n)
    (hj : j < m) (s : Channels) (hk : s.k = i + n * j) (hR : i + n * j < s.R.length)
    (hG : i + n * j < s.G.length) (hB : i + n * j < s.B.length) :
    NearSample n m xoffset yoffset I 'R' i j
        (rd (pass2Border n xoffset yoffset I j i s).R ((i + n * j : Nat) : Int))
    ∧ NearSample n m xoffset yoffset I 'G' i j
        (rd (pass2Border n xoffset yoffset I j i s).G ((i + n * j : Nat) : Int))
    ∧ NearSample n m xoffset yoffset I 'B' i j
        (rd (pass2Border n xoffset yoffset I j i s).B ((i + n * j : Nat) : Int)) := by
  rcases s with ⟨R, G, B, k⟩
  simp only at hk hR hG hB
  subst hk
  unfold pass2Border
  rcases hxo with rfl | rfl <;> rcases hyo with rfl | rfl
  · rw [if_pos ⟨rfl, rfl⟩]
    exact borderRGGB_near n m I hn hm i j hi hj R G B hR hG hB
  · rw [if_neg (by decide), if_neg (by decide), if_pos ⟨rfl, by decide⟩]
    exact borderGBRG_near n m I hn hm i j hi hj R G B hR hG hB
  · rw [if_neg (by decide), if_pos ⟨by decide, rfl⟩]
    exact borderGRBG_near n m I hn hm i j hi hj R G B hR hG hB
  · rw [if_neg (by decide), if_neg (by decide), if_neg (by decide),
      if_pos ⟨by decide, by decide⟩]
    exact borderBGGR_near n m I hn hm i j hi hj R G B hR hG hB

/-- The three final values at a pixel of the 3-pixel margin. -/
theorem ppg_border_near (n m : Nat) (xoffset yoffset : Int) (I R G B : List ℚ)
    (hn : n % 2 = 0) (hm : m % 2 = 0) (hxo : xoffset = 0 ∨ xoffset = 1)
    (hyo : yoffset = 0 ∨ yoffset = 1)
    (hR : R.length = n * m) (hG : G.length = n * m) (hB : B.length = n * m)
    (i j : Nat) (hi : i < n) (hj : j < m)
    (hbord : (j : Int) ≤ 2 ∨ (j : Int) ≥ (m : Int) - 3 ∨ (i : Int) ≤ 2
      ∨ (i : Int) ≥ (n : Int) - 3) :
    NearSample n m xoffset yoffset I 'R' i j
        (rd (ppg n m xoffset yoffset I R G B).R ((i + n * j : Nat) : Int))
    ∧ NearSample n m xoffset yoffset I 'G' i j
        (rd (ppg n m xoffset yoffset I R G B).G ((i + n * j : Nat) : Int))
    ∧ NearSample n m xoffset yoffset I 'B' i j
        (rd (ppg n m xoffset yoffset I R G B).B ((i + n * j : Nat) : Int)) := by
  have hp : i + n * j < n * m := pixel_lt hi hj
  obtain ⟨a1, a2, a3⟩ := pass1_length n m xoffset yoffset I
    { R := R, G := G, B := B, k := 0 } rfl
  obtain ⟨b1, b2, b3⟩ := pass2_length n m xoffset yoffset I
    { pass1 n m xoffset yoffset I { R := R, G := G, B := B, k := 0 } with k := 0 } rfl
  have lR : (pass1 n m xoffset yoffset I { R := R, G := G, B := B, k := 0 }).R.length
      = n * m := by rw [a1]; exact hR
  have lG : (pass1 n m xoffset yoffset I { R := R, G := G, B := B, k := 0 }).G.length
      = n * m := by rw [a2]; exact hG
  have lB : (pass1 n m xoffset yoffset I { R := R, G := G, B := B, k := 0 }).B.length
      = n * m := by rw [a3]; exact hB
  have h := pass2_px n m xoffset yoffset I
    { pass1 n m xoffset yoffset I { R := R, G := G, B := B, k := 0 } with k := 0 } rfl
    lR lG lB i j hi hj
  obtain ⟨h1, h2, h3⟩ := (px_eq_iff _ _ _).mp h
  unfold ppg
  dsimp only
  rw [h1, h2, h3]
  unfold pass2Pixel
  rw [if_pos hbord]
  unfold Channels.next
  dsimp only
  refine pass2Border_near n m xoffset yoffset I hn hm hxo hyo i j hi hj _ rfl ?_ ?_ ?_
  · show i + n * j < (pass1 n m xoffset yoffset I _).R.length
    rw [lR]
    exact hp
  · show i + n * j < (greenSeen _ _ _).length
    rw [length_greenSeen _ _ _ b2 (by rw [b2]; show _ ≤ (pass1 n m xoffset yoffset I _).G.length; rw [lG]; exact hp.le)]
    rw [b2]
    show i + n * j < (pass1 n m xoffset yoffset I _).G.length
    rw [lG]
    exact hp
  · show i + n * j < (pass1 n m xoffset yoffset I _).B.length
    rw [lB]
    exact hp

/-- C14: for each of the four patterns, every grid of even width and height and every
pixel within the 3-pixel margin (`j<=2` or `j>=m-3` or `i<=2` or `i>=n-3`), the final R,
G and B outputs at that pixel are each the raw sample of a pixel inside the grid, at most
one row and one column away, whose Bayer colour is red, green and blue respectively. -/
theorem debayer_border_fill (c : Collab) (chip : Int)
    (image imageB imageG imageR : MyImage)
    (hs : image.successProcessing = true)
    (hp : image.bayer = "RGGB" ∨ image.bayer = "GRBG" ∨ image.bayer = "GBRG"
      ∨ image.bayer = "BGGR")
    (hw : image.naxis1 % 2 = 0) (hh : image.naxis2 % 2 = 0)
    (i j : Nat) (hi : i < image.naxis1) (hj : j < image.naxis2)
    (hbord : (j : Int) ≤ 2 ∨ (j : Int) ≥ (image.naxis2 : Int) - 3 ∨ (i : Int) ≤ 2
      ∨ (i : Int) ≥ (image.naxis1 : Int) - 3) :
    NearSample image.naxis1 image.naxis2 (bayerOffsets image.bayer).1
        (bayerOffsets image.bayer).2 image.dataCurrent 'R' i j
        (rd (debayer c chip image imageB imageG imageR).imageR.dataCurrent
          ((i + image.naxis1 * j : Nat) : Int))
    ∧ NearSample image.naxis1 image.naxis2 (bayerOffsets image.bayer).1
        (bayerOffsets image.bayer).2 image.dataCurrent 'G' i j
        (rd (debayer c chip image imageB imageG imageR).imageG.dataCurrent
          ((i + image.naxis1 * j : Nat) : Int))
    ∧ NearSample image.naxis1 image.naxis2 (bayerOffsets image.bayer).1
        (bayerOffsets image.bayer).2 image.dataCurrent 'B' i j
        (rd (debayer c chip image imageB imageG imageR).imageB.dataCurrent
          ((i + image.naxis1 * j : Nat) : Int)) := by
  obtain ⟨e1, e2, e3⟩ := debayer_channels c chip image imageB imageG imageR hs hp hw hh
  obtain ⟨o1, o2⟩ := bayerOffsets_range image.bayer
  rw [e1, e2, e3]
  exact ppg_border_near image.naxis1 image.naxis2 _ _ image.dataCurrent _ _ _ hw hh o1 o2
    (length_resize _ _) (length_resize _ _) (length_resize _ _) i j hi hj hbord

/-- Instance of C14: the corner pixel `(0,0)` of an 8x8 grid with tag GRBG. -/
theorem debayer_border_fill_witness :
    ((0 : Nat) : Int) ≤ 2
    ∧ (NearSample 8 8 1 0 ramp64 'R' (0 : Nat) (0 : Nat)
        (rd (debayer noCollab 0 (rawImage "GRBG" 8 8 ramp64) blankImage blankImage
          blankImage).imageR.dataCurrent ((0 + 8 * 0 : Nat) : Int))
    ∧ NearSample 8 8 1 0 ramp64 'G' (0 : Nat) (0 : Nat)
        (rd (debayer noCollab 0 (rawImage "GRBG" 8 8 ramp64) blankImage blankImage
          blankImage).imageG.dataCurrent ((0 + 8 * 0 : Nat) : Int))
    ∧ NearSample 8 8 1 0 ramp64 'B' (0 : Nat) (0 : Nat)
        (rd (debayer noCollab 0 (rawImage "GRBG" 8 8 ramp64) blankImage blankImage
          blankImage).imageB.dataCurrent ((0 + 8 * 0 : Nat) : Int))) :=
  ⟨by decide, debayer_border_fill noCollab 0 (rawImage "GRBG" 8 8 ramp64) blankImage
    blankImage blankImage rfl (Or.inr (Or.inl rfl)) (by decide) (by decide) 0 0
    (by decide) (by decide) (Or.inl (by decide))⟩

/-! ## Grey linear ramps -/

theorem rawAt_rampGrid (n m : Nat) (a b c : ℚ) (x y : Nat) (hx : x < n) (hy : y < m) :
    rawAt n (rampGrid n m a b c) x y = a + b * x + c * y := by
  have hp : x + n * y < n * m := pixel_lt hx hy
  have e : ((x : Int) + (n : Int) * (y : Int)) = ((x + n * y : Nat) : Int) := by
    push_cast
    ring
  have h1 : (x + n * y) % n = x := by
    rw [Nat.add_mul_mod_self_left]
    exact Nat.mod_eq_of_lt hx
  have h2 : (x + n * y) / n = y := by
    rw [Nat.add_mul_div_left _ _ (by omega), Nat.div_eq_of_lt hx, zero_add]
  unfold rawAt rampGrid
  rw [e, rd_nat]
  simp [List.getD_eq_getElem?_getD, hp, h1, h2]

theorem hue_transit_mid (l1 l2 l3 : ℚ) (h : l1 + l3 = 2 * l2) :
    hue_transit l1 l2 l3 l1 l3 = l2 := by
  unfold hue_transit
  split_ifs with hc
  · have hne : l3 - l1 ≠ 0 := by
      rcases hc with ⟨h1, h2⟩ | ⟨h1, h2⟩
      · linarith
      · intro h0
        linarith
    rw [mul_div_assoc, mul_comm, div_mul_cancel₀ _ hne]
    ring
  · linarith

/-- The raw grid as a function of integer coordinates, from its values at the pixels. -/
theorem ramp_int (n m : Nat) (I : List ℚ) (a b c : ℚ)
    (hI : ∀ x y : Nat, x < n → y < m → rawAt n I x y = a + b * x + c * y)
    (x y : Int) (hx0 : 0 ≤ x) (hx : x < n) (hy0 : 0 ≤ y) (hy : y < m) :
    rawAt n I x y = a + b * x + c * y := by
  lift x to ℕ using hx0
  lift y to ℕ using hy0
  have h := hI x y (by omega) (by omega)
  simpa using h

/-- On a ramp the green interpolation of pass 1 returns the ramp. -/
theorem greenSpec_ramp (n m : Nat) (I : List ℚ) (a b c : ℚ)
    (hI : ∀ x y : Int, 0 ≤ x → x < n → 0 ≤ y → y < m → rawAt n I x y = a + b * x + c * y)
    (x y : Int) (hx0 : 2 ≤ x) (hx : x + 2 < n) (hy0 : 2 ≤ y) (hy : y + 2 < m) :
    greenSpec n I x y = a + b * x + c * y := by
  unfold greenSpec
  dsimp only
  generalize hd : direction _ _ _ _ = d
  have hr := direction_range
    (2 * abs (rawAt n I x (y - 2) - rawAt n I x y)
      + abs (rawAt n I x (y - 1) - rawAt n I x (y + 1)))
    (2 * abs (rawAt n I x y - rawAt n I (x + 2) y)
      + abs (rawAt n I (x - 1) y - rawAt n I (x + 1) y))
    (2 * abs (rawAt n I (x - 2) y - rawAt n I x y)
      + abs (rawAt n I (x - 1) y - rawAt n I (x + 1) y))
    (2 * abs (rawAt n I x y - rawAt n I x (y + 2))
      + abs (rawAt n I x (y - 1) - rawAt n I x (y + 1)))
  rw [hd] at hr
  rw [hI x y (by omega) (by omega) (by omega) (by omega),
    hI x (y - 1) (by omega) (by omega) (by omega) (by omega),
    hI x (y + 1) (by omega) (by omega) (by omega) (by omega),
    hI x (y - 2) (by omega) (by omega) (by omega) (by omega),
    hI x (y + 2) (by omega) (by omega) (by omega) (by omega),
    hI (x - 1) y (by omega) (by omega) (by omega) (by omega),
    hI (x + 1) y (by omega) (by omega) (by omega) (by omega),
    hI (x - 2) y (by omega) (by omega) (by omega) (by omega),
    hI (x + 2) y (by omega) (by omega) (by omega) (by omega)]
  rcases hr with h | h | h | h <;> subst h <;> norm_num <;> ring


/-- After pass 1 the green channel of an interior pixel of a ramp is the ramp. -/
theorem pass1_G_ramp (n m : Nat) (xoffset yoffset : Int) (I R G B : List ℚ) (a b c : ℚ)
    (hR : R.length = n * m) (hG : G.length = n * m) (hB : B.length = n * m)
    (hI : ∀ x y : Int, 0 ≤ x → x < n → 0 ≤ y → y < m → rawAt n I x y = a + b * x + c * y)
    (i j : Nat) (hi : 3 ≤ i) (hi' : i + 4 ≤ n) (hj : 3 ≤ j) (hj' : j + 4 ≤ m) :
    rd (pass1 n m xoffset yoffset I { R := R, G := G, B := B, k := 0 }).G
        ((i + n * j : Nat) : Int) = a + b * ((i : Int) : ℚ) + c * ((j : Int) : ℚ) := by
  have hp : i + n * j < n * m := pixel_lt (by omega) (by omega)
  have hint : ¬ ((j : Int) ≤ 2 ∨ (j : Int) ≥ (m : Int) - 3 ∨ (i : Int) ≤ 2
      ∨ (i : Int) ≥ (n : Int) - 3) := by omega
  have h := pass1_px n m xoffset yoffset I { R := R, G := G, B := B, k := 0 } rfl
    hR hG hB i j (by omega) (by omega)
  rw [((px_eq_iff _ _ _).mp h).2.1]
  by_cases hsite : ((j : Int) + yoffset) % 2 = ((i : Int) + xoffset) % 2
  · rw [pass1Pixel_green n m xoffset yoffset I i j _ rfl (by rw [hG]; exact hp) hint hsite]
    exact greenSpec_ramp n m I a b c hI i j (by omega) (by omega) (by omega) (by omega)
  · rw [(pass1Pixel_native n m xoffset yoffset I i j _ rfl (by rw [hR]; exact hp)
      (by rw [hG]; exact hp) (by rw [hB]; exact hp)).2.2 hsite]
    exact hI i j (by omega) (by omega) (by omega) (by omega)

/-- The green channel as pass 2 sees it at any pixel is the ramp at every interior pixel. -/
theorem greenSeen_ramp (n m : Nat) (xoffset yoffset : Int) (I R G B : List ℚ) (a b c : ℚ)
    (hR : R.length = n * m) (hG : G.length = n * m) (hB : B.length = n * m)
    (hI : ∀ x y : Int, 0 ≤ x → x < n → 0 ≤ y → y < m → rawAt n I x y = a + b * x + c * y)
    (p : Nat) (x y : Int) (hx0 : 3 ≤ x) (hx : x + 4 ≤ n) (hy0 : 3 ≤ y) (hy : y + 4 ≤ m) :
    rawAt n (greenSeen p (ppg n m xoffset yoffset I R G B).G
        (pass1 n m xoffset yoffset I { R := R, G := G, B := B, k := 0 }).G) x y
      = a + b * x + c * y := by
  lift x to ℕ using (by omega)
  lift y to ℕ using (by omega)
  have hint : ¬ ((y : Int) ≤ 2 ∨ (y : Int) ≥ (m : Int) - 3 ∨ (x : Int) ≤ 2
      ∨ (x : Int) ≥ (n : Int) - 3) := by omega
  obtain ⟨b1, b2, b3⟩ := pass2_length n m xoffset yoffset I
    { pass1 n m xoffset yoffset I { R := R, G := G, B := B, k := 0 } with k := 0 } rfl
  have e : ((x : Int) + (n : Int) * (y : Int)) = ((x + n * y : Nat) : Int) := by
    push_cast
    ring
  have h1 := pass1_G_ramp n m xoffset yoffset I R G B a b c hR hG hB hI x y
    (by omega) (by omega) (by omega) (by omega)
  have b2' : (ppg n m xoffset yoffset I R G B).G.length
      = (pass1 n m xoffset yoffset I { R := R, G := G, B := B, k := 0 }).G.length := b2
  unfold rawAt
  rw [e, rd_greenSeen _ _ _ b2']
  split_ifs
  · rw [ppg_interior_G n m xoffset yoffset I R G B hR hG hB x y (by omega) (by omega) hint]
    exact h1
  · exact h1

set_option maxHeartbeats 1000000 in
/-- On a ramp all three channels equal the raw sample at every pixel at least 4 pixels
from every edge. -/
theorem ppg_ramp (n m : Nat) (xoffset yoffset : Int) (I R G B : List ℚ) (a b c : ℚ)
    (hR : R.length = n * m) (hG : G.length = n * m) (hB : B.length = n * m)
    (hI : ∀ x y : Int, 0 ≤ x → x < n → 0 ≤ y → y < m → rawAt n I x y = a + b * x + c * y)
    (i j : Nat) (hi : 4 ≤ i) (hi' : i + 5 ≤ n) (hj : 4 ≤ j) (hj' : j + 5 ≤ m) :
    rd (ppg n m xoffset yoffset I R G B).R ((i + n * j : Nat) : Int) = rawAt n I i j
    ∧ rd (ppg n m xoffset yoffset I R G B).G ((i + n * j : Nat) : Int) = rawAt n I i j
    ∧ rd (ppg n m xoffset yoffset I R G B).B ((i + n * j : Nat) : Int) = rawAt n I i j := by
  have hy := Int.emod_two_eq ((j : Int) + yoffset)
  have hx := Int.emod_two_eq ((i : Int) + xoffset)
  have hp : i + n * j < n * m := pixel_lt (by omega) (by omega)
  have hint : ¬ ((j : Int) ≤ 2 ∨ (j : Int) ≥ (m : Int) - 3 ∨ (i : Int) ≤ 2
      ∨ (i : Int) ≥ (n : Int) - 3) := by omega
  obtain ⟨a1, a2, a3⟩ := pass1_length n m xoffset yoffset I
    { R := R, G := G, B := B, k := 0 } rfl
  obtain ⟨n1, n2, n3⟩ := ppg_native n m xoffset yoffset I R G B hR hG hB i j (by omega)
    (by omega)
  have hS := greenSeen_ramp n m xoffset yoffset I R G B a b c hR hG hB hI (i + n * j)
  have hGv : rd (ppg n m xoffset yoffset I R G B).G ((i + n * j : Nat) : Int)
      = rawAt n I i j := by
    rw [ppg_interior_G n m xoffset yoffset I R G B hR hG hB i j (by omega) (by omega) hint,
      pass1_G_ramp n m xoffset yoffset I R G B a b c hR hG hB hI i j (by omega) (by omega)
        (by omega) (by omega)]
    exact (hI i j (by omega) (by omega) (by omega) (by omega)).symm
  obtain ⟨pR, _, pB⟩ := (px_eq_iff _ _ _).mp
    (ppg_interior_px n m xoffset yoffset I R G B hR hG hB i j (by omega) (by omega) hint)
  obtain ⟨v1, v2, v3, v4⟩ := pass2Interior_values n xoffset yoffset I i j
    (pass1 n m xoffset yoffset I { R := R, G := G, B := B, k := 0 }).R
    (greenSeen (i + n * j) (ppg n m xoffset yoffset I R G B).G
      (pass1 n m xoffset yoffset I { R := R, G := G, B := B, k := 0 }).G)
    (pass1 n m xoffset yoffset I { R := R, G := G, B := B, k := 0 }).B
    (by rw [a1]; show _ < R.length; rw [hR]; exact hp)
    (by rw [a3]; show _ < B.length; rw [hB]; exact hp)
  have q0 := hI i j (by omega) (by omega) (by omega) (by omega)
  have qN := hI i (j - 1) (by omega) (by omega) (by omega) (by omega)
  have qS := hI i (j + 1) (by omega) (by omega) (by omega) (by omega)
  have qW := hI (i - 1) j (by omega) (by omega) (by omega) (by omega)
  have qE := hI (i + 1) j (by omega) (by omega) (by omega) (by omega)
  have qNE := hI (i + 1) (j - 1) (by omega) (by omega) (by omega) (by omega)
  have qSW := hI (i - 1) (j + 1) (by omega) (by omega) (by omega) (by omega)
  have qNW := hI (i - 1) (j - 1) (by omega) (by omega) (by omega) (by omega)
  have qSE := hI (i + 1) (j + 1) (by omega) (by omega) (by omega) (by omega)
  have g0 := hS i j (by omega) (by omega) (by omega) (by omega)
  have gN := hS i (j - 1) (by omega) (by omega) (by omega) (by omega)
  have gS := hS i (j + 1) (by omega) (by omega) (by omega) (by omega)
  have gW := hS (i - 1) j (by omega) (by omega) (by omega) (by omega)
  have gE := hS (i + 1) j (by omega) (by omega) (by omega) (by omega)
  have gNE := hS (i + 1) (j - 1) (by omega) (by omega) (by omega) (by omega)
  have gSW := hS (i - 1) (j + 1) (by omega) (by omega) (by omega) (by omega)
  have gNW := hS (i - 1) (j - 1) (by omega) (by omega) (by omega) (by omega)
  have gSE := hS (i + 1) (j + 1) (by omega) (by omega) (by omega) (by omega)
  have mV : hue_transit (a + b * (((i : Int) : ℚ)) + c * (((j : Int) - 1 : Int) : ℚ))
      (a + b * ((i : Int) : ℚ) + c * ((j : Int) : ℚ))
      (a + b * (((i : Int) : ℚ)) + c * (((j : Int) + 1 : Int) : ℚ))
      (a + b * (((i : Int) : ℚ)) + c * (((j : Int) - 1 : Int) : ℚ))
      (a + b * (((i : Int) : ℚ)) + c * (((j : Int) + 1 : Int) : ℚ))
      = a + b * ((i : Int) : ℚ) + c * ((j : Int) : ℚ) :=
    hue_transit_mid _ _ _ (by push_cast; ring)
  have mH : hue_transit (a + b * (((i : Int) - 1 : Int) : ℚ) + c * ((j : Int) : ℚ))
      (a + b * ((i : Int) : ℚ) + c * ((j : Int) : ℚ))
      (a + b * (((i : Int) + 1 : Int) : ℚ) + c * ((j : Int) : ℚ))
      (a + b * (((i : Int) - 1 : Int) : ℚ) + c * ((j : Int) : ℚ))
      (a + b * (((i : Int) + 1 : Int) : ℚ) + c * ((j : Int) : ℚ))
      = a + b * ((i : Int) : ℚ) + c * ((j : Int) : ℚ) :=
    hue_transit_mid _ _ _ (by push_cast; ring)
  have mNE : hue_transit
      (a + b * (((i : Int) + 1 : Int) : ℚ) + c * (((j : Int) - 1 : Int) : ℚ))
      (a + b * ((i : Int) : ℚ) + c * ((j : Int) : ℚ))
      (a + b * (((i : Int) - 1 : Int) : ℚ) + c * (((j : Int) + 1 : Int) : ℚ))
      (a + b * (((i : Int) + 1 : Int) : ℚ) + c * (((j : Int) - 1 : Int) : ℚ))
      (a + b * (((i : Int) - 1 : Int) : ℚ) + c * (((j : Int) + 1 : Int) : ℚ))
      = a + b * ((i : Int) : ℚ) + c * ((j : Int) : ℚ) :=
    hue_transit_mid _ _ _ (by push_cast; ring)
  have mNW : hue_transit
      (a + b * (((i : Int) - 1 : Int) : ℚ) + c * (((j : Int) - 1 : Int) : ℚ))
      (a + b * ((i : Int) : ℚ) + c * ((j : Int) : ℚ))
      (a + b * (((i : Int) + 1 : Int) : ℚ) + c * (((j : Int) + 1 : Int) : ℚ))
      (a + b * (((i : Int) - 1 : Int) : ℚ) + c * (((j : Int) - 1 : Int) : ℚ))
      (a + b * (((i : Int) + 1 : Int) : ℚ) + c * (((j : Int) + 1 : Int) : ℚ))
      = a + b * ((i : Int) : ℚ) + c * ((j : Int) : ℚ) :=
    hue_transit_mid _ _ _ (by push_cast; ring)
  have mD : (if gradNE n I (greenSeen (i + n * j) (ppg n m xoffset yoffset I R G B).G
          (pass1 n m xoffset yoffset I { R := R, G := G, B := B, k := 0 }).G) i j
        ≤ gradNW n I (greenSeen (i + n * j) (ppg n m xoffset yoffset I R G B).G
          (pass1 n m xoffset yoffset I { R := R, G := G, B := B, k := 0 }).G) i j then
        hue_transit
          (a + b * (((i : Int) + 1 : Int) : ℚ) + c * (((j : Int) - 1 : Int) : ℚ))
          (a + b * ((i : Int) : ℚ) + c * ((j : Int) : ℚ))
          (a + b * (((i : Int) - 1 : Int) : ℚ) + c * (((j : Int) + 1 : Int) : ℚ))
          (a + b * (((i : Int) + 1 : Int) : ℚ) + c * (((j : Int) - 1 : Int) : ℚ))
          (a + b * (((i : Int) - 1 : Int) : ℚ) + c * (((j : Int) + 1 : Int) : ℚ))
      else
        hue_transit
          (a + b * (((i : Int) - 1 : Int) : ℚ) + c * (((j : Int) - 1 : Int) : ℚ))
          (a + b * ((i : Int) : ℚ) + c * ((j : Int) : ℚ))
          (a + b * (((i : Int) + 1 : Int) : ℚ) + c * (((j : Int) + 1 : Int) : ℚ))
          (a + b * (((i : Int) - 1 : Int) : ℚ) + c * (((j : Int) - 1 : Int) : ℚ))
          (a + b * (((i : Int) + 1 : Int) : ℚ) + c * (((j : Int) + 1 : Int) : ℚ)))
      = a + b * ((i : Int) : ℚ) + c * ((j : Int) : ℚ) := by
    split_ifs
    · exact mNE
    · exact mNW
  refine ⟨?_, hGv, ?_⟩
  · rw [q0]
    rcases hy with hy | hy <;> rcases hx with hx | hx
    · rw [n1 ⟨hy, hx⟩]
      exact q0
    · rw [pR, (v2 ⟨hy, hx⟩).1, gW, gE, qW, qE, q0]
      exact mH
    · rw [pR, (v1 ⟨hy, hx⟩).1, gN, gS, qN, qS, q0]
      exact mV
    · rw [pR, v4 ⟨hy, hx⟩, gNE, gSW, gNW, gSE, g0, qNE, qSW, qNW, qSE]
      exact mD
  · rw [q0]
    rcases hy with hy | hy <;> rcases hx with hx | hx
    · rw [pB, v3 ⟨hy, hx⟩, gNE, gSW, gNW, gSE, g0, qNE, qSW, qNW, qSE]
      exact mD
    · rw [pB, (v2 ⟨hy, hx⟩).2, gN, gS, qN, qS, q0]
      exact mV
    · rw [pB, (v1 ⟨hy, hx⟩).2, gW, gE, qW, qE, q0]
      exact mH
    · rw [n2 ⟨hy, hx⟩]
      exact q0


/-- C19: for every pattern and every even-sized grid whose raw samples are an affine
function of position, `raw(i,j) = a + b*i + c*j`, every pixel at least 4 pixels from
every edge (`4 <= i <= n-5` and `4 <= j <= m-5`) has `R(i,j) = G(i,j) = B(i,j) = raw(i,j)`
after `debayer`. -/
theorem debayer_ramp_exact (c : Collab) (chip : Int)
    (image imageB imageG imageR : MyImage)
    (hs : image.successProcessing = true)
    (hp : image.bayer = "RGGB" ∨ image.bayer = "GRBG" ∨ image.bayer = "GBRG"
      ∨ image.bayer = "BGGR")
    (hw : image.naxis1 % 2 = 0) (hh : image.naxis2 % 2 = 0)
    (a b c' : ℚ)
    (hI : ∀ x y : Nat, x < image.naxis1 → y < image.naxis2 →
      rawAt image.naxis1 image.dataCurrent x y = a + b * x + c' * y)
    (i j : Nat) (hi : 4 ≤ i) (hi' : i + 5 ≤ image.naxis1) (hj : 4 ≤ j)
    (hj' : j + 5 ≤ image.naxis2) :
    rd (debayer c chip image imageB imageG imageR).imageR.dataCurrent
        ((i + image.naxis1 * j : Nat) : Int) = rawAt image.naxis1 image.dataCurrent i j
    ∧ rd (debayer c chip image imageB imageG imageR).imageG.dataCurrent
        ((i + image.naxis1 * j : Nat) : Int) = rawAt image.naxis1 image.dataCurrent i j
    ∧ rd (debayer c chip image imageB imageG imageR).imageB.dataCurrent
        ((i + image.naxis1 * j : Nat) : Int) = rawAt image.naxis1 image.dataCurrent i j := by
  obtain ⟨e1, e2, e3⟩ := debayer_channels c chip image imageB imageG imageR hs hp hw hh
  rw [e1, e2, e3]
  exact ppg_ramp image.naxis1 image.naxis2 _ _ image.dataCurrent _ _ _ a b c'
    (length_resize _ _) (length_resize _ _) (length_resize _ _)
    (ramp_int image.naxis1 image.naxis2 image.dataCurrent a b c' hI) i j hi hi' hj hj'

/-- Instance of C19: the pixel `(4,5)` of the 10x10 ramp `1 + 2*i + 3*j` with tag GBRG. -/
theorem debayer_ramp_exact_witness :
    (∀ x y : Nat, x < 10 → y < 10 →
      rawAt 10 (rampGrid 10 10 1 2 3) x y = 1 + 2 * (x : ℚ) + 3 * (y : ℚ))
    ∧ (rd (debayer noCollab 0 (rawImage "GBRG" 10 10 (rampGrid 10 10 1 2 3)) blankImage
          blankImage blankImage).imageR.dataCurrent ((4 + 10 * 5 : Nat) : Int)
        = rawAt 10 (rampGrid 10 10 1 2 3) (4 : Nat) (5 : Nat)
      ∧ rd (debayer noCollab 0 (rawImage "GBRG" 10 10 (rampGrid 10 10 1 2 3)) blankImage
          blankImage blankImage).imageG.dataCurrent ((4 + 10 * 5 : Nat) : Int)
        = rawAt 10 (rampGrid 10 10 1 2 3) (4 : Nat) (5 : Nat)
      ∧ rd (debayer noCollab 0 (rawImage "GBRG" 10 10 (rampGrid 10 10 1 2 3)) blankImage
          blankImage blankImage).imageB.dataCurrent ((4 + 10 * 5 : Nat) : Int)
        = rawAt 10 (rampGrid 10 10 1 2 3) (4 : Nat) (5 : Nat)) :=
  ⟨fun x y hx hy => rawAt_rampGrid 10 10 1 2 3 x y hx hy,
    debayer_ramp_exact noCollab 0 (rawImage "GBRG" 10 10 (rampGrid 10 10 1 2 3)) blankImage
      blankImage blankImage rfl (Or.inr (Or.inr (Or.inl rfl))) (by decide) (by decide)
      1 2 3 (fun x y hx hy => rawAt_rampGrid 10 10 1 2 3 x y hx hy) 4 5 (by decide)
      (by decide) (by decide) (by decide)⟩

/-! ## Array accesses stay inside the grid -/

theorem foldl_fst {σ τ : Type} (f' : σ × τ → Nat → σ × τ) (f : σ → Nat → σ)
    (h : ∀ a i, (f' a i).1 = f a.1 i) (l : List Nat) (a : σ × τ) :
    (l.foldl f' a).1 = l.foldl f a.1 := by
  induction l generalizing a with
  | nil => rfl
  | cons x xs ih =>
    simp only [List.foldl_cons]
    rw [ih, h]

/-- The logged run ends in the state of the plain run. -/
theorem rasterTrace_fst {σ : Type} (n m : Nat) (body : Nat → Nat → σ → σ) (s : σ) :
    (rasterTrace n m body s).1 = raster n m body s := by
  unfold rasterTrace raster
  rw [foldl_fst _ (fun s j => (List.range n).foldl (fun s i => body j i s) s)]
  intro a j
  rw [foldl_fst _ (fun s i => body j i s)]
  intro a i
  rfl

/-- The log of a loop whose body writes at `k` and increments it: the counter runs through
`0, 1, ..., n*m - 1`, and at every logged pixel it equals `i + n*j`. -/
theorem rasterTrace_spec (n m : Nat) (body : Nat → Nat → Channels → Channels)
    (hbody : ∀ j i, WritesK (body j i)) (s0 : Channels) (h0 : s0.k = 0) :
    (rasterTrace n m body s0).2.map (fun e => e.2.2.k) = List.range (n * m)
    ∧ ∀ e ∈ (rasterTrace n m body s0).2,
        e.1 < m ∧ e.2.1 < n ∧ e.2.2.k = e.2.1 + n * e.1
        ∧ e.2.2.R.length = s0.R.length ∧ e.2.2.G.length = s0.G.length
        ∧ e.2.2.B.length = s0.B.length := by
  have key := raster_induct n m
    (fun j i (acc : Channels × List (Nat × Nat × Channels)) =>
      (body j i acc.1, acc.2 ++ [(j, i, acc.1)]))
    (fun c acc => acc.1.k = c
      ∧ acc.1.R.length = s0.R.length ∧ acc.1.G.length = s0.G.length
      ∧ acc.1.B.length = s0.B.length
      ∧ acc.2.map (fun e => e.2.2.k) = List.range c
      ∧ ∀ e ∈ acc.2, e.1 < m ∧ e.2.1 < n ∧ e.2.2.k = e.2.1 + n * e.1
        ∧ e.2.2.R.length = s0.R.length ∧ e.2.2.G.length = s0.G.length
        ∧ e.2.2.B.length = s0.B.length)
    (s0, []) ⟨h0, rfl, rfl, rfl, rfl, fun e he => absurd he (List.not_mem_nil e)⟩
    (by
      rintro j i ⟨s, l⟩ hj hi ⟨hk, hR, hG, hB, hmap, hall⟩
      simp only at hk hR hG hB hmap hall
      obtain ⟨r, g, b, hb⟩ := hbody j i s
      refine ⟨?_, ?_, ?_, ?_, ?_, ?_⟩
      · simp only [hb, hk]
      · simp only [hb, length_wr, hR]
      · simp only [hb, length_wr, hG]
      · simp only [hb, length_wr, hB]
      · simp only [List.map_append, List.map_cons, List.map_nil, hmap, hk,
          List.range_succ]
      · intro e he
        simp only [List.mem_append, List.mem_singleton] at he
        rcases he with he | rfl
        · exact hall e he
        · exact ⟨hj, hi, hk, hR, hG, hB⟩)
  exact ⟨key.2.2.2.2.1, key.2.2.2.2.2⟩


theorem switchReads_sub (n : Int) (i j d : Int) (e : Int) (he : e ∈ switchReads n i j d) :
    e ∈ gradReads n i j := by
  unfold switchReads at he
  unfold gradReads
  split_ifs at he <;>
    simp only [List.mem_cons, List.mem_singleton, List.not_mem_nil, or_false] at he ⊢ <;>
    omega

set_option maxHeartbeats 1000000 in
theorem gradReads_inBounds (n m : Nat) (i j : Nat)
    (hint : ¬ ((j : Int) ≤ 2 ∨ (j : Int) ≥ (m : Int) - 3 ∨ (i : Int) ≤ 2
      ∨ (i : Int) ≥ (n : Int) - 3)) :
    InBounds (n * m) (gradReads n i j) := by
  obtain ⟨f0, f1, f2, f3, f4, f5⟩ := row_facts n m j (by omega)
  intro e he
  unfold gradReads at he
  simp only [List.mem_cons, List.mem_singleton, List.not_mem_nil, or_false] at he
  push_cast
  omega

set_option maxHeartbeats 1000000 in
/-- Pass 1 reads the raw grid inside `[0, n*m)`. -/
theorem pass1Reads_inBounds (n m : Nat) (xoffset yoffset : Int) (I : List ℚ) (i j : Nat)
    (hi : i < n) (hj : j < m) :
    InBounds (n * m) (pass1Reads n m xoffset yoffset I j i) := by
  obtain ⟨f0, f1, f2, f3, f4, f5⟩ := row_facts n m j hj
  unfold pass1Reads
  dsimp only
  have h0 : (i : Int) + n * j ∈ gradReads n i j := by
    unfold gradReads
    simp only [List.mem_cons, List.mem_singleton, true_or, or_true]
  split_ifs with hb h1 h2 h3 h4
  · intro e he
    simp only [List.mem_cons, List.mem_singleton, List.not_mem_nil, or_false, or_self] at he
    push_cast
    omega
  · intro e he
    have hg := gradReads_inBounds n m i j hb
    rw [List.mem_append, List.mem_cons] at he
    rcases he with he | rfl | he
    · exact hg e he
    · exact hg _ h0
    · exact hg e (switchReads_sub _ _ _ _ e he)
  · intro e he
    have hg := gradReads_inBounds n m i j hb
    rw [List.mem_append, List.mem_append, List.mem_singleton] at he
    rcases he with he | he | rfl
    · exact hg e he
    · exact hg e (switchReads_sub _ _ _ _ e he)
    · exact hg _ h0
  · intro e he
    have hg := gradReads_inBounds n m i j hb
    rw [List.mem_append, List.mem_singleton] at he
    rcases he with he | rfl
    · exact hg e he
    · exact hg _ h0
  · intro e he
    have hg := gradReads_inBounds n m i j hb
    rw [List.mem_append, List.mem_singleton] at he
    rcases he with he | rfl
    · exact hg e he
    · exact hg _ h0
  · intro e he
    have hg := gradReads_inBounds n m i j hb
    rw [List.append_nil] at he
    exact hg e he


theorem inBounds_nil (N : Nat) : InBounds N [] :=
  fun e he => absurd he (List.not_mem_nil e)

theorem inBounds_cons (N : Nat) (x : Int) (l : List Int) (h0 : 0 ≤ x) (h1 : x < (N : Int))
    (hl : InBounds N l) : InBounds N (x :: l) := by
  intro e he
  rw [List.mem_cons] at he
  rcases he with rfl | he
  · exact ⟨h0, h1⟩
  · exact hl e he

theorem inBounds_append (N : Nat) (l l' : List Int) (h : InBounds N l)
    (h' : InBounds N l') : InBounds N (l ++ l') := by
  intro e he
  rw [List.mem_append] at he
  rcases he with he | he
  · exact h e he
  · exact h' e he

set_option maxHeartbeats 1000000 in
theorem borderRGGBReads_inBounds (n m : Nat) (hn : n % 2 = 0) (hm : m % 2 = 0)
    (i j : Nat) (hi : i < n) (hj : j < m) :
    InBounds (n * m) (borderRGGBReads n 0 0 j i) := by
  have hy := Int.emod_two_eq ((j : Int) + 0)
  have hx := Int.emod_two_eq ((i : Int) + 0)
  have hN : ((n * m : Nat) : Int) = (n : Int) * m := Nat.cast_mul n m
  obtain ⟨f0, f1, f2, f3, f4, f5⟩ := row_facts n m j hj
  unfold borderRGGBReads
  split_ifs
  · exact inBounds_cons _ _ _ (by omega) (by omega) (inBounds_cons _ _ _ (by omega) (by omega)
      (inBounds_cons _ _ _ (by omega) (by omega) (inBounds_nil _)))
  · exact inBounds_cons _ _ _ (by omega) (by omega) (inBounds_cons _ _ _ (by omega) (by omega)
      (inBounds_cons _ _ _ (by omega) (by omega) (inBounds_nil _)))
  · exact inBounds_cons _ _ _ (by omega) (by omega) (inBounds_cons _ _ _ (by omega) (by omega)
      (inBounds_cons _ _ _ (by omega) (by omega) (inBounds_nil _)))
  · exact inBounds_cons _ _ _ (by omega) (by omega) (inBounds_cons _ _ _ (by omega) (by omega)
      (inBounds_cons _ _ _ (by omega) (by omega) (inBounds_nil _)))
  · exact inBounds_nil _

set_option maxHeartbeats 1000000 in
theorem borderGRBGReads_inBounds (n m : Nat) (hn : n % 2 = 0) (hm : m % 2 = 0)
    (i j : Nat) (hi : i < n) (hj : j < m) :
    InBounds (n * m) (borderGRBGReads n 1 0 j i) := by
  have hy := Int.emod_two_eq ((j : Int) + 0)
  have hx := Int.emod_two_eq ((i : Int) + 1)
  have hN : ((n * m : Nat) : Int) = (n : Int) * m := Nat.cast_mul n m
  obtain ⟨f0, f1, f2, f3, f4, f5⟩ := row_facts n m j hj
  unfold borderGRBGReads
  split_ifs
  · exact inBounds_cons _ _ _ (by omega) (by omega) (inBounds_cons _ _ _ (by omega) (by omega)
      (inBounds_cons _ _ _ (by omega) (by omega) (inBounds_nil _)))
  · exact inBounds_cons _ _ _ (by omega) (by omega) (inBounds_cons _ _ _ (by omega) (by omega)
      (inBounds_cons _ _ _ (by omega) (by omega) (inBounds_nil _)))
  · exact inBounds_cons _ _ _ (by omega) (by omega) (inBounds_cons _ _ _ (by omega) (by omega)
      (inBounds_cons _ _ _ (by omega) (by omega) (inBounds_nil _)))
  · exact inBounds_cons _ _ _ (by omega) (by omega) (inBounds_cons _ _ _ (by omega) (by omega)
      (inBounds_cons _ _ _ (by omega) (by omega) (inBounds_nil _)))
  · exact inBounds_nil _

set_option maxHeartbeats 1000000 in
theorem borderGBRGReads_inBounds (n m : Nat) (hn : n % 2 = 0) (hm : m % 2 = 0)
    (i j : Nat) (hi : i < n) (hj : j < m) :
    InBounds (n * m) (borderGBRGReads n 0 1 j i) := by
  have hy := Int.emod_two_eq ((j : Int) + 1)
  have hx := Int.emod_two_eq ((i : Int) + 0)
  have hN : ((n * m : Nat) : Int) = (n : Int) * m := Nat.cast_mul n m
  obtain ⟨f0, f1, f2, f3, f4, f5⟩ := row_facts n m j hj
  unfold borderGBRGReads
  split_ifs
  · exact inBounds_cons _ _ _ (by omega) (by omega) (inBounds_cons _ _ _ (by omega) (by omega)
      (inBounds_cons _ _ _ (by omega) (by omega) (inBounds_nil _)))
  · exact inBounds_cons _ _ _ (by omega) (by omega) (inBounds_cons _ _ _ (by omega) (by omega)
      (inBounds_cons _ _ _ (by omega) (by omega) (inBounds_nil _)))
  · exact inBounds_cons _ _ _ (by omega) (by omega) (inBounds_cons _ _ _ (by omega) (by omega)
      (inBounds_cons _ _ _ (by omega) (by omega) (inBounds_nil _)))
  · exact inBounds_cons _ _ _ (by omega) (by omega) (inBounds_cons _ _ _ (by omega) (by omega)
      (inBounds_cons _ _ _ (by omega) (by omega) (inBounds_nil _)))
  · exact inBounds_nil _

set_option maxHeartbeats 1000000 in
theorem borderBGGRReads_inBounds (n m : Nat) (hn : n % 2 = 0) (hm : m % 2 = 0)
    (i j : Nat) (hi : i < n) (hj : j < m) :
    InBounds (n * m) (borderBGGRReads n 1 1 j i) := by
  have hy := Int.emod_two_eq ((j : Int) + 1)
  have hx := Int.emod_two_eq ((i : Int) + 1)
  have hN : ((n * m : Nat) : Int) = (n : Int) * m := Nat.cast_mul n m
  obtain ⟨f0, f1, f2, f3, f4, f5⟩ := row_facts n m j hj
  unfold borderBGGRReads
  split_ifs
  · exact inBounds_cons _ _ _ (by omega) (by omega) (inBounds_cons _ _ _ (by omega) (by omega)
      (inBounds_cons _ _ _ (by omega) (by omega) (inBounds_nil _)))
  · exact inBounds_cons _ _ _ (by omega) (by omega) (inBounds_cons _ _ _ (by omega) (by omega)
      (inBounds_cons _ _ _ (by omega) (by omega) (inBounds_nil _)))
  · exact inBounds_cons _ _ _ (by omega) (by omega) (inBounds_cons _ _ _ (by omega) (by omega)
      (inBounds_cons _ _ _ (by omega) (by omega) (inBounds_nil _)))
  · exact inBounds_cons _ _ _ (by omega) (by omega) (inBounds_cons _ _ _ (by omega) (by omega)
      (inBounds_cons _ _ _ (by omega) (by omega) (inBounds_nil _)))
  · exact inBounds_nil _

theorem pass2BorderReads_inBounds (n m : Nat) (xoffset yoffset : Int)
    (hn : n % 2 = 0) (hm : m % 2 = 0) (hxo : xoffset = 0 ∨ xoffset = 1)
    (hyo : yoffset = 0 ∨ yoffset = 1) (i j : Nat) (hi : i < n) (hj : j < m) :
    InBounds (n * m) (pass2BorderReads n xoffset yoffset j i) := by
  unfold pass2BorderReads
  rcases hxo with rfl | rfl <;> rcases hyo with rfl | rfl
  · rw [if_pos ⟨rfl, rfl⟩]
    exact borderRGGBReads_inBounds n m hn hm i j hi hj
  · rw [if_neg (by decide), if_neg (by decide), if_pos ⟨rfl, by decide⟩]
    exact borderGBRGReads_inBounds n m hn hm i j hi hj
  · rw [if_neg (by decide), if_pos ⟨by decide, rfl⟩]
    exact borderGRBGReads_inBounds n m hn hm i j hi hj
  · rw [if_neg (by decide), if_neg (by decide), if_neg (by decide),
      if_pos ⟨by decide, by decide⟩]
    exact borderBGGRReads_inBounds n m hn hm i j hi hj

set_option maxHeartbeats 1000000 in
theorem diagReads_inBounds (n m : Nat) (i j : Nat)
    (hint : ¬ ((j : Int) ≤ 2 ∨ (j : Int) ≥ (m : Int) - 3 ∨ (i : Int) ≤ 2
      ∨ (i : Int) ≥ (n : Int) - 3)) :
    InBounds (n * m) (diagReadsI n i j) ∧ InBounds (n * m) (diagReadsG n i j) := by
  have hN : ((n * m : Nat) : Int) = (n : Int) * m := Nat.cast_mul n m
  obtain ⟨f0, f1, f2, f3, f4, f5⟩ := row_facts n m j (by omega)
  unfold diagReadsI diagReadsG
  constructor <;>
    repeat first
      | exact inBounds_nil _
      | refine inBounds_cons _ _ _ (by omega) (by omega) ?_

set_option maxHeartbeats 1000000 in
theorem pass2InteriorReads_inBounds (n m : Nat) (xoffset yoffset : Int) (I : List ℚ)
    (i j : Nat) (s : Channels)
    (hint : ¬ ((j : Int) ≤ 2 ∨ (j : Int) ≥ (m : Int) - 3 ∨ (i : Int) ≤ 2
      ∨ (i : Int) ≥ (n : Int) - 3)) :
    InBounds (n * m) (pass2InteriorReads n xoffset yoffset I j i s).1
    ∧ InBounds (n * m) (pass2InteriorReads n xoffset yoffset I j i s).2 := by
  have hN : ((n * m : Nat) : Int) = (n : Int) * m := Nat.cast_mul n m
  obtain ⟨f0, f1, f2, f3, f4, f5⟩ := row_facts n m j (by omega)
  obtain ⟨dI, dG⟩ := diagReads_inBounds n m i j hint
  unfold pass2InteriorReads
  dsimp only
  split_ifs
  all_goals
    first
    | exact ⟨dI, dG⟩
    | (refine ⟨inBounds_append _ _ _ dI ?_, inBounds_append _ _ _ dG ?_⟩ <;>
        repeat first
          | exact inBounds_nil _
          | refine inBounds_cons _ _ _ (by omega) (by omega) ?_)

/-- Pass 2 reads the raw grid and the green channel inside `[0, n*m)`. -/
theorem pass2Reads_inBounds (n m : Nat) (xoffset yoffset : Int) (I : List ℚ)
    (hn : n % 2 = 0) (hm : m % 2 = 0) (hxo : xoffset = 0 ∨ xoffset = 1)
    (hyo : yoffset = 0 ∨ yoffset = 1) (i j : Nat) (hi : i < n) (hj : j < m)
    (s : Channels) :
    InBounds (n * m) (pass2Reads n m xoffset yoffset I j i s).1
    ∧ InBounds (n * m) (pass2Reads n m xoffset yoffset I j i s).2 := by
  unfold pass2Reads
  split_ifs with hb
  · exact ⟨pass2BorderReads_inBounds n m xoffset yoffset hn hm hxo hyo i j hi hj,
      inBounds_nil _⟩
  · exact pass2InteriorReads_inBounds n m xoffset yoffset I i j s hb

/-! ## The access lists are complete -/

set_option maxHeartbeats 1000000 in
/-- The body of pass 1 depends on the raw vector only through the elements listed in
`pass1Reads`. -/
theorem pass1Pixel_reads (n m xoffset yoffset : Int) (I J : List ℚ) (j i : Int)
    (s : Channels)
    (h : ∀ e ∈ pass1Reads n m xoffset yoffset I j i, rd J e = rd I e) :
    pass1Pixel n m xoffset yoffset J j i s = pass1Pixel n m xoffset yoffset I j i s := by
  unfold pass1Reads at h
  unfold pass1Pixel
  by_cases hb : j ≤ 2 ∨ j ≥ m - 3 ∨ i ≤ 2 ∨ i ≥ n - 3
  · rw [if_pos hb] at h
    rw [if_pos hb, if_pos hb, h _ (List.mem_cons_self _ _)]
  · rw [if_neg hb] at h
    rw [if_neg hb, if_neg hb]
    have hg : ∀ e ∈ gradReads n i j, rd J e = rd I e :=
      fun e he => h e (List.mem_append_left _ he)
    have h1 := hg (i - 2 * n + n * j) (by simp [gradReads])
    have h2 := hg (i + n * j) (by simp [gradReads])
    have h3 := hg (i - n + n * j) (by simp [gradReads])
    have h4 := hg (i + n + n * j) (by simp [gradReads])
    have h5 := hg (i + 2 + n * j) (by simp [gradReads])
    have h6 := hg (i - 1 + n * j) (by simp [gradReads])
    have h7 := hg (i + 1 + n * j) (by simp [gradReads])
    have h8 := hg (i - 2 + n * j) (by simp [gradReads])
    have h9 := hg (i + 2 * n + n * j) (by simp [gradReads])
    simp only [gradN, gradE, gradW, gradS, greenSwitch, h1, h2, h3, h4, h5, h6, h7, h8, h9]

set_option maxHeartbeats 1000000 in
theorem borderRGGB_reads (n xoffset yoffset : Int) (I J : List ℚ) (j i : Int)
    (s t : Channels) (hR : t.R = s.R) (hB : t.B = s.B) (hk : t.k = s.k)
    (h : ∀ e ∈ borderRGGBReads n xoffset yoffset j i, rd J e = rd I e) :
    (borderRGGB n xoffset yoffset J j i t).R = (borderRGGB n xoffset yoffset I j i s).R
    ∧ (borderRGGB n xoffset yoffset J j i t).B = (borderRGGB n xoffset yoffset I j i s).B
    ∧ (borderRGGB n xoffset yoffset J j i t).k = (borderRGGB n xoffset yoffset I j i s).k
    ∧ ∃ g, (borderRGGB n xoffset yoffset J j i t).G = wr t.G s.k g
      ∧ (borderRGGB n xoffset yoffset I j i s).G = wr s.G s.k g := by
  have hy := Int.emod_two_eq (j + yoffset)
  have hx := Int.emod_two_eq (i + xoffset)
  unfold borderRGGBReads at h
  unfold borderRGGB
  split_ifs at h ⊢
  · rw [h _ (by simp), h _ (by simp), h _ (by simp)]
    simp only [Channels.setRGB, hR, hB, hk, true_and]
    exact ⟨_, rfl, rfl⟩
  · rw [h _ (by simp), h _ (by simp), h _ (by simp)]
    simp only [Channels.setRGB, hR, hB, hk, true_and]
    exact ⟨_, rfl, rfl⟩
  · rw [h _ (by simp), h _ (by simp), h _ (by simp)]
    simp only [Channels.setRGB, hR, hB, hk, true_and]
    exact ⟨_, rfl, rfl⟩
  · rw [h _ (by simp), h _ (by simp), h _ (by simp)]
    simp only [Channels.setRGB, hR, hB, hk, true_and]
    exact ⟨_, rfl, rfl⟩
  · exfalso
    omega

set_option maxHeartbeats 1000000 in
theorem borderGRBG_reads (n xoffset yoffset : Int) (I J : List ℚ) (j i : Int)
    (s t : Channels) (hR : t.R = s.R) (hB : t.B = s.B) (hk : t.k = s.k)
    (h : ∀ e ∈ borderGRBGReads n xoffset yoffset j i, rd J e = rd I e) :
    (borderGRBG n xoffset yoffset J j i t).R = (borderGRBG n xoffset yoffset I j i s).R
    ∧ (borderGRBG n xoffset yoffset J j i t).B = (borderGRBG n xoffset yoffset I j i s).B
    ∧ (borderGRBG n xoffset yoffset J j i t).k = (borderGRBG n xoffset yoffset I j i s).k
    ∧ ∃ g, (borderGRBG n xoffset yoffset J j i t).G = wr t.G s.k g
      ∧ (borderGRBG n xoffset yoffset I j i s).G = wr s.G s.k g := by
  have hy := Int.emod_two_eq (j + yoffset)
  have hx := Int.emod_two_eq (i + xoffset)
  unfold borderGRBGReads at h
  unfold borderGRBG
  split_ifs at h ⊢
  · rw [h _ (by simp), h _ (by simp), h _ (by simp)]
    simp only [Channels.setRGB, hR, hB, hk, true_and]
    exact ⟨_, rfl, rfl⟩
  · rw [h _ (by simp), h _ (by simp), h _ (by simp)]
    simp only [Channels.setRGB, hR, hB, hk, true_and]
    exact ⟨_, rfl, rfl⟩
  · rw [h _ (by simp), h _ (by simp), h _ (by simp)]
    simp only [Channels.setRGB, hR, hB, hk, true_and]
    exact ⟨_, rfl, rfl⟩
  · rw [h _ (by simp), h _ (by simp), h _ (by simp)]
    simp only [Channels.setRGB, hR, hB, hk, true_and]
    exact ⟨_, rfl, rfl⟩
  · exfalso
    omega

set_option maxHeartbeats 1000000 in
theorem borderGBRG_reads (n xoffset yoffset : Int) (I J : List ℚ) (j i : Int)
    (s t : Channels) (hR : t.R = s.R) (hB : t.B = s.B) (hk : t.k = s.k)
    (h : ∀ e ∈ borderGBRGReads n xoffset yoffset j i, rd J e = rd I e) :
    (borderGBRG n xoffset yoffset J j i t).R = (borderGBRG n xoffset yoffset I j i s).R
    ∧ (borderGBRG n xoffset yoffset J j i t).B = (borderGBRG n xoffset yoffset I j i s).B
    ∧ (borderGBRG n xoffset yoffset J j i t).k = (borderGBRG n xoffset yoffset I j i s).k
    ∧ ∃ g, (borderGBRG n xoffset yoffset J j i t).G = wr t.G s.k g
      ∧ (borderGBRG n xoffset yoffset I j i s).G = wr s.G s.k g := by
  have hy := Int.emod_two_eq (j + yoffset)
  have hx := Int.emod_two_eq (i + xoffset)
  unfold borderGBRGReads at h
  unfold borderGBRG
  split_ifs at h ⊢
  · rw [h _ (by simp), h _ (by simp), h _ (by simp)]
    simp only [Channels.setRGB, hR, hB, hk, true_and]
    exact ⟨_, rfl, rfl⟩
  · rw [h _ (by simp), h _ (by simp), h _ (by simp)]
    simp only [Channels.setRGB, hR, hB, hk, true_and]
    exact ⟨_, rfl, rfl⟩
  · rw [h _ (by simp), h _ (by simp), h _ (by simp)]
    simp only [Channels.setRGB, hR, hB, hk, true_and]
    exact ⟨_, rfl, rfl⟩
  · rw [h _ (by simp), h _ (by simp), h _ (by simp)]
    simp only [Channels.setRGB, hR, hB, hk, true_and]
    exact ⟨_, rfl, rfl⟩
  · exfalso
    omega

set_option maxHeartbeats 1000000 in
theorem borderBGGR_reads (n xoffset yoffset : Int) (I J : List ℚ) (j i : Int)
    (s t : Channels) (hR : t.R = s.R) (hB : t.B = s.B) (hk : t.k = s.k)
    (h : ∀ e ∈ borderBGGRReads n xoffset yoffset j i, rd J e = rd I e) :
    (borderBGGR n xoffset yoffset J j i t).R = (borderBGGR n xoffset yoffset I j i s).R
    ∧ (borderBGGR n xoffset yoffset J j i t).B = (borderBGGR n xoffset yoffset I j i s).B
    ∧ (borderBGGR n xoffset yoffset J j i t).k = (borderBGGR n xoffset yoffset I j i s).k
    ∧ ∃ g, (borderBGGR n xoffset yoffset J j i t).G = wr t.G s.k g
      ∧ (borderBGGR n xoffset yoffset I j i s).G = wr s.G s.k g := by
  have hy := Int.emod_two_eq (j + yoffset)
  have hx := Int.emod_two_eq (i + xoffset)
  unfold borderBGGRReads at h
  unfold borderBGGR
  split_ifs at h ⊢
  · rw [h _ (by simp), h _ (by simp), h _ (by simp)]
    simp only [Channels.setRGB, hR, hB, hk, true_and]
    exact ⟨_, rfl, rfl⟩
  · rw [h _ (by simp), h _ (by simp), h _ (by simp)]
    simp only [Channels.setRGB, hR, hB, hk, true_and]
    exact ⟨_, rfl, rfl⟩
  · rw [h _ (by simp), h _ (by simp), h _ (by simp)]
    simp only [Channels.setRGB, hR, hB, hk, true_and]
    exact ⟨_, rfl, rfl⟩
  · rw [h _ (by simp), h _ (by simp), h _ (by simp)]
    simp only [Channels.setRGB, hR, hB, hk, true_and]
    exact ⟨_, rfl, rfl⟩
  · exfalso
    omega

theorem pass2Border_reads (n xoffset yoffset : Int) (I J : List ℚ) (j i : Int)
    (s t : Channels) (hR : t.R = s.R) (hB : t.B = s.B) (hk : t.k = s.k)
    (h : ∀ e ∈ pass2BorderReads n xoffset yoffset j i, rd J e = rd I e) :
    (pass2Border n xoffset yoffset J j i t).R = (pass2Border n xoffset yoffset I j i s).R
    ∧ (pass2Border n xoffset yoffset J j i t).B
        = (pass2Border n xoffset yoffset I j i s).B
    ∧ (pass2Border n xoffset yoffset J j i t).k
        = (pass2Border n xoffset yoffset I j i s).k
    ∧ ∃ g, (pass2Border n xoffset yoffset J j i t).G = wr t.G s.k g
      ∧ (pass2Border n xoffset yoffset I j i s).G = wr s.G s.k g := by
  unfold pass2BorderReads at h
  unfold pass2Border
  split_ifs at h ⊢ with c1 c2 c3 c4
  · exact borderRGGB_reads n xoffset yoffset I J j i s t hR hB hk h
  · exact borderGRBG_reads n xoffset yoffset I J j i s t hR hB hk h
  · exact borderGBRG_reads n xoffset yoffset I J j i s t hR hB hk h
  · exact borderBGGR_reads n xoffset yoffset I J j i s t hR hB hk h
  · exfalso
    by_cases hx0 : xoffset = 0 <;> by_cases hy0 : yoffset = 0
    · exact c1 ⟨hx0, hy0⟩
    · exact c3 ⟨hx0, hy0⟩
    · exact c2 ⟨hx0, hy0⟩
    · exact c4 ⟨hx0, hy0⟩

set_option maxHeartbeats 2000000 in
theorem pass2Interior_reads (n xoffset yoffset : Int) (I J : List ℚ) (j i : Int)
    (s t : Channels) (hR : t.R = s.R) (hB : t.B = s.B) (hk : t.k = s.k)
    (hI : ∀ e ∈ (pass2InteriorReads n xoffset yoffset I j i s).1, rd J e = rd I e)
    (hG : ∀ e ∈ (pass2InteriorReads n xoffset yoffset I j i s).2, rd t.G e = rd s.G e) :
    (pass2Interior n xoffset yoffset J j i t).R
        = (pass2Interior n xoffset yoffset I j i s).R
    ∧ (pass2Interior n xoffset yoffset J j i t).B
        = (pass2Interior n xoffset yoffset I j i s).B
    ∧ (pass2Interior n xoffset yoffset J j i t).k
        = (pass2Interior n xoffset yoffset I j i s).k
    ∧ (pass2Interior n xoffset yoffset J j i t).G = t.G
    ∧ (pass2Interior n xoffset yoffset I j i s).G = s.G := by
  have dI : ∀ e ∈ diagReadsI n i j, rd J e = rd I e := by
    intro e he
    apply hI
    unfold pass2InteriorReads
    dsimp only
    split_ifs <;> exact List.mem_append_left _ he
  have dG : ∀ e ∈ diagReadsG n i j, rd t.G e = rd s.G e := by
    intro e he
    apply hG
    unfold pass2InteriorReads
    dsimp only
    split_ifs <;> exact List.mem_append_left _ he
  have a1 := dI (i - n + 1 + n * j) (by simp [diagReadsI])
  have a2 := dI (i + n - 1 + n * j) (by simp [diagReadsI])
  have a3 := dI (i - 2 * n + 2 + n * j) (by simp [diagReadsI])
  have a4 := dI (i + n * j) (by simp [diagReadsI])
  have a5 := dI (i + 2 * n - 2 + n * j) (by simp [diagReadsI])
  have a6 := dI (i - n - 1 + n * j) (by simp [diagReadsI])
  have a7 := dI (i + n + 1 + n * j) (by simp [diagReadsI])
  have a8 := dI (i - 2 - 2 * n + n * j) (by simp [diagReadsI])
  have a9 := dI (i + 2 + 2 * n + n * j) (by simp [diagReadsI])
  have g1 := dG (i - n + 1 + n * j) (by simp [diagReadsG])
  have g2 := dG (i + n * j) (by simp [diagReadsG])
  have g3 := dG (i + n - 1 + n * j) (by simp [diagReadsG])
  have g4 := dG (i - n - 1 + n * j) (by simp [diagReadsG])
  have g5 := dG (i + n + 1 + n * j) (by simp [diagReadsG])
  have eNE : gradNE n J t.G i j = gradNE n I s.G i j := by
    simp only [gradNE, a1, a2, a3, a4, a5, g1, g2, g3]
  have eNW : gradNW n J t.G i j = gradNW n I s.G i j := by
    simp only [gradNW, a6, a7, a8, a4, a9, g4, g2, g5]
  unfold pass2InteriorReads at hI hG
  unfold pass2Interior
  dsimp only at hI hG ⊢
  rw [eNE, eNW]
  by_cases c1 : (j + yoffset) % 2 = 0 ∧ (i + xoffset) % 2 = 0
  · simp only [if_pos c1, a1, a2, a6, a7, g1, g2, g3, g4, g5, hR, hB, hk]
    split_ifs <;> simp only [Channels.next, and_self]
  · by_cases c2 : (j + yoffset) % 2 = 1 ∧ (i + xoffset) % 2 = 0
    · rw [if_neg c1, if_pos c2] at hI hG
      have b1 := hI (i - n + n * j) (by simp)
      have b2 := hI (i + n + n * j) (by simp)
      have b3 := hI (i - 1 + n * j) (by simp)
      have b4 := hI (i + 1 + n * j) (by simp)
      have k1 := hG (i - n + n * j) (by simp)
      have k2 := hG (i + n + n * j) (by simp)
      have k3 := hG (i - 1 + n * j) (by simp)
      have k4 := hG (i + 1 + n * j) (by simp)
      simp only [if_neg c1, if_pos c2, a4, b1, b2, b3, b4, k1, k2, k3, k4, hR, hB, hk,
        Channels.next, and_self]
    · by_cases c3 : (j + yoffset) % 2 = 0 ∧ (i + xoffset) % 2 = 1
      · rw [if_neg c1, if_neg c2, if_pos c3] at hI hG
        have b1 := hI (i - n + n * j) (by simp)
        have b2 := hI (i + n + n * j) (by simp)
        have b3 := hI (i - 1 + n * j) (by simp)
        have b4 := hI (i + 1 + n * j) (by simp)
        have k1 := hG (i - n + n * j) (by simp)
        have k2 := hG (i + n + n * j) (by simp)
        have k3 := hG (i - 1 + n * j) (by simp)
        have k4 := hG (i + 1 + n * j) (by simp)
        simp only [if_neg c1, if_neg c2, if_pos c3, a4, b1, b2, b3, b4, k1, k2, k3, k4, hR,
          hB, hk, Channels.next, and_self]
      · by_cases c4 : (j + yoffset) % 2 = 1 ∧ (i + xoffset) % 2 = 1
        · simp only [if_neg c1, if_neg c2, if_neg c3, if_pos c4, a1, a2, a6, a7, g1, g2, g3,
            g4, g5, hR, hB, hk]
          split_ifs <;> simp only [Channels.next, and_self]
        · simp only [if_neg c1, if_neg c2, if_neg c3, if_neg c4, hR, hB, hk, and_self]

/-- The body of pass 2 depends on the raw vector and on the green channel only through the
elements listed in `pass2Reads`: with the same `R`, `B` and `k`, the same values are
written. -/
theorem pass2Pixel_reads (n m xoffset yoffset : Int) (I J : List ℚ) (j i : Int)
    (s t : Channels) (hR : t.R = s.R) (hB : t.B = s.B) (hk : t.k = s.k)
    (hI : ∀ e ∈ (pass2Reads n m xoffset yoffset I j i s).1, rd J e = rd I e)
    (hG : ∀ e ∈ (pass2Reads n m xoffset yoffset I j i s).2, rd t.G e = rd s.G e) :
    (pass2Pixel n m xoffset yoffset J j i t).R
        = (pass2Pixel n m xoffset yoffset I j i s).R
    ∧ (pass2Pixel n m xoffset yoffset J j i t).B
        = (pass2Pixel n m xoffset yoffset I j i s).B
    ∧ (pass2Pixel n m xoffset yoffset J j i t).k
        = (pass2Pixel n m xoffset yoffset I j i s).k
    ∧ ((∃ g, (pass2Pixel n m xoffset yoffset J j i t).G = wr t.G s.k g
        ∧ (pass2Pixel n m xoffset yoffset I j i s).G = wr s.G s.k g)
      ∨ ((pass2Pixel n m xoffset yoffset J j i t).G = t.G
        ∧ (pass2Pixel n m xoffset yoffset I j i s).G = s.G)) := by
  unfold pass2Reads at hI hG
  unfold pass2Pixel
  by_cases hb : j ≤ 2 ∨ j ≥ m - 3 ∨ i ≤ 2 ∨ i ≥ n - 3
  · rw [if_pos hb] at hI hG
    rw [if_pos hb, if_pos hb]
    obtain ⟨r1, r2, r3, r4⟩ := pass2Border_reads n xoffset yoffset I J j i s t hR hB hk hI
    exact ⟨r1, r2, by simp only [Channels.next, r3], Or.inl r4⟩
  · rw [if_neg hb] at hI hG
    rw [if_neg hb, if_neg hb]
    obtain ⟨r1, r2, r3, r4⟩ := pass2Interior_reads n xoffset yoffset I J j i s t hR hB hk
      hI hG
    exact ⟨r1, r2, r3, Or.inr r4⟩

/-- The accesses of the two passes on a grid of even width and height. -/
theorem ppg_accesses (n m : Nat) (xoffset yoffset : Int) (I R G B : List ℚ)
    (hn : n % 2 = 0) (hm : m % 2 = 0) (hxo : xoffset = 0 ∨ xoffset = 1)
    (hyo : yoffset = 0 ∨ yoffset = 1)
    (hR : R.length = n * m) (hG : G.length = n * m) (hB : B.length = n * m) :
    (pass1Trace n m xoffset yoffset I { R := R, G := G, B := B, k := 0 }).1
        = pass1 n m xoffset yoffset I { R := R, G := G, B := B, k := 0 }
    ∧ (pass2Trace n m xoffset yoffset I
          { pass1 n m xoffset yoffset I { R := R, G := G, B := B, k := 0 } with k := 0 }).1
        = ppg n m xoffset yoffset I R G B
    ∧ (pass1Trace n m xoffset yoffset I { R := R, G := G, B := B, k := 0 }).2.map
          (fun e => e.2.2.k) = List.range (n * m)
    ∧ (pass2Trace n m xoffset yoffset I
          { pass1 n m xoffset yoffset I { R := R, G := G, B := B, k := 0 } with k := 0 }).2.map
          (fun e => e.2.2.k) = List.range (n * m)
    ∧ (∀ e ∈ (pass1Trace n m xoffset yoffset I { R := R, G := G, B := B, k := 0 }).2,
        e.2.2.k = e.2.1 + n * e.1 ∧ e.2.2.k < n * m
        ∧ e.2.2.R.length = n * m ∧ e.2.2.G.length = n * m ∧ e.2.2.B.length = n * m
        ∧ InBounds (n * m) (pass1Reads n m xoffset yoffset I e.1 e.2.1))
    ∧ (∀ e ∈ (pass2Trace n m xoffset yoffset I
          { pass1 n m xoffset yoffset I { R := R, G := G, B := B, k := 0 } with k := 0 }).2,
        e.2.2.k = e.2.1 + n * e.1 ∧ e.2.2.k < n * m
        ∧ e.2.2.R.length = n * m ∧ e.2.2.G.length = n * m ∧ e.2.2.B.length = n * m
        ∧ InBounds (n * m) (pass2Reads n m xoffset yoffset I e.1 e.2.1 e.2.2).1
        ∧ InBounds (n * m) (pass2Reads n m xoffset yoffset I e.1 e.2.1 e.2.2).2) := by
  obtain ⟨a1, a2, a3⟩ := pass1_length n m xoffset yoffset I
    { R := R, G := G, B := B, k := 0 } rfl
  obtain ⟨s1, s2⟩ := rasterTrace_spec n m
    (fun j i s => pass1Pixel n m xoffset yoffset I j i s)
    (fun j i => pass1Pixel_writes n m xoffset yoffset I j i)
    { R := R, G := G, B := B, k := 0 } rfl
  obtain ⟨t1, t2⟩ := rasterTrace_spec n m
    (fun j i s => pass2Pixel n m xoffset yoffset I j i s)
    (fun j i => pass2Pixel_writes n m xoffset yoffset I j i)
    { pass1 n m xoffset yoffset I { R := R, G := G, B := B, k := 0 } with k := 0 } rfl
  refine ⟨rasterTrace_fst _ _ _ _, rasterTrace_fst _ _ _ _, s1, t1, ?_, ?_⟩
  · intro e he
    obtain ⟨b1, b2, b3, b4, b5, b6⟩ := s2 e he
    refine ⟨b3, ?_, b4.trans hR, b5.trans hG, b6.trans hB, ?_⟩
    · rw [b3]
      exact pixel_lt b2 b1
    · exact pass1Reads_inBounds n m xoffset yoffset I e.2.1 e.1 b2 b1
  · intro e he
    obtain ⟨b1, b2, b3, b4, b5, b6⟩ := t2 e he
    refine ⟨b3, ?_, b4.trans (a1.trans hR), b5.trans (a2.trans hG), b6.trans (a3.trans hB),
      pass2Reads_inBounds n m xoffset yoffset I hn hm hxo hyo e.2.1 e.1 b2 b1 e.2.2⟩
    rw [b3]
    exact pixel_lt b2 b1


/-- C15: for each of the four patterns and every grid of even width `n` and even height
`m` (sizes below 6 included), in the logged runs `T1` of pass 1 and `T2` of pass 2, which
end in the buffers `debayer` returns, the counter `k` runs through `0, ..., n*m - 1` and
at every pixel `(i,j)` equals `i + n*j`, which is below `n*m`, the size of `R`, `G` and
`B`; and every index at which the raw grid or the green channel is read lies in
`[0, n*m)`. -/
theorem debayer_in_bounds (c : Collab) (chip : Int)
    (image imageB imageG imageR : MyImage)
    (hs : image.successProcessing = true)
    (hp : image.bayer = "RGGB" ∨ image.bayer = "GRBG" ∨ image.bayer = "GBRG"
      ∨ image.bayer = "BGGR")
    (hw : image.naxis1 % 2 = 0) (hh : image.naxis2 % 2 = 0) :
    ∃ T1 T2 : Channels × List (Nat × Nat × Channels),
      T1 = pass1Trace image.naxis1 image.naxis2 (bayerOffsets image.bayer).1
          (bayerOffsets image.bayer).2 image.dataCurrent
          { R := resize imageR.dataCurrent (image.naxis1 * image.naxis2),
            G := resize imageG.dataCurrent (image.naxis1 * image.naxis2),
            B := resize imageB.dataCurrent (image.naxis1 * image.naxis2), k := 0 }
      ∧ T2 = pass2Trace image.naxis1 image.naxis2 (bayerOffsets image.bayer).1
          (bayerOffsets image.bayer).2 image.dataCurrent { T1.1 with k := 0 }
      ∧ T2.1.R = (debayer c chip image imageB imageG imageR).imageR.dataCurrent
      ∧ T2.1.G = (debayer c chip image imageB imageG imageR).imageG.dataCurrent
      ∧ T2.1.B = (debayer c chip image imageB imageG imageR).imageB.dataCurrent
      ∧ T1.2.map (fun e => e.2.2.k) = List.range (image.naxis1 * image.naxis2)
      ∧ T2.2.map (fun e => e.2.2.k) = List.range (image.naxis1 * image.naxis2)
      ∧ (∀ e ∈ T1.2,
          e.2.2.k = e.2.1 + image.naxis1 * e.1 ∧ e.2.2.k < image.naxis1 * image.naxis2
          ∧ e.2.2.R.length = image.naxis1 * image.naxis2
          ∧ e.2.2.G.length = image.naxis1 * image.naxis2
          ∧ e.2.2.B.length = image.naxis1 * image.naxis2
          ∧ InBounds (image.naxis1 * image.naxis2)
              (pass1Reads image.naxis1 image.naxis2 (bayerOffsets image.bayer).1
                (bayerOffsets image.bayer).2 image.dataCurrent e.1 e.2.1))
      ∧ (∀ e ∈ T2.2,
          e.2.2.k = e.2.1 + image.naxis1 * e.1 ∧ e.2.2.k < image.naxis1 * image.naxis2
          ∧ e.2.2.R.length = image.naxis1 * image.naxis2
          ∧ e.2.2.G.length = image.naxis1 * image.naxis2
          ∧ e.2.2.B.length = image.naxis1 * image.naxis2
          ∧ InBounds (image.naxis1 * image.naxis2)
              (pass2Reads image.naxis1 image.naxis2 (bayerOffsets image.bayer).1
                (bayerOffsets image.bayer).2 image.dataCurrent e.1 e.2.1 e.2.2).1
          ∧ InBounds (image.naxis1 * image.naxis2)
              (pass2Reads image.naxis1 image.naxis2 (bayerOffsets image.bayer).1
                (bayerOffsets image.bayer).2 image.dataCurrent e.1 e.2.1 e.2.2).2) := by
  obtain ⟨e1, e2, e3⟩ := debayer_channels c chip image imageB imageG imageR hs hp hw hh
  obtain ⟨o1, o2⟩ := bayerOffsets_range image.bayer
  obtain ⟨q1, q2, q3, q4, q5, q6⟩ := ppg_accesses image.naxis1 image.naxis2
    (bayerOffsets image.bayer).1 (bayerOffsets image.bayer).2 image.dataCurrent
    (resize imageR.dataCurrent (image.naxis1 * image.naxis2))
    (resize imageG.dataCurrent (image.naxis1 * image.naxis2))
    (resize imageB.dataCurrent (image.naxis1 * image.naxis2))
    hw hh o1 o2 (length_resize _ _) (length_resize _ _) (length_resize _ _)
  refine ⟨_, _, rfl, rfl, ?_, ?_, ?_, q3, ?_, q5, ?_⟩
  · rw [e1, q1, q2]
  · rw [e2, q1, q2]
  · rw [e3, q1, q2]
  · rw [q1]
    exact q4
  · rw [q1]
    exact q6

/-- Instance of C15: a 4 x 4 grid, all of whose pixels are border, with tag GBRG. -/
theorem debayer_in_bounds_witness :
    ∃ T1 T2 : Channels × List (Nat × Nat × Channels),
      T1 = pass1Trace 4 4 0 1 (grid4 1 2 3 4)
          { R := resize [] (4 * 4), G := resize [] (4 * 4), B := resize [] (4 * 4), k := 0 }
      ∧ T2 = pass2Trace 4 4 0 1 (grid4 1 2 3 4) { T1.1 with k := 0 }
      ∧ T2.1.R = (debayer noCollab 0 (rawImage "GBRG" 4 4 (grid4 1 2 3 4)) blankImage
          blankImage blankImage).imageR.dataCurrent
      ∧ T2.1.G = (debayer noCollab 0 (rawImage "GBRG" 4 4 (grid4 1 2 3 4)) blankImage
          blankImage blankImage).imageG.dataCurrent
      ∧ T2.1.B = (debayer noCollab 0 (rawImage "GBRG" 4 4 (grid4 1 2 3 4)) blankImage
          blankImage blankImage).imageB.dataCurrent
      ∧ T1.2.map (fun e => e.2.2.k) = List.range (4 * 4)
      ∧ T2.2.map (fun e => e.2.2.k) = List.range (4 * 4)
      ∧ (∀ e ∈ T1.2,
          e.2.2.k = e.2.1 + 4 * e.1 ∧ e.2.2.k < 4 * 4
          ∧ e.2.2.R.length = 4 * 4 ∧ e.2.2.G.length = 4 * 4 ∧ e.2.2.B.length = 4 * 4
          ∧ InBounds (4 * 4) (pass1Reads 4 4 0 1 (grid4 1 2 3 4) e.1 e.2.1))
      ∧ (∀ e ∈ T2.2,
          e.2.2.k = e.2.1 + 4 * e.1 ∧ e.2.2.k < 4 * 4
          ∧ e.2.2.R.length = 4 * 4 ∧ e.2.2.G.length = 4 * 4 ∧ e.2.2.B.length = 4 * 4
          ∧ InBounds (4 * 4) (pass2Reads 4 4 0 1 (grid4 1 2 3 4) e.1 e.2.1 e.2.2).1
          ∧ InBounds (4 * 4) (pass2Reads 4 4 0 1 (grid4 1 2 3 4) e.1 e.2.1 e.2.2).2) :=
  debayer_in_bounds noCollab 0 (rawImage "GBRG" 4 4 (grid4 1 2 3 4)) blankImage blankImage
    blankImage rfl (Or.inr (Or.inr (Or.inl rfl))) (by decide) (by decide)

/-! ## Pass 2 and the order of the pixels -/

/-- What the snapshot version of pass 2 leaves at pixel `(i,j)`. -/
theorem pass2Snapshot_px (n m : Nat) (xoffset yoffset : Int) (I : List ℚ) (s : Channels)
    (i j : Nat) (hi : i < n) (hj : j < m) :
    (pass2Snapshot n m xoffset yoffset I s).px ((i + n * j : Nat) : Int)
      = (pass2Pixel n m xoffset yoffset I j i { s with k := i + n * j }).px
          ((i + n * j : Nat) : Int) := by
  have hp : i + n * j < n * m := pixel_lt hi hj
  have h1 : (i + n * j) % n = i := by
    rw [Nat.add_mul_mod_self_left]
    exact Nat.mod_eq_of_lt hi
  have h2 : (i + n * j) / n = j := by
    rw [Nat.add_mul_div_left _ _ (by omega), Nat.div_eq_of_lt hi, zero_add]
  rw [px_eq_iff]
  unfold pass2Snapshot
  simp only [rd_nat, List.getD_eq_getElem?_getD, List.getElem?_map, List.getElem?_range hp,
    Option.map_some', Option.getD_some, h1, h2, Channels.px]
  exact ⟨trivial, trivial, trivial⟩

/-- Pass 2 does not change the green channel at an interior pixel. -/
theorem pass2_interior_G (n m : Nat) (xoffset yoffset : Int) (I : List ℚ) (s0 : Channels)
    (h0 : s0.k = 0) (hR : s0.R.length = n * m) (hG : s0.G.length = n * m)
    (hB : s0.B.length = n * m) (i j : Nat) (hi : i < n) (hj : j < m)
    (hint : ¬ ((j : Int) ≤ 2 ∨ (j : Int) ≥ (m : Int) - 3 ∨ (i : Int) ≤ 2
      ∨ (i : Int) ≥ (n : Int) - 3)) :
    rd (pass2 n m xoffset yoffset I s0).G ((i + n * j : Nat) : Int)
      = rd s0.G ((i + n * j : Nat) : Int) := by
  obtain ⟨b1, b2, b3⟩ := pass2_length n m xoffset yoffset I s0 h0
  have h := pass2_px n m xoffset yoffset I s0 h0 hR hG hB i j hi hj
  rw [((px_eq_iff _ _ _).mp h).2.1]
  unfold pass2Pixel
  rw [if_neg hint, (pass2Interior_native n xoffset yoffset I i j _).2.2]
  dsimp only
  rw [rd_greenSeen _ _ _ b2, if_neg (lt_irrefl _)]

/-- The green channel pass 2 sees at pixel `p` agrees with the one it started from at
every index not yet visited and at every interior pixel. -/
theorem greenSeen_same (n m : Nat) (xoffset yoffset : Int) (I : List ℚ) (s0 : Channels)
    (h0 : s0.k = 0) (hR : s0.R.length = n * m) (hG : s0.G.length = n * m)
    (hB : s0.B.length = n * m) (p : Nat) (e : Int)
    (h : (p : Int) ≤ e ∨ ∃ x y : Nat, (3 ≤ x ∧ x + 4 ≤ n ∧ 3 ≤ y ∧ y + 4 ≤ m)
      ∧ e = ((x + n * y : Nat) : Int)) :
    rd (greenSeen p (pass2 n m xoffset yoffset I s0).G s0.G) e = rd s0.G e := by
  obtain ⟨b1, b2, b3⟩ := pass2_length n m xoffset yoffset I s0 h0
  rcases h with h | ⟨x, y, hxy, rfl⟩
  · lift e to ℕ using (by omega)
    rw [rd_greenSeen _ _ _ b2, if_neg (by omega)]
  · rw [rd_greenSeen _ _ _ b2]
    split_ifs
    · exact pass2_interior_G n m xoffset yoffset I s0 h0 hR hG hB x y (by omega) (by omega)
        (by omega)
    · rfl

set_option maxHeartbeats 2000000 in
/-- At a pixel with `4 <= i <= n-5` and `4 <= j <= m-4` every green element the interior
branch reads belongs to a pixel not yet visited or to an interior pixel. -/
theorem deep_reads (n m : Nat) (xoffset yoffset : Int) (I : List ℚ) (t : Channels)
    (i j : Nat) (hi : 4 ≤ i) (hi' : i + 5 ≤ n) (hj : 4 ≤ j) (hj' : j + 4 ≤ m)
    (e : Int) (he : e ∈ (pass2Reads n m xoffset yoffset I j i t).2) :
    ((i + n * j : Nat) : Int) ≤ e ∨ ∃ x y : Nat, (3 ≤ x ∧ x + 4 ≤ n ∧ 3 ≤ y ∧ y + 4 ≤ m)
      ∧ e = ((x + n * y : Nat) : Int) := by
  obtain ⟨i', rfl⟩ : ∃ i', i = i' + 1 := ⟨i - 1, by omega⟩
  obtain ⟨j', rfl⟩ : ∃ j', j = j' + 1 := ⟨j - 1, by omega⟩
  have hint : ¬ (((j' + 1 : Nat) : Int) ≤ 2 ∨ ((j' + 1 : Nat) : Int) ≥ (m : Int) - 3
      ∨ ((i' + 1 : Nat) : Int) ≤ 2 ∨ ((i' + 1 : Nat) : Int) ≥ (n : Int) - 3) := by omega
  have key : ∀ (e' : Int) (x y : Nat), 3 ≤ x ∧ x + 4 ≤ n ∧ 3 ≤ y ∧ y + 4 ≤ m →
      e' = (x : Int) + (n : Int) * y →
      (((i' + 1 + n * (j' + 1) : Nat) : Int) ≤ e' ∨ ∃ x y : Nat,
        (3 ≤ x ∧ x + 4 ≤ n ∧ 3 ≤ y ∧ y + 4 ≤ m) ∧ e' = ((x + n * y : Nat) : Int)) := by
    intro e' x y hxy hexy
    exact Or.inr ⟨x, y, hxy, by rw [hexy]; push_cast; ring⟩
  unfold pass2Reads at he
  rw [if_neg hint] at he
  unfold pass2InteriorReads diagReadsG at he
  dsimp only at he
  split_ifs at he <;>
    simp only [List.mem_append, List.mem_cons, List.mem_singleton, List.not_mem_nil,
      or_false] at he <;>
    rcases he with he | he <;>
    (try rcases he with he | he | he | he | he | he | he | he) <;>
    (try rcases he with he | he | he | he) <;>
    first
      | (left; push_cast; omega)
      | exact key _ i' j' (by omega) (by push_cast; ring1)
      | exact key _ (i' + 1) j' (by omega) (by push_cast; ring1)
      | exact key _ (i' + 2) j' (by omega) (by push_cast; ring1)
      | exact key _ i' (j' + 1) (by omega) (by push_cast; ring1)

/-- Pass 2 as coded and pass 2 computed from a snapshot agree at the pixels of the
3-pixel margin and at the pixels with `4 <= i <= n-5` and `4 <= j <= m-4`. -/
theorem pass2_eq_snapshot_px (n m : Nat) (xoffset yoffset : Int) (I : List ℚ)
    (s0 : Channels) (h0 : s0.k = 0) (hR : s0.R.length = n * m) (hG : s0.G.length = n * m)
    (hB : s0.B.length = n * m) (i j : Nat) (hi : i < n) (hj : j < m)
    (hreg : ((j : Int) ≤ 2 ∨ (j : Int) ≥ (m : Int) - 3 ∨ (i : Int) ≤ 2
        ∨ (i : Int) ≥ (n : Int) - 3)
      ∨ (4 ≤ i ∧ i + 5 ≤ n ∧ 4 ≤ j ∧ j + 4 ≤ m)) :
    (pass2 n m xoffset yoffset I s0).px ((i + n * j : Nat) : Int)
      = (pass2Snapshot n m xoffset yoffset I s0).px ((i + n * j : Nat) : Int) := by
  have hp : i + n * j < n * m := pixel_lt hi hj
  obtain ⟨b1, b2, b3⟩ := pass2_length n m xoffset yoffset I s0 h0
  have lS : (greenSeen (i + n * j) (pass2 n m xoffset yoffset I s0).G s0.G).length
      = n * m := by
    rw [length_greenSeen _ _ _ b2 (by omega)]
    omega
  have hGr : ∀ e ∈ (pass2Reads n m xoffset yoffset I j i { s0 with k := i + n * j }).2,
      rd (greenSeen (i + n * j) (pass2 n m xoffset yoffset I s0).G s0.G) e = rd s0.G e := by
    intro e he
    rcases hreg with hb | ⟨r1, r2, r3, r4⟩
    · unfold pass2Reads at he
      rw [if_pos hb] at he
      exact absurd he (List.not_mem_nil e)
    · exact greenSeen_same n m xoffset yoffset I s0 h0 hR hG hB (i + n * j) e
        (deep_reads n m xoffset yoffset I _ i j r1 r2 r3 r4 e he)
  obtain ⟨q1, q2, _, q4⟩ := pass2Pixel_reads n m xoffset yoffset I I j i
    { s0 with k := i + n * j }
    { R := s0.R, G := greenSeen (i + n * j) (pass2 n m xoffset yoffset I s0).G s0.G,
      B := s0.B, k := i + n * j } rfl rfl rfl (fun _ _ => rfl) hGr
  rw [pass2_px n m xoffset yoffset I s0 h0 hR hG hB i j hi hj,
    pass2Snapshot_px n m xoffset yoffset I s0 i j hi hj, px_eq_iff, q1, q2]
  refine ⟨rfl, ?_, rfl⟩
  rcases q4 with ⟨g, g1, g2⟩ | ⟨g1, g2⟩
  · rw [g1, g2]
    dsimp only
    rw [rd_wr_same _ _ _ (by omega), rd_wr_same _ _ _ (by omega)]
  · rw [g1, g2]
    dsimp only
    rw [rd_greenSeen _ _ _ b2, if_neg (lt_irrefl _)]

/-- The green channel of pass 2 as coded and of pass 2 computed from a snapshot agree at
every pixel. -/
theorem pass2_eq_snapshot_G (n m : Nat) (xoffset yoffset : Int) (I : List ℚ)
    (s0 : Channels) (h0 : s0.k = 0) (hR : s0.R.length = n * m) (hG : s0.G.length = n * m)
    (hB : s0.B.length = n * m) (i j : Nat) (hi : i < n) (hj : j < m) :
    rd (pass2 n m xoffset yoffset I s0).G ((i + n * j : Nat) : Int)
      = rd (pass2Snapshot n m xoffset yoffset I s0).G ((i + n * j : Nat) : Int) := by
  by_cases hb : (j : Int) ≤ 2 ∨ (j : Int) ≥ (m : Int) - 3 ∨ (i : Int) ≤ 2
      ∨ (i : Int) ≥ (n : Int) - 3
  · exact ((px_eq_iff _ _ _).mp (pass2_eq_snapshot_px n m xoffset yoffset I s0 h0 hR hG hB
      i j hi hj (Or.inl hb))).2.1
  · rw [pass2_interior_G n m xoffset yoffset I s0 h0 hR hG hB i j hi hj hb,
      ((px_eq_iff _ _ _).mp (pass2Snapshot_px n m xoffset yoffset I s0 i j hi hj)).2.1]
    unfold pass2Pixel
    rw [if_neg hb, (pass2Interior_native n xoffset yoffset I i j _).2.2]

/-- Counterexample to C18 as stated.  Input: tag RGGB, 8 x 8, all samples 0 except
`raw(2,4) = 4`.  The interior green site `(3,4)` (index 35) takes its red from
`hue_transit(G[34], I[35], G[36], I[34], I[36])`.  Pixel `(2,4)` is a red site of the
margin: pass 1 leaves `G[34] = I[34] = 4` and the border branch of pass 2, which visits it
just before `(3,4)`, overwrites it with `I[35] = 0`.  So `debayer`, whose red buffer is the
one of pass 2 run in place after pass 1, returns `R[35] = hue_transit(0,0,0,4,0) = 2`,
while pass 2 computed at every pixel from the green channel as pass 1 left it gives
`R[35] = hue_transit(4,0,0,4,0) = 1`: the two red channels differ. -/
theorem pass2_order_counterexample :
    (debayer noCollab 0 (rawImage "RGGB" 8 8 spike64) blankImage blankImage
        blankImage).imageR.dataCurrent
      = (pass2 8 8 0 0 spike64
          { pass1 8 8 0 0 spike64
              { R := resize [] 64, G := resize [] 64, B := resize [] 64, k := 0 }
            with k := 0 }).R
    ∧ rd (pass2 8 8 0 0 spike64
          { pass1 8 8 0 0 spike64
              { R := resize [] 64, G := resize [] 64, B := resize [] 64, k := 0 }
            with k := 0 }).R 35 = 2
    ∧ rd (pass2Snapshot 8 8 0 0 spike64
          { pass1 8 8 0 0 spike64
              { R := resize [] 64, G := resize [] 64, B := resize [] 64, k := 0 }
            with k := 0 }).R 35 = 1
    ∧ (pass2 8 8 0 0 spike64
          { pass1 8 8 0 0 spike64
              { R := resize [] 64, G := resize [] 64, B := resize [] 64, k := 0 }
            with k := 0 }).R
      ≠ (pass2Snapshot 8 8 0 0 spike64
          { pass1 8 8 0 0 spike64
              { R := resize [] 64, G := resize [] 64, B := resize [] 64, k := 0 }
            with k := 0 }).R
    ∧ rd (pass1 8 8 0 0 spike64
          { R := resize [] 64, G := resize [] 64, B := resize [] 64, k := 0 }).G 34 = 4
    ∧ rd (debayer noCollab 0 (rawImage "RGGB" 8 8 spike64) blankImage blankImage
        blankImage).imageG.dataCurrent 34 = 0 := by
  decide!

/-- C18, amended: for every pattern and every even-sized grid, with `s1` the buffers at
the end of pass 1, the channels `debayer` returns are those of pass 2 run in place on
`s1`; their green channel equals, at every pixel, the one obtained when every pixel of
pass 2 is computed from the raw grid and the snapshot `s1`; and so do their red and blue
channels at every pixel of the 3-pixel margin and at every pixel with `4 <= i <= n-5` and
`4 <= j <= m-4`. -/
theorem debayer_pass2_snapshot (c : Collab) (chip : Int)
    (image imageB imageG imageR : MyImage)
    (hs : image.successProcessing = true)
    (hp : image.bayer = "RGGB" ∨ image.bayer = "GRBG" ∨ image.bayer = "GBRG"
      ∨ image.bayer = "BGGR")
    (hw : image.naxis1 % 2 = 0) (hh : image.naxis2 % 2 = 0) :
    ∃ s1 : Channels,
      s1 = { pass1 image.naxis1 image.naxis2 (bayerOffsets image.bayer).1
              (bayerOffsets image.bayer).2 image.dataCurrent
              { R := resize imageR.dataCurrent (image.naxis1 * image.naxis2),
                G := resize imageG.dataCurrent (image.naxis1 * image.naxis2),
                B := resize imageB.dataCurrent (image.naxis1 * image.naxis2), k := 0 }
            with k := 0 }
      ∧ (debayer c chip image imageB imageG imageR).imageR.dataCurrent
          = (pass2 image.naxis1 image.naxis2 (bayerOffsets image.bayer).1
              (bayerOffsets image.bayer).2 image.dataCurrent s1).R
      ∧ (debayer c chip image imageB imageG imageR).imageG.dataCurrent
          = (pass2 image.naxis1 image.naxis2 (bayerOffsets image.bayer).1
              (bayerOffsets image.bayer).2 image.dataCurrent s1).G
      ∧ (debayer c chip image imageB imageG imageR).imageB.dataCurrent
          = (pass2 image.naxis1 image.naxis2 (bayerOffsets image.bayer).1
              (bayerOffsets image.bayer).2 image.dataCurrent s1).B
      ∧ ∀ i j : Nat, i < image.naxis1 → j < image.naxis2 →
        rd (pass2 image.naxis1 image.naxis2 (bayerOffsets image.bayer).1
              (bayerOffsets image.bayer).2 image.dataCurrent s1).G
            ((i + image.naxis1 * j : Nat) : Int)
          = rd (pass2Snapshot image.naxis1 image.naxis2 (bayerOffsets image.bayer).1
              (bayerOffsets image.bayer).2 image.dataCurrent s1).G
            ((i + image.naxis1 * j : Nat) : Int)
        ∧ ((((j : Int) ≤ 2 ∨ (j : Int) ≥ (image.naxis2 : Int) - 3 ∨ (i : Int) ≤ 2
              ∨ (i : Int) ≥ (image.naxis1 : Int) - 3)
            ∨ (4 ≤ i ∧ i + 5 ≤ image.naxis1 ∧ 4 ≤ j ∧ j + 4 ≤ image.naxis2)) →
          (pass2 image.naxis1 image.naxis2 (bayerOffsets image.bayer).1
              (bayerOffsets image.bayer).2 image.dataCurrent s1).px
            ((i + image.naxis1 * j : Nat) : Int)
          = (pass2Snapshot image.naxis1 image.naxis2 (bayerOffsets image.bayer).1
              (bayerOffsets image.bayer).2 image.dataCurrent s1).px
            ((i + image.naxis1 * j : Nat) : Int)) := by
  obtain ⟨e1, e2, e3⟩ := debayer_channels c chip image imageB imageG imageR hs hp hw hh
  obtain ⟨a1, a2, a3⟩ := pass1_length image.naxis1 image.naxis2 (bayerOffsets image.bayer).1
    (bayerOffsets image.bayer).2 image.dataCurrent
    { R := resize imageR.dataCurrent (image.naxis1 * image.naxis2),
      G := resize imageG.dataCurrent (image.naxis1 * image.naxis2),
      B := resize imageB.dataCurrent (image.naxis1 * image.naxis2), k := 0 } rfl
  refine ⟨_, rfl, e1, e2, e3, fun i j hi hj => ⟨?_, fun hreg => ?_⟩⟩
  · exact pass2_eq_snapshot_G image.naxis1 image.naxis2 (bayerOffsets image.bayer).1
      (bayerOffsets image.bayer).2 image.dataCurrent
      { pass1 image.naxis1 image.naxis2 (bayerOffsets image.bayer).1
        (bayerOffsets image.bayer).2 image.dataCurrent
        { R := resize imageR.dataCurrent (image.naxis1 * image.naxis2),
          G := resize imageG.dataCurrent (image.naxis1 * image.naxis2),
          B := resize imageB.dataCurrent (image.naxis1 * image.naxis2), k := 0 }
      with k := 0 }
      rfl (a1.trans (length_resize _ _)) (a2.trans (length_resize _ _))
      (a3.trans (length_resize _ _)) i j hi hj
  · exact pass2_eq_snapshot_px image.naxis1 image.naxis2 (bayerOffsets image.bayer).1
      (bayerOffsets image.bayer).2 image.dataCurrent
      { pass1 image.naxis1 image.naxis2 (bayerOffsets image.bayer).1
        (bayerOffsets image.bayer).2 image.dataCurrent
        { R := resize imageR.dataCurrent (image.naxis1 * image.naxis2),
          G := resize imageG.dataCurrent (image.naxis1 * image.naxis2),
          B := resize imageB.dataCurrent (image.naxis1 * image.naxis2), k := 0 }
      with k := 0 }
      rfl (a1.trans (length_resize _ _)) (a2.trans (length_resize _ _))
      (a3.trans (length_resize _ _)) i j hi hj hreg

/-- Instance of the amended C18: the pixel `(4,5)` of a 10x10 ramp with tag BGGR. -/
theorem debayer_pass2_snapshot_witness :
    (rawImage "BGGR" 10 10 (rampGrid 10 10 1 2 3)).successProcessing = true
    ∧ (pass2 10 10 1 1 (rampGrid 10 10 1 2 3)
          { pass1 10 10 1 1 (rampGrid 10 10 1 2 3)
              { R := resize [] (10 * 10), G := resize [] (10 * 10),
                B := resize [] (10 * 10), k := 0 }
            with k := 0 }).px ((4 + 10 * 5 : Nat) : Int)
        = (pass2Snapshot 10 10 1 1 (rampGrid 10 10 1 2 3)
          { pass1 10 10 1 1 (rampGrid 10 10 1 2 3)
              { R := resize [] (10 * 10), G := resize [] (10 * 10),
                B := resize [] (10 * 10), k := 0 }
            with k := 0 }).px ((4 + 10 * 5 : Nat) : Int) := by
  obtain ⟨s1, h1, _, _, _, h⟩ := debayer_pass2_snapshot noCollab 0
    (rawImage "BGGR" 10 10 (rampGrid 10 10 1 2 3)) blankImage blankImage blankImage rfl
    (Or.inr (Or.inr (Or.inr rfl))) (by decide) (by decide)
  subst h1
  exact ⟨rfl, (h 4 5 (by decide) (by decide)).2
    (Or.inr ⟨by decide, by decide, by decide, by decide⟩)⟩

/-! ## `hue_transit` stays between the two colour samples -/

/-- C23: for all `l1`, `l2`, `l3`, `v1`, `v3` with `l1<l2<l3` or `l1>l2>l3`, the divisor
`l3-l1` of `hue_transit` is nonzero, the result is the interpolation
`v1+(v3-v1)*(l2-l1)/(l3-l1)`, and it lies between `min(v1,v3)` and `max(v1,v3)`. -/
theorem hue_transit_no_overshoot (l1 l2 l3 v1 v3 : ℚ)
    (h : (l1 < l2 ∧ l2 < l3) ∨ (l1 > l2 ∧ l2 > l3)) :
    l3 - l1 ≠ 0
    ∧ hue_transit l1 l2 l3 v1 v3 = v1 + (v3 - v1) * (l2 - l1) / (l3 - l1)
    ∧ min v1 v3 ≤ hue_transit l1 l2 l3 v1 v3
    ∧ hue_transit l1 l2 l3 v1 v3 ≤ max v1 v3 := by
  have hne : l3 - l1 ≠ 0 := by
    rcases h with ⟨h1, h2⟩ | ⟨h1, h2⟩
    · linarith
    · intro h0
      linarith
  have ht : 0 < (l2 - l1) / (l3 - l1) ∧ (l2 - l1) / (l3 - l1) < 1 := by
    rcases h with ⟨h1, h2⟩ | ⟨h1, h2⟩
    · have hd : 0 < l3 - l1 := by linarith
      exact ⟨div_pos (by linarith) hd, (div_lt_one hd).mpr (by linarith)⟩
    · have hd : l3 - l1 < 0 := by linarith
      exact ⟨div_pos_of_neg_of_neg (by linarith) hd, (div_lt_one_of_neg hd).mpr (by linarith)⟩
  have hv : hue_transit l1 l2 l3 v1 v3 = v1 + (v3 - v1) * ((l2 - l1) / (l3 - l1)) := by
    unfold hue_transit
    rw [if_pos h, mul_div_assoc]
  refine ⟨hne, ?_, ?_, ?_⟩
  · rw [hv, mul_div_assoc]
  · rw [hv]
    rcases le_total v1 v3 with hle | hle
    · rw [min_eq_left hle]
      nlinarith [ht.1, ht.2]
    · rw [min_eq_right hle]
      nlinarith [ht.1, ht.2]
  · rw [hv]
    rcases le_total v1 v3 with hle | hle
    · rw [max_eq_right hle]
      nlinarith [ht.1, ht.2]
    · rw [max_eq_left hle]
      nlinarith [ht.1, ht.2]

/-- Instance of C23: `hue_transit(1,2,4,3,9) = 5` lies between 3 and 9. -/
theorem hue_transit_no_overshoot_witness :
    (((1 : ℚ) < 2 ∧ (2 : ℚ) < 4) ∨ ((1 : ℚ) > 2 ∧ (2 : ℚ) > 4))
    ∧ ((4 : ℚ) - 1 ≠ 0
      ∧ hue_transit 1 2 4 3 9 = 3 + (9 - 3) * (2 - 1) / (4 - 1)
      ∧ min (3 : ℚ) 9 ≤ hue_transit 1 2 4 3 9
      ∧ hue_transit 1 2 4 3 9 ≤ max (3 : ℚ) 9) :=
  ⟨Or.inl ⟨by norm_num, by norm_num⟩,
    hue_transit_no_overshoot 1 2 4 3 9 (Or.inl ⟨by norm_num, by norm_num⟩)⟩

/-! ## `direction` and the smallest gradient -/

/-- C21 fails on the code: `direction(0,1,5,2)` is 2, so the gradient selected is `E = 1`
although `N = 0` is smaller; `N < E` holds but `W < S` does not, and the `else` branch
compares only `E` with `S`.  These gradients occur at the red site `(4,4)` of the RGGB grid
`edge64`, where `debayer` interpolates green towards the east, `(3*1 + 0 + 0 - 0)/4`,
whereas the case 1 of the `switch`, the direction of the smallest gradient, gives 0. -/
theorem direction_not_smallest :
    direction 0 1 5 2 = 2
    ∧ selectedGradient 0 1 5 2 (direction 0 1 5 2) = 1
    ∧ ¬ (selectedGradient 0 1 5 2 (direction 0 1 5 2) ≤ 0)
    ∧ (gradN 8 edge64 4 4 = 0 ∧ gradE 8 edge64 4 4 = 1 ∧ gradW 8 edge64 4 4 = 5
      ∧ gradS 8 edge64 4 4 = 2)
    ∧ rd (debayer noCollab 0 (rawImage "RGGB" 8 8 edge64) blankImage blankImage
        blankImage).imageG.dataCurrent 36 = 3 / 4
    ∧ greenSwitch 8 edge64 4 4 1 = some 0 := by
  decide!

/-- Where the two comparisons `N < E` and `W < S` agree, `direction` does select a smallest
gradient. -/
theorem direction_smallest_of_agree (N E W S : ℚ)
    (h : (N < E ∧ W < S) ∨ (E ≤ N ∧ S ≤ W)) :
    selectedGradient N E W S (direction N E W S) ≤ N
    ∧ selectedGradient N E W S (direction N E W S) ≤ E
    ∧ selectedGradient N E W S (direction N E W S) ≤ W
    ∧ selectedGradient N E W S (direction N E W S) ≤ S := by
  unfold direction
  rcases h with ⟨h1, h2⟩ | ⟨h1, h2⟩
  · rw [if_pos ⟨h1, h2⟩]
    split_ifs with h3
    · simp only [selectedGradient, if_true]
      exact ⟨le_refl _, h1.le, h3.le, by linarith⟩
    · have e3 : selectedGradient N E W S 3 = W := by
        simp [selectedGradient]
      rw [e3]
      exact ⟨not_lt.mp h3, by linarith [not_lt.mp h3], le_refl _, h2.le⟩
  · rw [if_neg (fun hc => absurd hc.1 (not_lt.mpr h1))]
    split_ifs with h3
    · have e2 : selectedGradient N E W S 2 = E := by
        simp [selectedGradient]
      rw [e2]
      exact ⟨h1, le_refl _, by linarith, h3.le⟩
    · have e4 : selectedGradient N E W S 4 = S := by
        simp [selectedGradient]
      rw [e4]
      exact ⟨by linarith [not_lt.mp h3], not_lt.mp h3, h2, le_refl _⟩

/-! ## Equalising twice -/

/-- After `equalizeBayerFlat` each of the four normalised means is 1. -/
theorem specFactor_equalized (c : Collab) (image : MyImage)
    (hlen : image.dataCurrent.length = image.naxis1 * image.naxis2)
    (hT : 0 < (image.naxis1 / 2) * (image.naxis2 / 2))
    (hmean : tileMean image.naxis1 image.naxis2 image.dataCurrent 0 0 ≠ 0
      ∧ tileMean image.naxis1 image.naxis2 image.dataCurrent 1 0 ≠ 0
      ∧ tileMean image.naxis1 image.naxis2 image.dataCurrent 0 1 ≠ 0
      ∧ tileMean image.naxis1 image.naxis2 image.dataCurrent 1 1 ≠ 0)
    (hA : tileAverage image.naxis1 image.naxis2 image.dataCurrent ≠ 0) :
    (∀ dx dy, dx < 2 → dy < 2 →
      tileMean image.naxis1 image.naxis2 (equalizeBayerFlat c image).dataCurrent dx dy
        = tileAverage image.naxis1 image.naxis2 image.dataCurrent)
    ∧ tileAverage image.naxis1 image.naxis2 (equalizeBayerFlat c image).dataCurrent
        = tileAverage image.naxis1 image.naxis2 image.dataCurrent
    ∧ ∀ dx dy, dx < 2 → dy < 2 →
      specFactor image.naxis1 image.naxis2 (equalizeBayerFlat c image).dataCurrent dx dy
        = 1 := by
  obtain ⟨m00, m10, m01, m11⟩ := hmean
  have hall : ∀ dx dy, dx < 2 → dy < 2 →
      tileMean image.naxis1 image.naxis2 (equalizeBayerFlat c image).dataCurrent dx dy
        = tileAverage image.naxis1 image.naxis2 image.dataCurrent := by
    intro dx dy hx hy
    apply tileMean_equalized c image hlen hT dx dy hx hy
    interval_cases dx <;> interval_cases dy <;> assumption
  have havg : tileAverage image.naxis1 image.naxis2 (equalizeBayerFlat c image).dataCurrent
      = tileAverage image.naxis1 image.naxis2 image.dataCurrent := by
    rw [tileAverage, hall 0 0 (by decide) (by decide), hall 1 0 (by decide) (by decide),
      hall 0 1 (by decide) (by decide), hall 1 1 (by decide) (by decide)]
    ring
  refine ⟨hall, havg, fun dx dy hx hy => ?_⟩
  rw [specFactor, hall dx dy hx hy, havg]
  exact div_self hA

/-- Applying `equalizeBayerFlat` to an equalised grid leaves the pixels as they are. -/
theorem equalizeBayerFlat_twice (c : Collab) (image : MyImage)
    (hlen : image.dataCurrent.length = image.naxis1 * image.naxis2)
    (hT : 0 < (image.naxis1 / 2) * (image.naxis2 / 2))
    (hmean : tileMean image.naxis1 image.naxis2 image.dataCurrent 0 0 ≠ 0
      ∧ tileMean image.naxis1 image.naxis2 image.dataCurrent 1 0 ≠ 0
      ∧ tileMean image.naxis1 image.naxis2 image.dataCurrent 0 1 ≠ 0
      ∧ tileMean image.naxis1 image.naxis2 image.dataCurrent 1 1 ≠ 0)
    (hA : tileAverage image.naxis1 image.naxis2 image.dataCurrent ≠ 0) :
    (equalizeBayerFlat c (equalizeBayerFlat c image)).dataCurrent
      = (equalizeBayerFlat c image).dataCurrent := by
  obtain ⟨_, _, _, _, l1, _⟩ := equalizeBayerFlat_spec c image hlen hT hmean hA
  obtain ⟨hall, havg, hone⟩ := specFactor_equalized c image hlen hT hmean hA
  have hn1 : (equalizeBayerFlat c image).naxis1 = image.naxis1 := rfl
  have hn2 : (equalizeBayerFlat c image).naxis2 = image.naxis2 := rfl
  have hmean2 : tileMean (equalizeBayerFlat c image).naxis1 (equalizeBayerFlat c image).naxis2
        (equalizeBayerFlat c image).dataCurrent 0 0 ≠ 0
      ∧ tileMean (equalizeBayerFlat c image).naxis1 (equalizeBayerFlat c image).naxis2
        (equalizeBayerFlat c image).dataCurrent 1 0 ≠ 0
      ∧ tileMean (equalizeBayerFlat c image).naxis1 (equalizeBayerFlat c image).naxis2
        (equalizeBayerFlat c image).dataCurrent 0 1 ≠ 0
      ∧ tileMean (equalizeBayerFlat c image).naxis1 (equalizeBayerFlat c image).naxis2
        (equalizeBayerFlat c image).dataCurrent 1 1 ≠ 0 := by
    rw [hn1, hn2, hall 0 0 (by decide) (by decide), hall 1 0 (by decide) (by decide),
      hall 0 1 (by decide) (by decide), hall 1 1 (by decide) (by decide)]
    exact ⟨hA, hA, hA, hA⟩
  obtain ⟨_, _, _, _, l2, p2⟩ := equalizeBayerFlat_spec c (equalizeBayerFlat c image)
    (by rw [hn1, hn2]; exact l1) (by rw [hn1, hn2]; exact hT) hmean2
    (by rw [hn1, hn2, havg]; exact hA)
  rw [hn1, hn2] at l2 p2
  apply ext_rd _ _ (l2.trans l1.symm)
  intro q hq
  rw [l2] at hq
  obtain ⟨i, j, hi, hj, rfl⟩ := pixel_exists hq
  rw [p2 i j hi hj]
  split_ifs
  · rw [hone (i % 2) (j % 2) (Nat.mod_lt _ (by decide)) (Nat.mod_lt _ (by decide)), div_one]
  · rfl

/-- C22: for every grid with at least one complete 2x2 tile whose four sub-position means
are nonzero and have a nonzero average, applying `equalizeBayerFlat` twice yields the same
pixel buffer as applying it once. -/
theorem equalizeBayerFlat_idempotent (c : Collab) (image : MyImage)
    (hlen : image.dataCurrent.length = image.naxis1 * image.naxis2)
    (hT : 0 < (image.naxis1 / 2) * (image.naxis2 / 2))
    (hmean : tileMean image.naxis1 image.naxis2 image.dataCurrent 0 0 ≠ 0
      ∧ tileMean image.naxis1 image.naxis2 image.dataCurrent 1 0 ≠ 0
      ∧ tileMean image.naxis1 image.naxis2 image.dataCurrent 0 1 ≠ 0
      ∧ tileMean image.naxis1 image.naxis2 image.dataCurrent 1 1 ≠ 0)
    (hA : tileAverage image.naxis1 image.naxis2 image.dataCurrent ≠ 0) :
    (equalizeBayerFlat c (equalizeBayerFlat c image)).dataCurrent
      = (equalizeBayerFlat c image).dataCurrent :=
  equalizeBayerFlat_twice c image hlen hT hmean hA

/-- Instance of C22: a 3x2 grid, whose third column belongs to no complete tile. -/
theorem equalizeBayerFlat_idempotent_witness :
    (0 < ((rawImage "RGGB" 3 2 [1, 2, 7, 3, 6, 9]).naxis1 / 2)
        * ((rawImage "RGGB" 3 2 [1, 2, 7, 3, 6, 9]).naxis2 / 2))
    ∧ tileAverage 3 2 [1, 2, 7, 3, 6, 9] ≠ 0
    ∧ (equalizeBayerFlat noCollab
          (equalizeBayerFlat noCollab (rawImage "RGGB" 3 2 [1, 2, 7, 3, 6, 9]))).dataCurrent
        = (equalizeBayerFlat noCollab (rawImage "RGGB" 3 2 [1, 2, 7, 3, 6, 9])).dataCurrent := by
  have hT : 0 < ((rawImage "RGGB" 3 2 [1, 2, 7, 3, 6, 9]).naxis1 / 2)
        * ((rawImage "RGGB" 3 2 [1, 2, 7, 3, 6, 9]).naxis2 / 2) := by decide
  have hA : tileAverage 3 2 [1, 2, 7, 3, 6, 9] ≠ 0 := by
    simp [tileAverage, tileMean, tileSum, Finset.sum_range_succ, rd]
    norm_num
  have hm : tileMean 3 2 [1, 2, 7, 3, 6, 9] 0 0 ≠ 0
      ∧ tileMean 3 2 [1, 2, 7, 3, 6, 9] 1 0 ≠ 0
      ∧ tileMean 3 2 [1, 2, 7, 3, 6, 9] 0 1 ≠ 0
      ∧ tileMean 3 2 [1, 2, 7, 3, 6, 9] 1 1 ≠ 0 := by
    simp [tileMean, tileSum, Finset.sum_range_succ, rd]
  exact ⟨hT, hA, equalizeBayerFlat_idempotent noCollab (rawImage "RGGB" 3 2 [1, 2, 7, 3, 6, 9])
    rfl hT hm hA⟩

end THELI
